import Mathlib

/-!
Verification development for the convection/layer-integration engine of the
PlanetProfile repository (src/Thermodynamics/FromLiterature/Convection.py).

The shallow embedding models the module's three phase integrators
`IceIConvect`, `IceIIIConvect`, `IceVConvect` over real-valued shell arrays
(`ℕ → ℝ`).  Python float arithmetic is modelled by exact real arithmetic and
numpy's elementwise `**` by `Real.rpow`.  The classifier
`ConvectionDeschampsSotin2001` and the constant table `Constants` live in
modules that are not part of the verified sources, so they are modelled from
the spec as an oracle (`ConvEnv`) and a positive constant respectively.
Raised Python exceptions are modelled by `Except`.
-/

set_option maxHeartbeats 4000000
set_option linter.unusedVariables false

noncomputable section

namespace PlanetProfile

open Classical

/-- Python exceptions that the Convection module can raise: `ValueError`
(explicit `raise` statements) and `NameError` (call of the undefined name
`ClathrateLayers`). -/
inductive PyErr where
  | valueError : PyErr
  | nameError : PyErr
deriving DecidableEq

/-- Modelled from the spec: the gravitational constant `Constants.G` imported
from `Utilities.dataStructs`, which is not among the verified sources.  Only
its positivity is relevant to any claim; the CODATA value is used. -/
def Constants.G : ℝ := 6.674e-11

/-- An equation-of-state function set, as used through
`Planet.Ocean.surfIceEOS[...]` / `Planet.Ocean.iceEOS[...]`: each member maps
`(P_MPa, T_K)` to a material property.  The spec's EOS Oracle (vectorized
calls are elementwise). -/
structure EOSFns where
  fn_rho_kgm3 : ℝ → ℝ → ℝ
  fn_Cp_JkgK : ℝ → ℝ → ℝ
  fn_alpha_pK : ℝ → ℝ → ℝ
  fn_kTherm_WmK : ℝ → ℝ → ℝ

/-- The `Planet.Bulk` attributes read by the Convection module. -/
structure BulkFields where
  Tsurf_K : ℝ
  R_m : ℝ
  M_kg : ℝ
  Tb_K : ℝ
  TbIII_K : ℝ
  TbV_K : ℝ
  clathMaxDepth_m : ℝ

/-- The `Planet.Steps` attributes read by the Convection module. -/
structure StepsFields where
  nClath : ℕ
  nIbottom : ℕ
  nIIIbottom : ℕ
  nSurfIce : ℕ

/-- The `Planet.Do` flags read by the Convection module. -/
structure DoFields where
  CLATHRATE : Bool
  EQUIL_Q : Bool

/-- The `Planet.Ocean` attributes read or written by the Convection module. -/
structure OceanFields where
  EOS : EOSFns
  surfIceEOS : String → EOSFns
  iceEOS : String → EOSFns
  QfromMantle_W : ℝ

/-- The mutable `Planet` aggregate: shell arrays indexed from the surface
(index 0) inward, plus the scalar attributes the Convection module assigns. -/
structure PlanetState where
  Bulk : BulkFields
  Steps : StepsFields
  Do : DoFields
  Ocean : OceanFields
  z_m : ℕ → ℝ
  r_m : ℕ → ℝ
  P_MPa : ℕ → ℝ
  T_K : ℕ → ℝ
  rho_kgm3 : ℕ → ℝ
  Cp_JkgK : ℕ → ℝ
  alpha_pK : ℕ → ℝ
  kTherm_WmK : ℕ → ℝ
  g_ms2 : ℕ → ℝ
  MLayer_kg : ℕ → ℝ
  PbClath_MPa : ℝ
  PbI_MPa : ℝ
  PbIII_MPa : ℝ
  PbV_MPa : ℝ
  zClath_m : ℝ
  Tconv_K : ℝ
  etaConv_Pas : ℝ
  eLid_m : ℝ
  deltaTBL_m : ℝ
  RaConvect : ℝ
  TconvIII_K : ℝ
  etaConvIII_Pas : ℝ
  eLidIII_m : ℝ
  deltaTBLIII_m : ℝ
  RaConvectIII : ℝ
  TconvV_K : ℝ
  etaConvV_Pas : ℝ
  eLidV_m : ℝ
  deltaTBLV_m : ℝ
  RaConvectV : ℝ

/-- The 6-tuple returned by `ConvectionDeschampsSotin2001`. -/
structure ConvResult where
  Tconv_K : ℝ
  etaConv_Pas : ℝ
  eLid_m : ℝ
  deltaTBL_m : ℝ
  QfromMantle_W : ℝ
  Ra : ℝ

/-- Modelled from the spec: the convection-regime classifier
`ConvectionDeschampsSotin2001`, imported from
`Thermodynamics.FromLiterature.ThermalProfiles` which is not among the
verified sources.  It is treated as an oracle with the exact argument list of
the import site (surface temperature, body radius, top conductivity, bottom
temperature, layer thickness, gravity, mid pressure, ocean EOS, phase EOS,
phase number, equilibrium flag). -/
structure ConvEnv where
  ConvectionDeschampsSotin2001 :
    ℝ → ℝ → ℝ → ℝ → ℝ → ℝ → ℝ → EOSFns → EOSFns → ℕ → Bool → ConvResult

instance : Inhabited EOSFns :=
  ⟨⟨fun _ _ => 0, fun _ _ => 0, fun _ _ => 0, fun _ _ => 0⟩⟩

instance : Inhabited BulkFields := ⟨⟨0, 0, 0, 0, 0, 0, 0⟩⟩

instance : Inhabited StepsFields := ⟨⟨0, 0, 0, 0⟩⟩

instance : Inhabited DoFields := ⟨⟨false, false⟩⟩

instance : Inhabited OceanFields :=
  ⟨⟨default, fun _ => default, fun _ => default, 0⟩⟩

instance : Inhabited PlanetState :=
  ⟨⟨default, default, default, default,
    fun _ => 0, fun _ => 0, fun _ => 0, fun _ => 0, fun _ => 0,
    fun _ => 0, fun _ => 0, fun _ => 0, fun _ => 0, fun _ => 0,
    0, 0, 0, 0, 0, 0, 0, 0, 0, 0, 0, 0, 0, 0, 0, 0, 0, 0, 0, 0⟩⟩

/-- Extract the resulting planet state of a run, with a junk default on the
error branch (used only to phrase closed counterexample statements). -/
def resSt : Except PyErr PlanetState → PlanetState
  | Except.ok q => q
  | Except.error _ => default

/-- Temperature array of a run's result. -/
def resT (e : Except PyErr PlanetState) (i : ℕ) : ℝ := (resSt e).T_K i

/-- `Ocean.QfromMantle_W` of a run's result. -/
def resQ (e : Except PyErr PlanetState) : ℝ := (resSt e).Ocean.QfromMantle_W

/-- The `next(i[0] for i,val in np.ndenumerate(z) if val > c)` idiom: first
index whose entry exceeds the threshold (junk value 0 when none exists; every
use in the module is in a branch where one exists). -/
def firstIdxAbove (z : ℕ → ℝ) (c : ℝ) : ℕ :=
  if h : ∃ i, c < z i then Nat.find h else 0

/-- Left fold of a loop body over the index range `[a, a+n)`, the shape of all
`for i in range(lo, hi)` loops in the module. -/
def foldRange {α : Type} (f : α → ℕ → α) (s : α) (a n : ℕ) : α :=
  (List.range' a n).foldl f s

/-- The geometry/mass/gravity block shared verbatim by every loop of the
module: from the pressure step and previous-shell gravity and density, update
depth, radius, the layer mass below the previous shell, the running mass
above, and gravity from the shell theorem.  The second component of the state
is the local accumulator `thisMAbove_kg`. -/
def geomStep (s : PlanetState × ℝ) (i : ℕ) : PlanetState × ℝ :=
  let p := s.1
  let z := p.z_m (i-1) + (p.P_MPa i - p.P_MPa (i-1)) * 1e6 / p.g_ms2 (i-1) / p.rho_kgm3 (i-1)
  let r := p.Bulk.R_m - z
  let ml := 4/3 * Real.pi * p.rho_kgm3 (i-1) * ((p.r_m (i-1))^3 - r^3)
  let mA := s.2 + ml
  ({p with z_m := Function.update p.z_m i z,
           r_m := Function.update p.r_m i r,
           MLayer_kg := Function.update p.MLayer_kg (i-1) ml,
           g_ms2 := Function.update p.g_ms2 i
             (Constants.G * (p.Bulk.M_kg - mA) / r^2)}, mA)

/-- One iteration of a convecting-interior loop: the geometry block, then the
adiabatic temperature step from previous-shell transport properties, then
re-evaluation of the four material properties at the new `(P, T)` from the
given EOS function set. -/
def convectStep (eos : EOSFns) (s : PlanetState × ℝ) (i : ℕ) : PlanetState × ℝ :=
  let t := geomStep s i
  let p := t.1
  let T := p.T_K (i-1) + p.T_K (i-1) * p.alpha_pK (i-1) / p.Cp_JkgK (i-1) / p.rho_kgm3 (i-1)
             * (p.P_MPa i - p.P_MPa (i-1)) * 1e6
  ({p with T_K := Function.update p.T_K i T,
           rho_kgm3 := Function.update p.rho_kgm3 i (eos.fn_rho_kgm3 (p.P_MPa i) T),
           Cp_JkgK := Function.update p.Cp_JkgK i (eos.fn_Cp_JkgK (p.P_MPa i) T),
           alpha_pK := Function.update p.alpha_pK i (eos.fn_alpha_pK (p.P_MPa i) T),
           kTherm_WmK := Function.update p.kTherm_WmK i (eos.fn_kTherm_WmK (p.P_MPa i) T)}, mA)
where mA := (geomStep s i).2

/-- Conductive-lid reassignment: power-law temperature between the fixed top
temperature `T[start]` and the convected temperature, parameterized by the
ratio of local pressure to the pressure at the lid's base `P[iCd]`, on slice
`[start, iCd]`; then the vectorized EOS re-evaluation of the four properties
on the same slice (pressures held fixed). -/
def lidReassign (lidEOS : EOSFns) (start iCd : ℕ) (Tconv : ℝ) (p : PlanetState) : PlanetState :=
  let PconvTop := p.P_MPa iCd
  let Ttop := p.T_K start
  let p1 := {p with T_K := fun i => if start ≤ i ∧ i ≤ iCd then
      Tconv ^ (p.P_MPa i / PconvTop) * Ttop ^ (1 - p.P_MPa i / PconvTop) else p.T_K i}
  {p1 with
    rho_kgm3 := fun i => if start ≤ i ∧ i ≤ iCd then
      lidEOS.fn_rho_kgm3 (p1.P_MPa i) (p1.T_K i) else p1.rho_kgm3 i,
    Cp_JkgK := fun i => if start ≤ i ∧ i ≤ iCd then
      lidEOS.fn_Cp_JkgK (p1.P_MPa i) (p1.T_K i) else p1.Cp_JkgK i,
    alpha_pK := fun i => if start ≤ i ∧ i ≤ iCd then
      lidEOS.fn_alpha_pK (p1.P_MPa i) (p1.T_K i) else p1.alpha_pK i,
    kTherm_WmK := fun i => if start ≤ i ∧ i ≤ iCd then
      lidEOS.fn_kTherm_WmK (p1.P_MPa i) (p1.T_K i) else p1.kTherm_WmK i}

/-- Lid reassignment, then the lid geometry loop `range(start+1, iCd)`, then
the convecting-interior loop `range(iCd, iCv)`: the whole state just before
the bottom thermal-boundary-layer section. -/
def threeZonePre (lidEOS convEOS : EOSFns) (start iCd iCv : ℕ)
    (Tconv mA0 : ℝ) (p : PlanetState) : PlanetState × ℝ :=
  let s3 := foldRange geomStep (lidReassign lidEOS start iCd Tconv p, mA0)
      (start+1) (iCd - (start+1))
  foldRange (convectStep convEOS) s3 iCd (iCv - iCd)

/-- Bottom thermal-boundary-layer reassignment on `indsTBL = [iCv, bottom]`:
power-law temperature anchored at the bottom transition temperature `Tb` and
the convecting interior's last temperature `T[iCv-1]`, parameterized by
`P/Pb`; then the vectorized EOS re-evaluation on `indsTBL[:-1] = [iCv,
bottom)`. -/
def tblReassign (tblEOS : EOSFns) (iCv bottom : ℕ) (Pb Tb : ℝ) (p4 : PlanetState) : PlanetState :=
  let Tlast := p4.T_K (iCv - 1)
  let p5 := {p4 with T_K := fun i => if iCv ≤ i ∧ i ≤ bottom then
      Tb ^ (p4.P_MPa i / Pb) * Tlast ^ (1 - p4.P_MPa i / Pb) else p4.T_K i}
  {p5 with
    rho_kgm3 := fun i => if iCv ≤ i ∧ i < bottom then
      tblEOS.fn_rho_kgm3 (p5.P_MPa i) (p5.T_K i) else p5.rho_kgm3 i,
    Cp_JkgK := fun i => if iCv ≤ i ∧ i < bottom then
      tblEOS.fn_Cp_JkgK (p5.P_MPa i) (p5.T_K i) else p5.Cp_JkgK i,
    alpha_pK := fun i => if iCv ≤ i ∧ i < bottom then
      tblEOS.fn_alpha_pK (p5.P_MPa i) (p5.T_K i) else p5.alpha_pK i,
    kTherm_WmK := fun i => if iCv ≤ i ∧ i < bottom then
      tblEOS.fn_kTherm_WmK (p5.P_MPa i) (p5.T_K i) else p5.kTherm_WmK i}

/-- The full three-zone state: pre-TBL stages, TBL reassignment, and the TBL
geometry loop over `range(iCv, bottom+1)`. -/
def threeZoneFinal (lidEOS convEOS tblEOS : EOSFns) (start iCd iCv bottom : ℕ)
    (Tconv Pb Tb mA0 : ℝ) (p : PlanetState) : PlanetState :=
  let s4 := threeZonePre lidEOS convEOS start iCd iCv Tconv mA0 p
  (foldRange geomStep (tblReassign tblEOS iCv bottom Pb Tb s4.1, s4.2)
      iCv (bottom + 1 - iCv)).1

/-- The common three-zone (conductive lid / convecting interior / bottom
boundary layer) section of the three integrators.  `check` is true for the
ice III and ice V variants, which raise `ValueError` when the target bottom
temperature is below the adiabatically reached temperature at shell `iCv-1`,
before the boundary-layer section runs; the ice I variant has no check. -/
def threeZoneCore (lidEOS convEOS tblEOS : EOSFns) (start iCd iCv bottom : ℕ)
    (Tconv Pb Tb mA0 : ℝ) (check : Bool) (p : PlanetState) : Except PyErr PlanetState :=
  let s4 := threeZonePre lidEOS convEOS start iCd iCv Tconv mA0 p
  if check = true ∧ Tb < s4.1.T_K (iCv - 1) then Except.error PyErr.valueError
  else Except.ok (threeZoneFinal lidEOS convEOS tblEOS start iCd iCv bottom Tconv Pb Tb mA0 p)

/-- The classifier call of `IceIConvect`, with its exact argument list. -/
def iceIConvParams (env : ConvEnv) (p : PlanetState) : ConvResult :=
  env.ConvectionDeschampsSotin2001 p.Bulk.Tsurf_K p.Bulk.R_m (p.kTherm_WmK 0)
    p.Bulk.Tb_K (p.z_m (p.Steps.nIbottom - 1)) (p.g_ms2 0)
    ((p.PbI_MPa - p.PbClath_MPa) / 2) p.Ocean.EOS (p.Ocean.surfIceEOS "Ih") 1
    p.Do.EQUIL_Q

/-- `IceIConvect` after the classifier assignments (`Tconv_K`, `etaConv_Pas`,
`eLid_m`, `deltaTBL_m`, `Ocean.QfromMantle_W`, `RaConvect`) and the clathrate
lid-depth warning reassignment. -/
def iceIAssigned (env : ConvEnv) (p0 : PlanetState) : PlanetState :=
  let cr := iceIConvParams env p0
  let p := {p0 with Tconv_K := cr.Tconv_K, etaConv_Pas := cr.etaConv_Pas,
                    eLid_m := cr.eLid_m, deltaTBL_m := cr.deltaTBL_m,
                    RaConvect := cr.Ra,
                    Ocean := {p0.Ocean with QfromMantle_W := cr.QfromMantle_W}}
  if p.eLid_m < p.zClath_m then
    {p with Bulk := {p.Bulk with clathMaxDepth_m := p.eLid_m}} else p

/-- `nConduct` of `IceIConvect`: first index with depth beyond the lid. -/
def iceI_nConduct (env : ConvEnv) (p0 : PlanetState) : ℕ :=
  firstIdxAbove p0.z_m (iceIConvParams env p0).eLid_m

/-- `nConduct + nConvect` of `IceIConvect` (Python `nConvect` is the first
index with depth beyond `zbI - deltaTBL`, minus `nConduct`). -/
def iceI_nConvectEnd (env : ConvEnv) (p0 : PlanetState) : ℕ :=
  iceI_nConduct env p0 +
    (firstIdxAbove p0.z_m (p0.z_m (p0.Steps.nIbottom - 1) - (iceIConvParams env p0).deltaTBL_m)
      - iceI_nConduct env p0)

/-- `IceIConvect(Planet, Params)` from Convection.py.  The clathrate branch
of the three-zone path calls `ClathrateLayers`, a name neither defined in
nor brought into the module, so it raises `NameError`. -/
def IceIConvect (env : ConvEnv) (p0 : PlanetState) : Except PyErr PlanetState :=
  let p := iceIAssigned env p0
  if p0.z_m (p0.Steps.nIbottom - 1) ≤ (iceIConvParams env p0).eLid_m + (iceIConvParams env p0).deltaTBL_m then
    Except.ok {p with Ocean := {p.Ocean with QfromMantle_W :=
      (p.T_K 1 - p.Bulk.Tsurf_K) / (p.Bulk.R_m - p.r_m 1) * p.kTherm_WmK 0
        * 4 * Real.pi * p.Bulk.R_m ^ 2}}
  else if iceI_nConduct env p0 < p0.Steps.nClath then Except.error PyErr.valueError
  else if p0.Do.CLATHRATE = true then Except.error PyErr.nameError
  else threeZoneCore (p0.Ocean.surfIceEOS "Ih") (p0.Ocean.surfIceEOS "Ih") (p0.Ocean.surfIceEOS "Ih")
    0 (iceI_nConduct env p0) (iceI_nConvectEnd env p0) p0.Steps.nIbottom
    (iceIConvParams env p0).Tconv_K p0.PbI_MPa p0.Bulk.Tb_K 0 false (iceIAssigned env p0)

/-- The classifier call of `IceIIIConvect`, with its exact argument list. -/
def iceIIIConvParams (env : ConvEnv) (p : PlanetState) : ConvResult :=
  env.ConvectionDeschampsSotin2001 p.Bulk.Tb_K (p.r_m p.Steps.nIbottom)
    (p.kTherm_WmK p.Steps.nIbottom) p.Bulk.TbIII_K
    (p.z_m (p.Steps.nIIIbottom - 1) - p.z_m (p.Steps.nIbottom - 1))
    (p.g_ms2 p.Steps.nIbottom) ((p.PbIII_MPa - p.PbI_MPa) / 2)
    p.Ocean.EOS (p.Ocean.surfIceEOS "III") 3 p.Do.EQUIL_Q

/-- `IceIIIConvect` after the classifier assignments. -/
def iceIIIAssigned (env : ConvEnv) (p0 : PlanetState) : PlanetState :=
  let cr := iceIIIConvParams env p0
  {p0 with TconvIII_K := cr.Tconv_K, etaConvIII_Pas := cr.etaConv_Pas,
           eLidIII_m := cr.eLid_m, deltaTBLIII_m := cr.deltaTBL_m,
           RaConvectIII := cr.Ra,
           Ocean := {p0.Ocean with QfromMantle_W := cr.QfromMantle_W}}

/-- `iConductEnd` of `IceIIIConvect`. -/
def iceIII_iConductEnd (env : ConvEnv) (p0 : PlanetState) : ℕ :=
  firstIdxAbove p0.z_m (p0.z_m p0.Steps.nIbottom + (iceIIIConvParams env p0).eLid_m)

/-- `iConvectEnd` of `IceIIIConvect`. -/
def iceIII_iConvectEnd (env : ConvEnv) (p0 : PlanetState) : ℕ :=
  firstIdxAbove p0.z_m (p0.z_m p0.Steps.nIbottom +
    (p0.z_m (p0.Steps.nIIIbottom - 1) - p0.z_m (p0.Steps.nIbottom - 1))
    - (iceIIIConvParams env p0).deltaTBL_m)

/-- `IceIIIConvect(Planet, Params)` from Convection.py. -/
def IceIIIConvect (env : ConvEnv) (p0 : PlanetState) : Except PyErr PlanetState :=
  if p0.z_m (p0.Steps.nIIIbottom - 1) - p0.z_m (p0.Steps.nIbottom - 1)
      ≤ (iceIIIConvParams env p0).eLid_m + (iceIIIConvParams env p0).deltaTBL_m then
    Except.ok (iceIIIAssigned env p0)
  else threeZoneCore (p0.Ocean.surfIceEOS "III") (p0.Ocean.surfIceEOS "III") (p0.Ocean.surfIceEOS "III")
    p0.Steps.nIbottom (iceIII_iConductEnd env p0) (iceIII_iConvectEnd env p0) p0.Steps.nIIIbottom
    (iceIIIConvParams env p0).Tconv_K p0.PbIII_MPa p0.Bulk.TbIII_K
    (∑ j ∈ Finset.range p0.Steps.nIbottom, p0.MLayer_kg j) true (iceIIIAssigned env p0)

/-- The classifier call of `IceVConvect`, with its exact argument list. -/
def iceVConvParams (env : ConvEnv) (p : PlanetState) : ConvResult :=
  env.ConvectionDeschampsSotin2001 p.Bulk.TbIII_K (p.r_m p.Steps.nIIIbottom)
    (p.kTherm_WmK p.Steps.nIIIbottom) p.Bulk.TbV_K
    (p.z_m (p.Steps.nSurfIce - 1) - p.z_m (p.Steps.nIIIbottom - 1))
    (p.g_ms2 p.Steps.nIIIbottom) ((p.PbV_MPa - p.PbIII_MPa) / 2)
    p.Ocean.EOS (p.Ocean.surfIceEOS "V") 5 p.Do.EQUIL_Q

/-- `IceVConvect` after the classifier assignments. -/
def iceVAssigned (env : ConvEnv) (p0 : PlanetState) : PlanetState :=
  let cr := iceVConvParams env p0
  {p0 with TconvV_K := cr.Tconv_K, etaConvV_Pas := cr.etaConv_Pas,
           eLidV_m := cr.eLid_m, deltaTBLV_m := cr.deltaTBL_m,
           RaConvectV := cr.Ra,
           Ocean := {p0.Ocean with QfromMantle_W := cr.QfromMantle_W}}

/-- `iConductEnd` of `IceVConvect`. -/
def iceV_iConductEnd (env : ConvEnv) (p0 : PlanetState) : ℕ :=
  firstIdxAbove p0.z_m (p0.z_m p0.Steps.nIIIbottom + (iceVConvParams env p0).eLid_m)

/-- `iConvectEnd` of `IceVConvect`. -/
def iceV_iConvectEnd (env : ConvEnv) (p0 : PlanetState) : ℕ :=
  firstIdxAbove p0.z_m (p0.z_m p0.Steps.nIIIbottom +
    (p0.z_m (p0.Steps.nSurfIce - 1) - p0.z_m (p0.Steps.nIIIbottom - 1))
    - (iceVConvParams env p0).deltaTBL_m)

/-- `IceVConvect(Planet, Params)` from Convection.py.  Its conducting lid and
boundary layer read from `Ocean.surfIceEOS['V']` while its convecting
interior reads from `Ocean.iceEOS['V']`. -/
def IceVConvect (env : ConvEnv) (p0 : PlanetState) : Except PyErr PlanetState :=
  if p0.z_m (p0.Steps.nSurfIce - 1) - p0.z_m (p0.Steps.nIIIbottom - 1)
      ≤ (iceVConvParams env p0).eLid_m + (iceVConvParams env p0).deltaTBL_m then
    Except.ok (iceVAssigned env p0)
  else threeZoneCore (p0.Ocean.surfIceEOS "V") (p0.Ocean.iceEOS "V") (p0.Ocean.surfIceEOS "V")
    p0.Steps.nIIIbottom (iceV_iConductEnd env p0) (iceV_iConvectEnd env p0) p0.Steps.nSurfIce
    (iceVConvParams env p0).Tconv_K p0.PbV_MPa p0.Bulk.TbV_K
    (∑ j ∈ Finset.range p0.Steps.nIIIbottom, p0.MLayer_kg j) true (iceVAssigned env p0)

/-- The names defined in or brought into the Convection module by its two
top-of-file module inclusions and its three function definitions.
`ClathrateLayers` is not among them: the clathrate branch raises `NameError`. -/
def convectionModuleNames : List String :=
  ["np", "Constants", "ConductionClathLid", "ConvectionDeschampsSotin2001",
   "kThermIsobaricAnderssonIbari2005", "kThermHobbs1974", "kThermMelinder2007",
   "IceIConvect", "IceIIIConvect", "IceVConvect"]

/-! Concrete instances used to exercise the integrators. -/

/-- A constant EOS function set (ρ = 1000, Cp = 2, α = 0, k = 3). -/
def eosConst : EOSFns := ⟨fun _ _ => 1000, fun _ _ => 2, fun _ _ => 0, fun _ _ => 3⟩

/-- A second constant EOS function set with a different density (ρ = 1100). -/
def eosConstB : EOSFns := ⟨fun _ _ => 1100, fun _ _ => 2, fun _ _ => 0, fun _ _ => 3⟩

/-- A classifier oracle reporting a thin lid (1/2 m) and thin bottom boundary
layer (1/5 m), convected temperature 200 K and mantle heat flow 7 W: the
concrete layers below are thicker, so the three-zone path is taken. -/
def env0 : ConvEnv := ⟨fun _ _ _ _ _ _ _ _ _ _ _ => ⟨200, 1, 1/2, 1/5, 7, 1000⟩⟩

/-- A classifier oracle reporting boundary layers (500 m each) thicker than
any concrete layer below: forces the whole-layer-conduction path. -/
def envWL : ConvEnv := ⟨fun _ _ _ _ _ _ _ _ _ _ _ => ⟨200, 1, 500, 500, 7, 1000⟩⟩

/-- Ocean tables for the concrete runs: all `surfIceEOS` entries are
`eosConst`, all `iceEOS` entries are `eosConstB`. -/
def ocean0 : OceanFields := ⟨eosConst, fun _ => eosConst, fun _ => eosConstB, 0⟩

/-- A concrete surface-ice stack for `IceIConvect`: shells at depth `z = i`,
radius `10 - i`, pressure `P = i` MPa, uniform 100 K, with `nIbottom = 3` and
a 50 K target bottom temperature. -/
def p0 : PlanetState where
  Bulk := ⟨50, 10, 1e12, 50, 150, 150, 0⟩
  Steps := ⟨0, 3, 3, 3⟩
  Do := ⟨false, false⟩
  Ocean := ocean0
  z_m := fun i => (i : ℝ)
  r_m := fun i => 10 - (i : ℝ)
  P_MPa := fun i => (i : ℝ)
  T_K := fun _ => 100
  rho_kgm3 := fun _ => 1000
  Cp_JkgK := fun _ => 2
  alpha_pK := fun _ => 0
  kTherm_WmK := fun _ => 3
  g_ms2 := fun _ => 1000
  MLayer_kg := fun _ => 0
  PbClath_MPa := 0
  PbI_MPa := 2
  PbIII_MPa := 2
  PbV_MPa := 2
  zClath_m := 0
  Tconv_K := 0
  etaConv_Pas := 0
  eLid_m := 0
  deltaTBL_m := 0
  RaConvect := 0
  TconvIII_K := 0
  etaConvIII_Pas := 0
  eLidIII_m := 0
  deltaTBLIII_m := 0
  RaConvectIII := 0
  TconvV_K := 0
  etaConvV_Pas := 0
  eLidV_m := 0
  deltaTBLV_m := 0
  RaConvectV := 0

/-- Variant of `p0` with micro-scale pressure steps (`P = i·1e-6` MPa) and
`nIbottom = 2`, keeping the hydrostatic depth increments small so that all
recomputed gravities stay positive. -/
def pMono : PlanetState :=
  {p0 with Steps := ⟨0, 2, 2, 2⟩, P_MPa := fun i => (i : ℝ) * 1e-6, PbI_MPa := 2e-6}

/-- A concrete stack for `IceIIIConvect`: ice I occupies only shell 0
(`nIbottom = 1`), ice III runs to shell 3; pressures are `0, 0, 1, 2` MPa and
the ice III bottom temperature is 150 K (above the adiabatically propagated
100 K, so the validation check passes). -/
def pIII : PlanetState :=
  {p0 with Steps := ⟨0, 1, 3, 3⟩,
           Bulk := ⟨50, 10, 1e12, 100, 150, 150, 0⟩,
           P_MPa := fun i => if i = 0 then 0 else (i : ℝ) - 1}

/-- `pIII` with the ice III bottom temperature lowered to 50 K, below the
adiabatically propagated 100 K: trips the validation check. -/
def pIIIbad : PlanetState := {pIII with Bulk := {pIII.Bulk with TbIII_K := 50}}

/-- A concrete stack for `IceVConvect` (`nIIIbottom = 1`, `nSurfIce = 3`),
otherwise like `pIII`. -/
def pV : PlanetState := {pIII with Steps := ⟨0, 1, 1, 3⟩}

/-- `pV` with the ice V bottom temperature lowered to 50 K: trips the
validation check. -/
def pVbad : PlanetState := {pV with Bulk := {pV.Bulk with TbV_K := 50}}

/-- `p0` with the clathrate flag enabled. -/
def pClath : PlanetState := {p0 with Do := ⟨true, false⟩}

/-- The final state of the three-zone run of `IceIConvect` on `env0`/`p0`
(lid `[0,0]`, convecting `[1,1]`, boundary layer `[2,3]`). -/
def q0 : PlanetState :=
  threeZoneFinal eosConst eosConst eosConst 0 1 2 3 200 2 50 0 (iceIAssigned env0 p0)

/-- The final state of the three-zone run of `IceIConvect` on `env0`/`pMono`
(lid `[0,0]`, empty convecting zone, boundary layer `[1,2]`). -/
def qMono : PlanetState :=
  threeZoneFinal eosConst eosConst eosConst 0 1 1 2 200 2e-6 50 0 (iceIAssigned env0 pMono)

/-- The final state of the three-zone run of `IceIIIConvect` on `env0`/`pIII`
(lid `[1,1]`, convecting `[2,2]`, boundary layer `[3,3]`). -/
def qIII : PlanetState :=
  threeZoneFinal eosConst eosConst eosConst 1 2 3 3 200 2 150
    (∑ j ∈ Finset.range pIII.Steps.nIbottom, pIII.MLayer_kg j) (iceIIIAssigned env0 pIII)

/-- The final state of the three-zone run of `IceVConvect` on `env0`/`pV`
(lid `[1,1]`, convecting `[2,2]` on `iceEOS['V']`, boundary layer `[3,3]`). -/
def qV : PlanetState :=
  threeZoneFinal eosConst eosConstB eosConst 1 2 3 3 200 2 150
    (∑ j ∈ Finset.range pV.Steps.nIIIbottom, pV.MLayer_kg j) (iceVAssigned env0 pV)

/-! ## Loop algebra -/

lemma foldRange_zero {α : Type} (f : α → ℕ → α) (s : α) (a : ℕ) :
    foldRange f s a 0 = s := rfl

lemma foldRange_succ {α : Type} (f : α → ℕ → α) (s : α) (a n : ℕ) :
    foldRange f s a (n+1) = foldRange f (f s a) (a+1) n := rfl

lemma foldRange_add {α : Type} (f : α → ℕ → α) (s : α) (a m n : ℕ) :
    foldRange f s a (m + n) = foldRange f (foldRange f s a m) (a + m) n := by
  induction m generalizing s a with
  | zero => rw [Nat.zero_add, Nat.add_zero, foldRange_zero]
  | succ m ih =>
      calc foldRange f s a (m + 1 + n)
          = foldRange f (f s a) (a+1) (m + n) := by
            rw [show m + 1 + n = (m + n) + 1 from by omega, foldRange_succ]
        _ = foldRange f (foldRange f (f s a) (a+1) m) (a + 1 + m) n := ih (f s a) (a+1)
        _ = foldRange f (foldRange f s a (m+1)) (a + (m+1)) n := by
            rw [foldRange_succ f s a m, show a + 1 + m = a + (m + 1) from by omega]

lemma foldRange_split {α : Type} (f : α → ℕ → α) (s : α) (a n i : ℕ)
    (h1 : a ≤ i) (h2 : i < a + n) :
    foldRange f s a n =
      foldRange f (f (foldRange f s a (i - a)) i) (i+1) (a + n - (i+1)) := by
  conv_lhs => rw [show n = (i - a) + ((a + n - (i+1)) + 1) from by omega]
  rw [foldRange_add, show a + (i - a) = i from by omega, foldRange_succ]

/-! ## Single-step lemmas for the geometry block -/

lemma geomStep_T (s : PlanetState × ℝ) (i : ℕ) : (geomStep s i).1.T_K = s.1.T_K := rfl

lemma geomStep_P (s : PlanetState × ℝ) (i : ℕ) : (geomStep s i).1.P_MPa = s.1.P_MPa := rfl

lemma geomStep_rho (s : PlanetState × ℝ) (i : ℕ) : (geomStep s i).1.rho_kgm3 = s.1.rho_kgm3 := rfl

lemma geomStep_Cp (s : PlanetState × ℝ) (i : ℕ) : (geomStep s i).1.Cp_JkgK = s.1.Cp_JkgK := rfl

lemma geomStep_alpha (s : PlanetState × ℝ) (i : ℕ) : (geomStep s i).1.alpha_pK = s.1.alpha_pK := rfl

lemma geomStep_k (s : PlanetState × ℝ) (i : ℕ) : (geomStep s i).1.kTherm_WmK = s.1.kTherm_WmK := rfl

lemma geomStep_Bulk (s : PlanetState × ℝ) (i : ℕ) : (geomStep s i).1.Bulk = s.1.Bulk := rfl

lemma geomStep_Ocean (s : PlanetState × ℝ) (i : ℕ) : (geomStep s i).1.Ocean = s.1.Ocean := rfl

lemma geomStep_z_ne {s : PlanetState × ℝ} {i j : ℕ} (h : j ≠ i) :
    (geomStep s i).1.z_m j = s.1.z_m j := Function.update_noteq h _ _

lemma geomStep_r_ne {s : PlanetState × ℝ} {i j : ℕ} (h : j ≠ i) :
    (geomStep s i).1.r_m j = s.1.r_m j := Function.update_noteq h _ _

lemma geomStep_g_ne {s : PlanetState × ℝ} {i j : ℕ} (h : j ≠ i) :
    (geomStep s i).1.g_ms2 j = s.1.g_ms2 j := Function.update_noteq h _ _

lemma geomStep_ML_ne {s : PlanetState × ℝ} {i j : ℕ} (h : j ≠ i - 1) :
    (geomStep s i).1.MLayer_kg j = s.1.MLayer_kg j := Function.update_noteq h _ _

lemma geomStep_z_val (s : PlanetState × ℝ) (i : ℕ) :
    (geomStep s i).1.z_m i =
      s.1.z_m (i-1) + (s.1.P_MPa i - s.1.P_MPa (i-1)) * 1e6 / s.1.g_ms2 (i-1) / s.1.rho_kgm3 (i-1) :=
  Function.update_same _ _ _

lemma geomStep_r_val (s : PlanetState × ℝ) (i : ℕ) :
    (geomStep s i).1.r_m i = s.1.Bulk.R_m - (geomStep s i).1.z_m i := by
  rw [geomStep_z_val]; exact Function.update_same _ _ _

lemma geomStep_ML_val (s : PlanetState × ℝ) (i : ℕ) :
    (geomStep s i).1.MLayer_kg (i-1) =
      4/3 * Real.pi * s.1.rho_kgm3 (i-1) * ((s.1.r_m (i-1))^3 - ((geomStep s i).1.r_m i)^3) := by
  have hr : (geomStep s i).1.r_m i =
      s.1.Bulk.R_m - (s.1.z_m (i-1) + (s.1.P_MPa i - s.1.P_MPa (i-1)) * 1e6 / s.1.g_ms2 (i-1) / s.1.rho_kgm3 (i-1)) :=
    Function.update_same _ _ _
  rw [hr]; exact Function.update_same _ _ _

lemma geomStep_acc (s : PlanetState × ℝ) (i : ℕ) :
    (geomStep s i).2 = s.2 + (geomStep s i).1.MLayer_kg (i-1) := by
  rw [show (geomStep s i).1.MLayer_kg (i-1) =
      4/3 * Real.pi * s.1.rho_kgm3 (i-1) * ((s.1.r_m (i-1))^3 - ((geomStep s i).1.r_m i)^3)
    from geomStep_ML_val s i, geomStep_r_val, geomStep_z_val]
  rfl

lemma geomStep_g_val (s : PlanetState × ℝ) (i : ℕ) :
    (geomStep s i).1.g_ms2 i =
      Constants.G * (s.1.Bulk.M_kg - (geomStep s i).2) / ((geomStep s i).1.r_m i)^2 := by
  rw [geomStep_r_val, geomStep_z_val]
  exact Function.update_same _ _ _

/-! ## Fold lemmas for the geometry loops -/

lemma geomFold_T (s : PlanetState × ℝ) (a n : ℕ) :
    (foldRange geomStep s a n).1.T_K = s.1.T_K := by
  induction n generalizing s a with
  | zero => rfl
  | succ n ih => rw [foldRange_succ, ih, geomStep_T]

lemma geomFold_P (s : PlanetState × ℝ) (a n : ℕ) :
    (foldRange geomStep s a n).1.P_MPa = s.1.P_MPa := by
  induction n generalizing s a with
  | zero => rfl
  | succ n ih => rw [foldRange_succ, ih, geomStep_P]

lemma geomFold_rho (s : PlanetState × ℝ) (a n : ℕ) :
    (foldRange geomStep s a n).1.rho_kgm3 = s.1.rho_kgm3 := by
  induction n generalizing s a with
  | zero => rfl
  | succ n ih => rw [foldRange_succ, ih, geomStep_rho]

lemma geomFold_Cp (s : PlanetState × ℝ) (a n : ℕ) :
    (foldRange geomStep s a n).1.Cp_JkgK = s.1.Cp_JkgK := by
  induction n generalizing s a with
  | zero => rfl
  | succ n ih => rw [foldRange_succ, ih, geomStep_Cp]

lemma geomFold_alpha (s : PlanetState × ℝ) (a n : ℕ) :
    (foldRange geomStep s a n).1.alpha_pK = s.1.alpha_pK := by
  induction n generalizing s a with
  | zero => rfl
  | succ n ih => rw [foldRange_succ, ih, geomStep_alpha]

lemma geomFold_k (s : PlanetState × ℝ) (a n : ℕ) :
    (foldRange geomStep s a n).1.kTherm_WmK = s.1.kTherm_WmK := by
  induction n generalizing s a with
  | zero => rfl
  | succ n ih => rw [foldRange_succ, ih, geomStep_k]

lemma geomFold_Bulk (s : PlanetState × ℝ) (a n : ℕ) :
    (foldRange geomStep s a n).1.Bulk = s.1.Bulk := by
  induction n generalizing s a with
  | zero => rfl
  | succ n ih => rw [foldRange_succ, ih, geomStep_Bulk]

lemma geomFold_Ocean (s : PlanetState × ℝ) (a n : ℕ) :
    (foldRange geomStep s a n).1.Ocean = s.1.Ocean := by
  induction n generalizing s a with
  | zero => rfl
  | succ n ih => rw [foldRange_succ, ih, geomStep_Ocean]

lemma geomFold_z_ne (j : ℕ) :
    ∀ (s : PlanetState × ℝ) (a n : ℕ), (j < a ∨ a + n ≤ j) →
      (foldRange geomStep s a n).1.z_m j = s.1.z_m j := by
  intro s a n
  induction n generalizing s a with
  | zero => intro _; rfl
  | succ n ih =>
      intro h
      rw [foldRange_succ, ih (geomStep s a) (a+1) (by omega)]
      exact geomStep_z_ne (by omega)

lemma geomFold_r_ne (j : ℕ) :
    ∀ (s : PlanetState × ℝ) (a n : ℕ), (j < a ∨ a + n ≤ j) →
      (foldRange geomStep s a n).1.r_m j = s.1.r_m j := by
  intro s a n
  induction n generalizing s a with
  | zero => intro _; rfl
  | succ n ih =>
      intro h
      rw [foldRange_succ, ih (geomStep s a) (a+1) (by omega)]
      exact geomStep_r_ne (by omega)

lemma geomFold_g_ne (j : ℕ) :
    ∀ (s : PlanetState × ℝ) (a n : ℕ), (j < a ∨ a + n ≤ j) →
      (foldRange geomStep s a n).1.g_ms2 j = s.1.g_ms2 j := by
  intro s a n
  induction n generalizing s a with
  | zero => intro _; rfl
  | succ n ih =>
      intro h
      rw [foldRange_succ, ih (geomStep s a) (a+1) (by omega)]
      exact geomStep_g_ne (by omega)

lemma geomFold_ML_ne (j : ℕ) :
    ∀ (s : PlanetState × ℝ) (a n : ℕ), 1 ≤ a → (j + 1 < a ∨ a + n ≤ j + 1) →
      (foldRange geomStep s a n).1.MLayer_kg j = s.1.MLayer_kg j := by
  intro s a n
  induction n generalizing s a with
  | zero => intro _ _; rfl
  | succ n ih =>
      intro ha h
      rw [foldRange_succ, ih (geomStep s a) (a+1) (by omega) (by omega)]
      exact geomStep_ML_ne (by omega)

lemma geomFold_z_val (s : PlanetState × ℝ) (a n i : ℕ)
    (ha : 1 ≤ a) (h1 : a ≤ i) (h2 : i < a + n) :
    (foldRange geomStep s a n).1.z_m i =
      (foldRange geomStep s a n).1.z_m (i-1)
      + ((foldRange geomStep s a n).1.P_MPa i - (foldRange geomStep s a n).1.P_MPa (i-1)) * 1e6
        / (foldRange geomStep s a n).1.g_ms2 (i-1) / (foldRange geomStep s a n).1.rho_kgm3 (i-1) := by
  rw [foldRange_split geomStep s a n i h1 h2]
  rw [geomFold_z_ne i _ (i+1) _ (Or.inl (by omega)),
      geomFold_z_ne (i-1) _ (i+1) _ (Or.inl (by omega)),
      geomFold_P,
      geomFold_g_ne (i-1) _ (i+1) _ (Or.inl (by omega)),
      geomFold_rho]
  rw [geomStep_z_ne (show i - 1 ≠ i by omega),
      geomStep_g_ne (show i - 1 ≠ i by omega),
      geomStep_P, geomStep_rho]
  exact geomStep_z_val _ i

lemma geomFold_r_val (s : PlanetState × ℝ) (a n i : ℕ)
    (ha : 1 ≤ a) (h1 : a ≤ i) (h2 : i < a + n) :
    (foldRange geomStep s a n).1.r_m i =
      s.1.Bulk.R_m - (foldRange geomStep s a n).1.z_m i := by
  rw [foldRange_split geomStep s a n i h1 h2]
  rw [geomFold_r_ne i _ (i+1) _ (Or.inl (by omega)),
      geomFold_z_ne i _ (i+1) _ (Or.inl (by omega))]
  rw [geomStep_r_val, geomFold_Bulk]

lemma geomFold_ML_val (s : PlanetState × ℝ) (a n i : ℕ)
    (ha : 1 ≤ a) (h1 : a ≤ i) (h2 : i < a + n) :
    (foldRange geomStep s a n).1.MLayer_kg (i-1) =
      4/3 * Real.pi * (foldRange geomStep s a n).1.rho_kgm3 (i-1)
        * (((foldRange geomStep s a n).1.r_m (i-1))^3 - ((foldRange geomStep s a n).1.r_m i)^3) := by
  rw [foldRange_split geomStep s a n i h1 h2]
  rw [geomFold_ML_ne (i-1) _ (i+1) _ (by omega) (Or.inl (by omega)),
      geomFold_rho,
      geomFold_r_ne (i-1) _ (i+1) _ (Or.inl (by omega)),
      geomFold_r_ne i _ (i+1) _ (Or.inl (by omega))]
  rw [geomStep_rho, geomStep_r_ne (show i - 1 ≠ i by omega)]
  exact geomStep_ML_val _ i

lemma geomFold_acc (s : PlanetState × ℝ) (a n : ℕ) (ha : 1 ≤ a) :
    (foldRange geomStep s a n).2 =
      s.2 + ∑ j ∈ Finset.Ico (a-1) (a-1+n), (foldRange geomStep s a n).1.MLayer_kg j := by
  induction n generalizing s a with
  | zero => rw [foldRange_zero]; simp
  | succ n ih =>
      rw [foldRange_succ, ih (geomStep s a) (a+1) (by omega)]
      have hml : (foldRange geomStep (geomStep s a) (a+1) n).1.MLayer_kg (a-1) =
          (geomStep s a).1.MLayer_kg (a-1) :=
        geomFold_ML_ne (a-1) _ (a+1) _ (by omega) (Or.inl (by omega))
      have hbot : ∑ j ∈ Finset.Ico (a-1) (a-1+(n+1)), (foldRange geomStep (geomStep s a) (a+1) n).1.MLayer_kg j
          = (foldRange geomStep (geomStep s a) (a+1) n).1.MLayer_kg (a-1)
            + ∑ j ∈ Finset.Ico (a+1-1) (a+1-1+n), (foldRange geomStep (geomStep s a) (a+1) n).1.MLayer_kg j := by
        rw [show a+1-1 = (a-1)+1 from by omega]
        rw [show (a-1)+1+n = a-1+(n+1) from by omega]
        exact Finset.sum_eq_sum_Ico_succ_bot (by omega) _
      rw [hbot, hml, geomStep_acc]
      ring

lemma geomFold_g_val (s : PlanetState × ℝ) (a n i : ℕ)
    (ha : 1 ≤ a) (h1 : a ≤ i) (h2 : i < a + n) :
    (foldRange geomStep s a n).1.g_ms2 i =
      Constants.G * (s.1.Bulk.M_kg -
        (s.2 + ∑ j ∈ Finset.Ico (a-1) i, (foldRange geomStep s a n).1.MLayer_kg j))
      / ((foldRange geomStep s a n).1.r_m i)^2 := by
  have hsplit := foldRange_split geomStep s a n i h1 h2
  have hg : (foldRange geomStep s a n).1.g_ms2 i =
      (geomStep (foldRange geomStep s a (i-a)) i).1.g_ms2 i := by
    rw [hsplit]; exact geomFold_g_ne i _ (i+1) _ (Or.inl (by omega))
  have hr : (foldRange geomStep s a n).1.r_m i =
      (geomStep (foldRange geomStep s a (i-a)) i).1.r_m i := by
    rw [hsplit]; exact geomFold_r_ne i _ (i+1) _ (Or.inl (by omega))
  have hMsame : (foldRange geomStep s a (i-a)).1.Bulk.M_kg = s.1.Bulk.M_kg := by
    rw [geomFold_Bulk]
  have hacc : (geomStep (foldRange geomStep s a (i-a)) i).2 =
      s.2 + ∑ j ∈ Finset.Ico (a-1) i, (foldRange geomStep s a n).1.MLayer_kg j := by
    rw [geomStep_acc, geomFold_acc s a (i-a) ha]
    have hml : (geomStep (foldRange geomStep s a (i-a)) i).1.MLayer_kg (i-1) =
        (foldRange geomStep s a n).1.MLayer_kg (i-1) := by
      rw [hsplit]
      exact (geomFold_ML_ne (i-1) _ (i+1) _ (by omega) (Or.inl (by omega))).symm
    have hmls : ∀ j ∈ Finset.Ico (a-1) (a-1+(i-a)),
        (foldRange geomStep s a (i-a)).1.MLayer_kg j = (foldRange geomStep s a n).1.MLayer_kg j := by
      intro j hj
      rw [Finset.mem_Ico] at hj
      rw [hsplit]
      rw [geomFold_ML_ne j _ (i+1) _ (by omega) (Or.inl (by omega))]
      exact (geomStep_ML_ne (by omega)).symm
    rw [Finset.sum_congr rfl hmls, hml]
    rw [show a-1+(i-a) = i-1 from by omega]
    have := Finset.sum_Ico_succ_top (show a-1 ≤ i-1 from by omega)
      ((foldRange geomStep s a n).1.MLayer_kg)
    rw [show (i-1)+1 = i from by omega] at this
    rw [this]
    ring
  rw [hg, geomStep_g_val, hMsame, hacc, ← hr]

/-! ## Single-step lemmas for the convecting-interior loop body -/

lemma convectStep_z (eos : EOSFns) (s : PlanetState × ℝ) (i : ℕ) :
    (convectStep eos s i).1.z_m = (geomStep s i).1.z_m := rfl

lemma convectStep_r (eos : EOSFns) (s : PlanetState × ℝ) (i : ℕ) :
    (convectStep eos s i).1.r_m = (geomStep s i).1.r_m := rfl

lemma convectStep_g (eos : EOSFns) (s : PlanetState × ℝ) (i : ℕ) :
    (convectStep eos s i).1.g_ms2 = (geomStep s i).1.g_ms2 := rfl

lemma convectStep_ML (eos : EOSFns) (s : PlanetState × ℝ) (i : ℕ) :
    (convectStep eos s i).1.MLayer_kg = (geomStep s i).1.MLayer_kg := rfl

lemma convectStep_acc (eos : EOSFns) (s : PlanetState × ℝ) (i : ℕ) :
    (convectStep eos s i).2 = (geomStep s i).2 := rfl

lemma convectStep_P (eos : EOSFns) (s : PlanetState × ℝ) (i : ℕ) :
    (convectStep eos s i).1.P_MPa = s.1.P_MPa := rfl

lemma convectStep_Bulk (eos : EOSFns) (s : PlanetState × ℝ) (i : ℕ) :
    (convectStep eos s i).1.Bulk = s.1.Bulk := rfl

lemma convectStep_Ocean (eos : EOSFns) (s : PlanetState × ℝ) (i : ℕ) :
    (convectStep eos s i).1.Ocean = s.1.Ocean := rfl

lemma convectStep_T_ne {eos : EOSFns} {s : PlanetState × ℝ} {i j : ℕ} (h : j ≠ i) :
    (convectStep eos s i).1.T_K j = s.1.T_K j := Function.update_noteq h _ _

lemma convectStep_rho_ne {eos : EOSFns} {s : PlanetState × ℝ} {i j : ℕ} (h : j ≠ i) :
    (convectStep eos s i).1.rho_kgm3 j = s.1.rho_kgm3 j := Function.update_noteq h _ _

lemma convectStep_Cp_ne {eos : EOSFns} {s : PlanetState × ℝ} {i j : ℕ} (h : j ≠ i) :
    (convectStep eos s i).1.Cp_JkgK j = s.1.Cp_JkgK j := Function.update_noteq h _ _

lemma convectStep_alpha_ne {eos : EOSFns} {s : PlanetState × ℝ} {i j : ℕ} (h : j ≠ i) :
    (convectStep eos s i).1.alpha_pK j = s.1.alpha_pK j := Function.update_noteq h _ _

lemma convectStep_k_ne {eos : EOSFns} {s : PlanetState × ℝ} {i j : ℕ} (h : j ≠ i) :
    (convectStep eos s i).1.kTherm_WmK j = s.1.kTherm_WmK j := Function.update_noteq h _ _

lemma convectStep_T_val (eos : EOSFns) (s : PlanetState × ℝ) (i : ℕ) :
    (convectStep eos s i).1.T_K i =
      s.1.T_K (i-1) + s.1.T_K (i-1) * s.1.alpha_pK (i-1) / s.1.Cp_JkgK (i-1) / s.1.rho_kgm3 (i-1)
        * (s.1.P_MPa i - s.1.P_MPa (i-1)) * 1e6 :=
  Function.update_same _ _ _

lemma convectStep_rho_val (eos : EOSFns) (s : PlanetState × ℝ) (i : ℕ) :
    (convectStep eos s i).1.rho_kgm3 i =
      eos.fn_rho_kgm3 (s.1.P_MPa i) ((convectStep eos s i).1.T_K i) := by
  rw [show (convectStep eos s i).1.T_K i =
      s.1.T_K (i-1) + s.1.T_K (i-1) * s.1.alpha_pK (i-1) / s.1.Cp_JkgK (i-1) / s.1.rho_kgm3 (i-1)
        * (s.1.P_MPa i - s.1.P_MPa (i-1)) * 1e6 from convectStep_T_val eos s i]
  exact Function.update_same _ _ _

lemma convectStep_Cp_val (eos : EOSFns) (s : PlanetState × ℝ) (i : ℕ) :
    (convectStep eos s i).1.Cp_JkgK i =
      eos.fn_Cp_JkgK (s.1.P_MPa i) ((convectStep eos s i).1.T_K i) := by
  rw [show (convectStep eos s i).1.T_K i =
      s.1.T_K (i-1) + s.1.T_K (i-1) * s.1.alpha_pK (i-1) / s.1.Cp_JkgK (i-1) / s.1.rho_kgm3 (i-1)
        * (s.1.P_MPa i - s.1.P_MPa (i-1)) * 1e6 from convectStep_T_val eos s i]
  exact Function.update_same _ _ _

lemma convectStep_alpha_val (eos : EOSFns) (s : PlanetState × ℝ) (i : ℕ) :
    (convectStep eos s i).1.alpha_pK i =
      eos.fn_alpha_pK (s.1.P_MPa i) ((convectStep eos s i).1.T_K i) := by
  rw [show (convectStep eos s i).1.T_K i =
      s.1.T_K (i-1) + s.1.T_K (i-1) * s.1.alpha_pK (i-1) / s.1.Cp_JkgK (i-1) / s.1.rho_kgm3 (i-1)
        * (s.1.P_MPa i - s.1.P_MPa (i-1)) * 1e6 from convectStep_T_val eos s i]
  exact Function.update_same _ _ _

lemma convectStep_k_val (eos : EOSFns) (s : PlanetState × ℝ) (i : ℕ) :
    (convectStep eos s i).1.kTherm_WmK i =
      eos.fn_kTherm_WmK (s.1.P_MPa i) ((convectStep eos s i).1.T_K i) := by
  rw [show (convectStep eos s i).1.T_K i =
      s.1.T_K (i-1) + s.1.T_K (i-1) * s.1.alpha_pK (i-1) / s.1.Cp_JkgK (i-1) / s.1.rho_kgm3 (i-1)
        * (s.1.P_MPa i - s.1.P_MPa (i-1)) * 1e6 from convectStep_T_val eos s i]
  exact Function.update_same _ _ _

/-! ## Fold lemmas for the convecting-interior loop -/

lemma convFold_P (eos : EOSFns) (s : PlanetState × ℝ) (a n : ℕ) :
    (foldRange (convectStep eos) s a n).1.P_MPa = s.1.P_MPa := by
  induction n generalizing s a with
  | zero => rfl
  | succ n ih => rw [foldRange_succ, ih, convectStep_P]

lemma convFold_Bulk (eos : EOSFns) (s : PlanetState × ℝ) (a n : ℕ) :
    (foldRange (convectStep eos) s a n).1.Bulk = s.1.Bulk := by
  induction n generalizing s a with
  | zero => rfl
  | succ n ih => rw [foldRange_succ, ih, convectStep_Bulk]

lemma convFold_Ocean (eos : EOSFns) (s : PlanetState × ℝ) (a n : ℕ) :
    (foldRange (convectStep eos) s a n).1.Ocean = s.1.Ocean := by
  induction n generalizing s a with
  | zero => rfl
  | succ n ih => rw [foldRange_succ, ih, convectStep_Ocean]

lemma convFold_z_ne (eos : EOSFns) (j : ℕ) :
    ∀ (s : PlanetState × ℝ) (a n : ℕ), (j < a ∨ a + n ≤ j) →
      (foldRange (convectStep eos) s a n).1.z_m j = s.1.z_m j := by
  intro s a n
  induction n generalizing s a with
  | zero => intro _; rfl
  | succ n ih =>
      intro h
      rw [foldRange_succ, ih (convectStep eos s a) (a+1) (by omega), convectStep_z]
      exact geomStep_z_ne (by omega)

lemma convFold_r_ne (eos : EOSFns) (j : ℕ) :
    ∀ (s : PlanetState × ℝ) (a n : ℕ), (j < a ∨ a + n ≤ j) →
      (foldRange (convectStep eos) s a n).1.r_m j = s.1.r_m j := by
  intro s a n
  induction n generalizing s a with
  | zero => intro _; rfl
  | succ n ih =>
      intro h
      rw [foldRange_succ, ih (convectStep eos s a) (a+1) (by omega), convectStep_r]
      exact geomStep_r_ne (by omega)

lemma convFold_g_ne (eos : EOSFns) (j : ℕ) :
    ∀ (s : PlanetState × ℝ) (a n : ℕ), (j < a ∨ a + n ≤ j) →
      (foldRange (convectStep eos) s a n).1.g_ms2 j = s.1.g_ms2 j := by
  intro s a n
  induction n generalizing s a with
  | zero => intro _; rfl
  | succ n ih =>
      intro h
      rw [foldRange_succ, ih (convectStep eos s a) (a+1) (by omega), convectStep_g]
      exact geomStep_g_ne (by omega)

lemma convFold_ML_ne (eos : EOSFns) (j : ℕ) :
    ∀ (s : PlanetState × ℝ) (a n : ℕ), 1 ≤ a → (j + 1 < a ∨ a + n ≤ j + 1) →
      (foldRange (convectStep eos) s a n).1.MLayer_kg j = s.1.MLayer_kg j := by
  intro s a n
  induction n generalizing s a with
  | zero => intro _ _; rfl
  | succ n ih =>
      intro ha h
      rw [foldRange_succ, ih (convectStep eos s a) (a+1) (by omega) (by omega), convectStep_ML]
      exact geomStep_ML_ne (by omega)

lemma convFold_T_ne (eos : EOSFns) (j : ℕ) :
    ∀ (s : PlanetState × ℝ) (a n : ℕ), (j < a ∨ a + n ≤ j) →
      (foldRange (convectStep eos) s a n).1.T_K j = s.1.T_K j := by
  intro s a n
  induction n generalizing s a with
  | zero => intro _; rfl
  | succ n ih =>
      intro h
      rw [foldRange_succ, ih (convectStep eos s a) (a+1) (by omega)]
      exact convectStep_T_ne (by omega)

lemma convFold_rho_ne (eos : EOSFns) (j : ℕ) :
    ∀ (s : PlanetState × ℝ) (a n : ℕ), (j < a ∨ a + n ≤ j) →
      (foldRange (convectStep eos) s a n).1.rho_kgm3 j = s.1.rho_kgm3 j := by
  intro s a n
  induction n generalizing s a with
  | zero => intro _; rfl
  | succ n ih =>
      intro h
      rw [foldRange_succ, ih (convectStep eos s a) (a+1) (by omega)]
      exact convectStep_rho_ne (by omega)

lemma convFold_Cp_ne (eos : EOSFns) (j : ℕ) :
    ∀ (s : PlanetState × ℝ) (a n : ℕ), (j < a ∨ a + n ≤ j) →
      (foldRange (convectStep eos) s a n).1.Cp_JkgK j = s.1.Cp_JkgK j := by
  intro s a n
  induction n generalizing s a with
  | zero => intro _; rfl
  | succ n ih =>
      intro h
      rw [foldRange_succ, ih (convectStep eos s a) (a+1) (by omega)]
      exact convectStep_Cp_ne (by omega)

lemma convFold_alpha_ne (eos : EOSFns) (j : ℕ) :
    ∀ (s : PlanetState × ℝ) (a n : ℕ), (j < a ∨ a + n ≤ j) →
      (foldRange (convectStep eos) s a n).1.alpha_pK j = s.1.alpha_pK j := by
  intro s a n
  induction n generalizing s a with
  | zero => intro _; rfl
  | succ n ih =>
      intro h
      rw [foldRange_succ, ih (convectStep eos s a) (a+1) (by omega)]
      exact convectStep_alpha_ne (by omega)

lemma convFold_k_ne (eos : EOSFns) (j : ℕ) :
    ∀ (s : PlanetState × ℝ) (a n : ℕ), (j < a ∨ a + n ≤ j) →
      (foldRange (convectStep eos) s a n).1.kTherm_WmK j = s.1.kTherm_WmK j := by
  intro s a n
  induction n generalizing s a with
  | zero => intro _; rfl
  | succ n ih =>
      intro h
      rw [foldRange_succ, ih (convectStep eos s a) (a+1) (by omega)]
      exact convectStep_k_ne (by omega)

lemma convFold_T_val (eos : EOSFns) (s : PlanetState × ℝ) (a n i : ℕ)
    (ha : 1 ≤ a) (h1 : a ≤ i) (h2 : i < a + n) :
    (foldRange (convectStep eos) s a n).1.T_K i =
      (foldRange (convectStep eos) s a n).1.T_K (i-1)
      + (foldRange (convectStep eos) s a n).1.T_K (i-1)
        * (foldRange (convectStep eos) s a n).1.alpha_pK (i-1)
        / (foldRange (convectStep eos) s a n).1.Cp_JkgK (i-1)
        / (foldRange (convectStep eos) s a n).1.rho_kgm3 (i-1)
        * ((foldRange (convectStep eos) s a n).1.P_MPa i
            - (foldRange (convectStep eos) s a n).1.P_MPa (i-1)) * 1e6 := by
  rw [foldRange_split (convectStep eos) s a n i h1 h2]
  rw [convFold_T_ne eos i _ (i+1) _ (Or.inl (by omega)),
      convFold_T_ne eos (i-1) _ (i+1) _ (Or.inl (by omega)),
      convFold_alpha_ne eos (i-1) _ (i+1) _ (Or.inl (by omega)),
      convFold_Cp_ne eos (i-1) _ (i+1) _ (Or.inl (by omega)),
      convFold_rho_ne eos (i-1) _ (i+1) _ (Or.inl (by omega)),
      convFold_P]
  rw [convectStep_T_ne (show i - 1 ≠ i by omega),
      convectStep_alpha_ne (show i - 1 ≠ i by omega),
      convectStep_Cp_ne (show i - 1 ≠ i by omega),
      convectStep_rho_ne (show i - 1 ≠ i by omega),
      convectStep_P]
  exact convectStep_T_val eos _ i

lemma convFold_rho_val (eos : EOSFns) (s : PlanetState × ℝ) (a n i : ℕ)
    (h1 : a ≤ i) (h2 : i < a + n) :
    (foldRange (convectStep eos) s a n).1.rho_kgm3 i =
      eos.fn_rho_kgm3 ((foldRange (convectStep eos) s a n).1.P_MPa i)
        ((foldRange (convectStep eos) s a n).1.T_K i) := by
  rw [foldRange_split (convectStep eos) s a n i h1 h2]
  rw [convFold_rho_ne eos i _ (i+1) _ (Or.inl (by omega)),
      convFold_T_ne eos i _ (i+1) _ (Or.inl (by omega)),
      convFold_P, convectStep_P]
  exact convectStep_rho_val eos _ i

lemma convFold_Cp_val (eos : EOSFns) (s : PlanetState × ℝ) (a n i : ℕ)
    (h1 : a ≤ i) (h2 : i < a + n) :
    (foldRange (convectStep eos) s a n).1.Cp_JkgK i =
      eos.fn_Cp_JkgK ((foldRange (convectStep eos) s a n).1.P_MPa i)
        ((foldRange (convectStep eos) s a n).1.T_K i) := by
  rw [foldRange_split (convectStep eos) s a n i h1 h2]
  rw [convFold_Cp_ne eos i _ (i+1) _ (Or.inl (by omega)),
      convFold_T_ne eos i _ (i+1) _ (Or.inl (by omega)),
      convFold_P, convectStep_P]
  exact convectStep_Cp_val eos _ i

lemma convFold_alpha_val (eos : EOSFns) (s : PlanetState × ℝ) (a n i : ℕ)
    (h1 : a ≤ i) (h2 : i < a + n) :
    (foldRange (convectStep eos) s a n).1.alpha_pK i =
      eos.fn_alpha_pK ((foldRange (convectStep eos) s a n).1.P_MPa i)
        ((foldRange (convectStep eos) s a n).1.T_K i) := by
  rw [foldRange_split (convectStep eos) s a n i h1 h2]
  rw [convFold_alpha_ne eos i _ (i+1) _ (Or.inl (by omega)),
      convFold_T_ne eos i _ (i+1) _ (Or.inl (by omega)),
      convFold_P, convectStep_P]
  exact convectStep_alpha_val eos _ i

lemma convFold_k_val (eos : EOSFns) (s : PlanetState × ℝ) (a n i : ℕ)
    (h1 : a ≤ i) (h2 : i < a + n) :
    (foldRange (convectStep eos) s a n).1.kTherm_WmK i =
      eos.fn_kTherm_WmK ((foldRange (convectStep eos) s a n).1.P_MPa i)
        ((foldRange (convectStep eos) s a n).1.T_K i) := by
  rw [foldRange_split (convectStep eos) s a n i h1 h2]
  rw [convFold_k_ne eos i _ (i+1) _ (Or.inl (by omega)),
      convFold_T_ne eos i _ (i+1) _ (Or.inl (by omega)),
      convFold_P, convectStep_P]
  exact convectStep_k_val eos _ i

lemma convFold_z_val (eos : EOSFns) (s : PlanetState × ℝ) (a n i : ℕ)
    (ha : 1 ≤ a) (h1 : a ≤ i) (h2 : i < a + n) :
    (foldRange (convectStep eos) s a n).1.z_m i =
      (foldRange (convectStep eos) s a n).1.z_m (i-1)
      + ((foldRange (convectStep eos) s a n).1.P_MPa i
          - (foldRange (convectStep eos) s a n).1.P_MPa (i-1)) * 1e6
        / (foldRange (convectStep eos) s a n).1.g_ms2 (i-1)
        / (foldRange (convectStep eos) s a n).1.rho_kgm3 (i-1) := by
  rw [foldRange_split (convectStep eos) s a n i h1 h2]
  rw [convFold_z_ne eos i _ (i+1) _ (Or.inl (by omega)),
      convFold_z_ne eos (i-1) _ (i+1) _ (Or.inl (by omega)),
      convFold_P,
      convFold_g_ne eos (i-1) _ (i+1) _ (Or.inl (by omega)),
      convFold_rho_ne eos (i-1) _ (i+1) _ (Or.inl (by omega))]
  rw [convectStep_z, convectStep_g, convectStep_P,
      convectStep_rho_ne (show i - 1 ≠ i by omega),
      geomStep_z_ne (show i - 1 ≠ i by omega),
      geomStep_g_ne (show i - 1 ≠ i by omega)]
  exact geomStep_z_val _ i

lemma convFold_r_val (eos : EOSFns) (s : PlanetState × ℝ) (a n i : ℕ)
    (ha : 1 ≤ a) (h1 : a ≤ i) (h2 : i < a + n) :
    (foldRange (convectStep eos) s a n).1.r_m i =
      s.1.Bulk.R_m - (foldRange (convectStep eos) s a n).1.z_m i := by
  rw [foldRange_split (convectStep eos) s a n i h1 h2]
  rw [convFold_r_ne eos i _ (i+1) _ (Or.inl (by omega)),
      convFold_z_ne eos i _ (i+1) _ (Or.inl (by omega)),
      convectStep_r, convectStep_z]
  rw [geomStep_r_val, convFold_Bulk]

lemma convFold_ML_val (eos : EOSFns) (s : PlanetState × ℝ) (a n i : ℕ)
    (ha : 1 ≤ a) (h1 : a ≤ i) (h2 : i < a + n) :
    (foldRange (convectStep eos) s a n).1.MLayer_kg (i-1) =
      4/3 * Real.pi * (foldRange (convectStep eos) s a n).1.rho_kgm3 (i-1)
        * (((foldRange (convectStep eos) s a n).1.r_m (i-1))^3
            - ((foldRange (convectStep eos) s a n).1.r_m i)^3) := by
  rw [foldRange_split (convectStep eos) s a n i h1 h2]
  rw [convFold_ML_ne eos (i-1) _ (i+1) _ (by omega) (Or.inl (by omega)),
      convFold_rho_ne eos (i-1) _ (i+1) _ (Or.inl (by omega)),
      convFold_r_ne eos (i-1) _ (i+1) _ (Or.inl (by omega)),
      convFold_r_ne eos i _ (i+1) _ (Or.inl (by omega))]
  rw [convectStep_ML, convectStep_r,
      convectStep_rho_ne (show i - 1 ≠ i by omega),
      geomStep_r_ne (show i - 1 ≠ i by omega)]
  exact geomStep_ML_val _ i

lemma convFold_acc (eos : EOSFns) (s : PlanetState × ℝ) (a n : ℕ) (ha : 1 ≤ a) :
    (foldRange (convectStep eos) s a n).2 =
      s.2 + ∑ j ∈ Finset.Ico (a-1) (a-1+n), (foldRange (convectStep eos) s a n).1.MLayer_kg j := by
  induction n generalizing s a with
  | zero => rw [foldRange_zero]; simp
  | succ n ih =>
      rw [foldRange_succ, ih (convectStep eos s a) (a+1) (by omega)]
      have hml : (foldRange (convectStep eos) (convectStep eos s a) (a+1) n).1.MLayer_kg (a-1) =
          (convectStep eos s a).1.MLayer_kg (a-1) :=
        convFold_ML_ne eos (a-1) _ (a+1) _ (by omega) (Or.inl (by omega))
      have hbot : ∑ j ∈ Finset.Ico (a-1) (a-1+(n+1)),
            (foldRange (convectStep eos) (convectStep eos s a) (a+1) n).1.MLayer_kg j
          = (foldRange (convectStep eos) (convectStep eos s a) (a+1) n).1.MLayer_kg (a-1)
            + ∑ j ∈ Finset.Ico (a+1-1) (a+1-1+n),
                (foldRange (convectStep eos) (convectStep eos s a) (a+1) n).1.MLayer_kg j := by
        rw [show a+1-1 = (a-1)+1 from by omega]
        rw [show (a-1)+1+n = a-1+(n+1) from by omega]
        exact Finset.sum_eq_sum_Ico_succ_bot (by omega) _
      have hstep : (convectStep eos s a).2 = s.2 + (convectStep eos s a).1.MLayer_kg (a-1) := by
        rw [convectStep_acc, convectStep_ML]; exact geomStep_acc s a
      rw [hbot, hml, hstep]
      ring

lemma convFold_g_val (eos : EOSFns) (s : PlanetState × ℝ) (a n i : ℕ)
    (ha : 1 ≤ a) (h1 : a ≤ i) (h2 : i < a + n) :
    (foldRange (convectStep eos) s a n).1.g_ms2 i =
      Constants.G * (s.1.Bulk.M_kg -
        (s.2 + ∑ j ∈ Finset.Ico (a-1) i, (foldRange (convectStep eos) s a n).1.MLayer_kg j))
      / ((foldRange (convectStep eos) s a n).1.r_m i)^2 := by
  have hsplit := foldRange_split (convectStep eos) s a n i h1 h2
  have hg : (foldRange (convectStep eos) s a n).1.g_ms2 i =
      (geomStep (foldRange (convectStep eos) s a (i-a)) i).1.g_ms2 i := by
    rw [hsplit, convFold_g_ne eos i _ (i+1) _ (Or.inl (by omega)), convectStep_g]
  have hr : (foldRange (convectStep eos) s a n).1.r_m i =
      (geomStep (foldRange (convectStep eos) s a (i-a)) i).1.r_m i := by
    rw [hsplit, convFold_r_ne eos i _ (i+1) _ (Or.inl (by omega)), convectStep_r]
  have hMsame : (foldRange (convectStep eos) s a (i-a)).1.Bulk.M_kg = s.1.Bulk.M_kg := by
    rw [convFold_Bulk]
  have hacc : (geomStep (foldRange (convectStep eos) s a (i-a)) i).2 =
      s.2 + ∑ j ∈ Finset.Ico (a-1) i, (foldRange (convectStep eos) s a n).1.MLayer_kg j := by
    have hstep2 : (geomStep (foldRange (convectStep eos) s a (i-a)) i).2 =
        (convectStep eos (foldRange (convectStep eos) s a (i-a)) i).2 := rfl
    rw [hstep2]
    have hstep3 : (convectStep eos (foldRange (convectStep eos) s a (i-a)) i).2 =
        (foldRange (convectStep eos) s a (i-a)).2
          + (convectStep eos (foldRange (convectStep eos) s a (i-a)) i).1.MLayer_kg (i-1) := by
      rw [convectStep_acc, convectStep_ML]; exact geomStep_acc _ i
    rw [hstep3, convFold_acc eos s a (i-a) ha]
    have hml : (convectStep eos (foldRange (convectStep eos) s a (i-a)) i).1.MLayer_kg (i-1) =
        (foldRange (convectStep eos) s a n).1.MLayer_kg (i-1) := by
      rw [hsplit]
      exact (convFold_ML_ne eos (i-1) _ (i+1) _ (by omega) (Or.inl (by omega))).symm
    have hmls : ∀ j ∈ Finset.Ico (a-1) (a-1+(i-a)),
        (foldRange (convectStep eos) s a (i-a)).1.MLayer_kg j =
          (foldRange (convectStep eos) s a n).1.MLayer_kg j := by
      intro j hj
      rw [Finset.mem_Ico] at hj
      rw [hsplit, convFold_ML_ne eos j _ (i+1) _ (by omega) (Or.inl (by omega)), convectStep_ML]
      exact (geomStep_ML_ne (by omega)).symm
    rw [Finset.sum_congr rfl hmls, hml]
    rw [show a-1+(i-a) = i-1 from by omega]
    have := Finset.sum_Ico_succ_top (show a-1 ≤ i-1 from by omega)
      ((foldRange (convectStep eos) s a n).1.MLayer_kg)
    rw [show (i-1)+1 = i from by omega] at this
    rw [this]
    ring
  rw [hg, geomStep_g_val, hMsame, hacc, ← hr]

/-! ## Slice-stage lemmas (lid and boundary-layer reassignment) -/

lemma lidReassign_z (lidEOS : EOSFns) (start iCd : ℕ) (Tconv : ℝ) (p : PlanetState) :
    (lidReassign lidEOS start iCd Tconv p).z_m = p.z_m := rfl

lemma lidReassign_r (lidEOS : EOSFns) (start iCd : ℕ) (Tconv : ℝ) (p : PlanetState) :
    (lidReassign lidEOS start iCd Tconv p).r_m = p.r_m := rfl

lemma lidReassign_g (lidEOS : EOSFns) (start iCd : ℕ) (Tconv : ℝ) (p : PlanetState) :
    (lidReassign lidEOS start iCd Tconv p).g_ms2 = p.g_ms2 := rfl

lemma lidReassign_ML (lidEOS : EOSFns) (start iCd : ℕ) (Tconv : ℝ) (p : PlanetState) :
    (lidReassign lidEOS start iCd Tconv p).MLayer_kg = p.MLayer_kg := rfl

lemma lidReassign_P (lidEOS : EOSFns) (start iCd : ℕ) (Tconv : ℝ) (p : PlanetState) :
    (lidReassign lidEOS start iCd Tconv p).P_MPa = p.P_MPa := rfl

lemma lidReassign_Bulk (lidEOS : EOSFns) (start iCd : ℕ) (Tconv : ℝ) (p : PlanetState) :
    (lidReassign lidEOS start iCd Tconv p).Bulk = p.Bulk := rfl

lemma lidReassign_Ocean (lidEOS : EOSFns) (start iCd : ℕ) (Tconv : ℝ) (p : PlanetState) :
    (lidReassign lidEOS start iCd Tconv p).Ocean = p.Ocean := rfl

lemma lidReassign_T_in {lidEOS : EOSFns} {start iCd : ℕ} {Tconv : ℝ} {p : PlanetState} {i : ℕ}
    (h1 : start ≤ i) (h2 : i ≤ iCd) :
    (lidReassign lidEOS start iCd Tconv p).T_K i =
      Tconv ^ (p.P_MPa i / p.P_MPa iCd) * (p.T_K start) ^ (1 - p.P_MPa i / p.P_MPa iCd) := by
  simp [lidReassign, h1, h2]

lemma lidReassign_T_out {lidEOS : EOSFns} {start iCd : ℕ} {Tconv : ℝ} {p : PlanetState} {i : ℕ}
    (h : ¬ (start ≤ i ∧ i ≤ iCd)) :
    (lidReassign lidEOS start iCd Tconv p).T_K i = p.T_K i := by
  simp only [lidReassign]
  rw [if_neg h]

lemma lidReassign_rho_in {lidEOS : EOSFns} {start iCd : ℕ} {Tconv : ℝ} {p : PlanetState} {i : ℕ}
    (h1 : start ≤ i) (h2 : i ≤ iCd) :
    (lidReassign lidEOS start iCd Tconv p).rho_kgm3 i =
      lidEOS.fn_rho_kgm3 (p.P_MPa i) ((lidReassign lidEOS start iCd Tconv p).T_K i) := by
  simp [lidReassign, h1, h2]

lemma lidReassign_rho_out {lidEOS : EOSFns} {start iCd : ℕ} {Tconv : ℝ} {p : PlanetState} {i : ℕ}
    (h : ¬ (start ≤ i ∧ i ≤ iCd)) :
    (lidReassign lidEOS start iCd Tconv p).rho_kgm3 i = p.rho_kgm3 i := by
  simp only [lidReassign]
  rw [if_neg h]

lemma lidReassign_Cp_in {lidEOS : EOSFns} {start iCd : ℕ} {Tconv : ℝ} {p : PlanetState} {i : ℕ}
    (h1 : start ≤ i) (h2 : i ≤ iCd) :
    (lidReassign lidEOS start iCd Tconv p).Cp_JkgK i =
      lidEOS.fn_Cp_JkgK (p.P_MPa i) ((lidReassign lidEOS start iCd Tconv p).T_K i) := by
  simp [lidReassign, h1, h2]

lemma lidReassign_Cp_out {lidEOS : EOSFns} {start iCd : ℕ} {Tconv : ℝ} {p : PlanetState} {i : ℕ}
    (h : ¬ (start ≤ i ∧ i ≤ iCd)) :
    (lidReassign lidEOS start iCd Tconv p).Cp_JkgK i = p.Cp_JkgK i := by
  simp only [lidReassign]
  rw [if_neg h]

lemma lidReassign_alpha_in {lidEOS : EOSFns} {start iCd : ℕ} {Tconv : ℝ} {p : PlanetState} {i : ℕ}
    (h1 : start ≤ i) (h2 : i ≤ iCd) :
    (lidReassign lidEOS start iCd Tconv p).alpha_pK i =
      lidEOS.fn_alpha_pK (p.P_MPa i) ((lidReassign lidEOS start iCd Tconv p).T_K i) := by
  simp [lidReassign, h1, h2]

lemma lidReassign_alpha_out {lidEOS : EOSFns} {start iCd : ℕ} {Tconv : ℝ} {p : PlanetState} {i : ℕ}
    (h : ¬ (start ≤ i ∧ i ≤ iCd)) :
    (lidReassign lidEOS start iCd Tconv p).alpha_pK i = p.alpha_pK i := by
  simp only [lidReassign]
  rw [if_neg h]

lemma lidReassign_k_in {lidEOS : EOSFns} {start iCd : ℕ} {Tconv : ℝ} {p : PlanetState} {i : ℕ}
    (h1 : start ≤ i) (h2 : i ≤ iCd) :
    (lidReassign lidEOS start iCd Tconv p).kTherm_WmK i =
      lidEOS.fn_kTherm_WmK (p.P_MPa i) ((lidReassign lidEOS start iCd Tconv p).T_K i) := by
  simp [lidReassign, h1, h2]

lemma lidReassign_k_out {lidEOS : EOSFns} {start iCd : ℕ} {Tconv : ℝ} {p : PlanetState} {i : ℕ}
    (h : ¬ (start ≤ i ∧ i ≤ iCd)) :
    (lidReassign lidEOS start iCd Tconv p).kTherm_WmK i = p.kTherm_WmK i := by
  simp only [lidReassign]
  rw [if_neg h]

lemma tblReassign_z (tblEOS : EOSFns) (iCv bottom : ℕ) (Pb Tb : ℝ) (p4 : PlanetState) :
    (tblReassign tblEOS iCv bottom Pb Tb p4).z_m = p4.z_m := rfl

lemma tblReassign_r (tblEOS : EOSFns) (iCv bottom : ℕ) (Pb Tb : ℝ) (p4 : PlanetState) :
    (tblReassign tblEOS iCv bottom Pb Tb p4).r_m = p4.r_m := rfl

lemma tblReassign_g (tblEOS : EOSFns) (iCv bottom : ℕ) (Pb Tb : ℝ) (p4 : PlanetState) :
    (tblReassign tblEOS iCv bottom Pb Tb p4).g_ms2 = p4.g_ms2 := rfl

lemma tblReassign_ML (tblEOS : EOSFns) (iCv bottom : ℕ) (Pb Tb : ℝ) (p4 : PlanetState) :
    (tblReassign tblEOS iCv bottom Pb Tb p4).MLayer_kg = p4.MLayer_kg := rfl

lemma tblReassign_P (tblEOS : EOSFns) (iCv bottom : ℕ) (Pb Tb : ℝ) (p4 : PlanetState) :
    (tblReassign tblEOS iCv bottom Pb Tb p4).P_MPa = p4.P_MPa := rfl

lemma tblReassign_Bulk (tblEOS : EOSFns) (iCv bottom : ℕ) (Pb Tb : ℝ) (p4 : PlanetState) :
    (tblReassign tblEOS iCv bottom Pb Tb p4).Bulk = p4.Bulk := rfl

lemma tblReassign_Ocean (tblEOS : EOSFns) (iCv bottom : ℕ) (Pb Tb : ℝ) (p4 : PlanetState) :
    (tblReassign tblEOS iCv bottom Pb Tb p4).Ocean = p4.Ocean := rfl

lemma tblReassign_T_in {tblEOS : EOSFns} {iCv bottom : ℕ} {Pb Tb : ℝ} {p4 : PlanetState} {i : ℕ}
    (h1 : iCv ≤ i) (h2 : i ≤ bottom) :
    (tblReassign tblEOS iCv bottom Pb Tb p4).T_K i =
      Tb ^ (p4.P_MPa i / Pb) * (p4.T_K (iCv - 1)) ^ (1 - p4.P_MPa i / Pb) := by
  simp [tblReassign, h1, h2]

lemma tblReassign_T_out {tblEOS : EOSFns} {iCv bottom : ℕ} {Pb Tb : ℝ} {p4 : PlanetState} {i : ℕ}
    (h : ¬ (iCv ≤ i ∧ i ≤ bottom)) :
    (tblReassign tblEOS iCv bottom Pb Tb p4).T_K i = p4.T_K i := by
  simp only [tblReassign]
  rw [if_neg h]

lemma tblReassign_rho_in {tblEOS : EOSFns} {iCv bottom : ℕ} {Pb Tb : ℝ} {p4 : PlanetState} {i : ℕ}
    (h1 : iCv ≤ i) (h2 : i < bottom) :
    (tblReassign tblEOS iCv bottom Pb Tb p4).rho_kgm3 i =
      tblEOS.fn_rho_kgm3 (p4.P_MPa i) ((tblReassign tblEOS iCv bottom Pb Tb p4).T_K i) := by
  simp [tblReassign, h1, h2, le_of_lt h2]

lemma tblReassign_rho_out {tblEOS : EOSFns} {iCv bottom : ℕ} {Pb Tb : ℝ} {p4 : PlanetState} {i : ℕ}
    (h : ¬ (iCv ≤ i ∧ i < bottom)) :
    (tblReassign tblEOS iCv bottom Pb Tb p4).rho_kgm3 i = p4.rho_kgm3 i := by
  simp only [tblReassign]
  rw [if_neg h]

lemma tblReassign_Cp_in {tblEOS : EOSFns} {iCv bottom : ℕ} {Pb Tb : ℝ} {p4 : PlanetState} {i : ℕ}
    (h1 : iCv ≤ i) (h2 : i < bottom) :
    (tblReassign tblEOS iCv bottom Pb Tb p4).Cp_JkgK i =
      tblEOS.fn_Cp_JkgK (p4.P_MPa i) ((tblReassign tblEOS iCv bottom Pb Tb p4).T_K i) := by
  simp [tblReassign, h1, h2, le_of_lt h2]

lemma tblReassign_Cp_out {tblEOS : EOSFns} {iCv bottom : ℕ} {Pb Tb : ℝ} {p4 : PlanetState} {i : ℕ}
    (h : ¬ (iCv ≤ i ∧ i < bottom)) :
    (tblReassign tblEOS iCv bottom Pb Tb p4).Cp_JkgK i = p4.Cp_JkgK i := by
  simp only [tblReassign]
  rw [if_neg h]

lemma tblReassign_alpha_in {tblEOS : EOSFns} {iCv bottom : ℕ} {Pb Tb : ℝ} {p4 : PlanetState} {i : ℕ}
    (h1 : iCv ≤ i) (h2 : i < bottom) :
    (tblReassign tblEOS iCv bottom Pb Tb p4).alpha_pK i =
      tblEOS.fn_alpha_pK (p4.P_MPa i) ((tblReassign tblEOS iCv bottom Pb Tb p4).T_K i) := by
  simp [tblReassign, h1, h2, le_of_lt h2]

lemma tblReassign_alpha_out {tblEOS : EOSFns} {iCv bottom : ℕ} {Pb Tb : ℝ} {p4 : PlanetState} {i : ℕ}
    (h : ¬ (iCv ≤ i ∧ i < bottom)) :
    (tblReassign tblEOS iCv bottom Pb Tb p4).alpha_pK i = p4.alpha_pK i := by
  simp only [tblReassign]
  rw [if_neg h]

lemma tblReassign_k_in {tblEOS : EOSFns} {iCv bottom : ℕ} {Pb Tb : ℝ} {p4 : PlanetState} {i : ℕ}
    (h1 : iCv ≤ i) (h2 : i < bottom) :
    (tblReassign tblEOS iCv bottom Pb Tb p4).kTherm_WmK i =
      tblEOS.fn_kTherm_WmK (p4.P_MPa i) ((tblReassign tblEOS iCv bottom Pb Tb p4).T_K i) := by
  simp [tblReassign, h1, h2, le_of_lt h2]

lemma tblReassign_k_out {tblEOS : EOSFns} {iCv bottom : ℕ} {Pb Tb : ℝ} {p4 : PlanetState} {i : ℕ}
    (h : ¬ (iCv ≤ i ∧ i < bottom)) :
    (tblReassign tblEOS iCv bottom Pb Tb p4).kTherm_WmK i = p4.kTherm_WmK i := by
  simp only [tblReassign]
  rw [if_neg h]

/-! ## Facts about the combined three-zone pipeline -/

section ThreeZone

variable (lidEOS convEOS tblEOS : EOSFns) (start iCd iCv bottom : ℕ)
  (Tconv Pb Tb mA0 : ℝ) (p : PlanetState)

lemma threeZonePre_eq :
    threeZonePre lidEOS convEOS start iCd iCv Tconv mA0 p =
      foldRange (convectStep convEOS)
        (foldRange geomStep (lidReassign lidEOS start iCd Tconv p, mA0) (start+1) (iCd - (start+1)))
        iCd (iCv - iCd) := rfl

lemma threeZoneFinal_eq :
    threeZoneFinal lidEOS convEOS tblEOS start iCd iCv bottom Tconv Pb Tb mA0 p =
      (foldRange geomStep
        (tblReassign tblEOS iCv bottom Pb Tb (threeZonePre lidEOS convEOS start iCd iCv Tconv mA0 p).1,
         (threeZonePre lidEOS convEOS start iCd iCv Tconv mA0 p).2)
        iCv (bottom + 1 - iCv)).1 := rfl

lemma tzPre_P :
    (threeZonePre lidEOS convEOS start iCd iCv Tconv mA0 p).1.P_MPa = p.P_MPa := by
  rw [threeZonePre_eq, convFold_P, geomFold_P]
  exact lidReassign_P _ _ _ _ _

lemma tzPre_Bulk :
    (threeZonePre lidEOS convEOS start iCd iCv Tconv mA0 p).1.Bulk = p.Bulk := by
  rw [threeZonePre_eq, convFold_Bulk, geomFold_Bulk]
  exact lidReassign_Bulk _ _ _ _ _

lemma tzFin_P :
    (threeZoneFinal lidEOS convEOS tblEOS start iCd iCv bottom Tconv Pb Tb mA0 p).P_MPa = p.P_MPa := by
  rw [threeZoneFinal_eq, geomFold_P, tblReassign_P]
  exact tzPre_P lidEOS convEOS start iCd iCv Tconv mA0 p

lemma tzFin_Bulk :
    (threeZoneFinal lidEOS convEOS tblEOS start iCd iCv bottom Tconv Pb Tb mA0 p).Bulk = p.Bulk := by
  rw [threeZoneFinal_eq, geomFold_Bulk, tblReassign_Bulk]
  exact tzPre_Bulk lidEOS convEOS start iCd iCv Tconv mA0 p

lemma tzPre_T_lid {i : ℕ} (h0 : start ≤ i) (h1 : i < iCd) :
    (threeZonePre lidEOS convEOS start iCd iCv Tconv mA0 p).1.T_K i =
      Tconv ^ (p.P_MPa i / p.P_MPa iCd) * (p.T_K start) ^ (1 - p.P_MPa i / p.P_MPa iCd) := by
  rw [threeZonePre_eq, convFold_T_ne convEOS i _ iCd _ (Or.inl h1), geomFold_T]
  exact lidReassign_T_in h0 (le_of_lt h1)

lemma tzPre_T_eq_lid {i : ℕ} (h1 : i < iCd) :
    (threeZonePre lidEOS convEOS start iCd iCv Tconv mA0 p).1.T_K i =
      (lidReassign lidEOS start iCd Tconv p).T_K i := by
  rw [threeZonePre_eq, convFold_T_ne convEOS i _ iCd _ (Or.inl h1), geomFold_T]

lemma tzPre_T_conv {i : ℕ} (ha : 1 ≤ iCd) (h1 : iCd ≤ i) (h2 : i < iCv) :
    (threeZonePre lidEOS convEOS start iCd iCv Tconv mA0 p).1.T_K i =
      (threeZonePre lidEOS convEOS start iCd iCv Tconv mA0 p).1.T_K (i-1)
      + (threeZonePre lidEOS convEOS start iCd iCv Tconv mA0 p).1.T_K (i-1)
        * (threeZonePre lidEOS convEOS start iCd iCv Tconv mA0 p).1.alpha_pK (i-1)
        / (threeZonePre lidEOS convEOS start iCd iCv Tconv mA0 p).1.Cp_JkgK (i-1)
        / (threeZonePre lidEOS convEOS start iCd iCv Tconv mA0 p).1.rho_kgm3 (i-1)
        * ((threeZonePre lidEOS convEOS start iCd iCv Tconv mA0 p).1.P_MPa i
            - (threeZonePre lidEOS convEOS start iCd iCv Tconv mA0 p).1.P_MPa (i-1)) * 1e6 := by
  rw [threeZonePre_eq]
  exact convFold_T_val convEOS _ iCd (iCv - iCd) i ha h1 (by omega)

lemma tzPre_rho_lid {i : ℕ} (h0 : start ≤ i) (h1 : i < iCd) :
    (threeZonePre lidEOS convEOS start iCd iCv Tconv mA0 p).1.rho_kgm3 i =
      lidEOS.fn_rho_kgm3 (p.P_MPa i)
        ((threeZonePre lidEOS convEOS start iCd iCv Tconv mA0 p).1.T_K i) := by
  rw [tzPre_T_eq_lid lidEOS convEOS start iCd iCv Tconv mA0 p h1]
  rw [threeZonePre_eq, convFold_rho_ne convEOS i _ iCd _ (Or.inl h1), geomFold_rho]
  exact lidReassign_rho_in h0 (le_of_lt h1)

lemma tzPre_Cp_lid {i : ℕ} (h0 : start ≤ i) (h1 : i < iCd) :
    (threeZonePre lidEOS convEOS start iCd iCv Tconv mA0 p).1.Cp_JkgK i =
      lidEOS.fn_Cp_JkgK (p.P_MPa i)
        ((threeZonePre lidEOS convEOS start iCd iCv Tconv mA0 p).1.T_K i) := by
  rw [tzPre_T_eq_lid lidEOS convEOS start iCd iCv Tconv mA0 p h1]
  rw [threeZonePre_eq, convFold_Cp_ne convEOS i _ iCd _ (Or.inl h1), geomFold_Cp]
  exact lidReassign_Cp_in h0 (le_of_lt h1)

lemma tzPre_alpha_lid {i : ℕ} (h0 : start ≤ i) (h1 : i < iCd) :
    (threeZonePre lidEOS convEOS start iCd iCv Tconv mA0 p).1.alpha_pK i =
      lidEOS.fn_alpha_pK (p.P_MPa i)
        ((threeZonePre lidEOS convEOS start iCd iCv Tconv mA0 p).1.T_K i) := by
  rw [tzPre_T_eq_lid lidEOS convEOS start iCd iCv Tconv mA0 p h1]
  rw [threeZonePre_eq, convFold_alpha_ne convEOS i _ iCd _ (Or.inl h1), geomFold_alpha]
  exact lidReassign_alpha_in h0 (le_of_lt h1)

lemma tzPre_k_lid {i : ℕ} (h0 : start ≤ i) (h1 : i < iCd) :
    (threeZonePre lidEOS convEOS start iCd iCv Tconv mA0 p).1.kTherm_WmK i =
      lidEOS.fn_kTherm_WmK (p.P_MPa i)
        ((threeZonePre lidEOS convEOS start iCd iCv Tconv mA0 p).1.T_K i) := by
  rw [tzPre_T_eq_lid lidEOS convEOS start iCd iCv Tconv mA0 p h1]
  rw [threeZonePre_eq, convFold_k_ne convEOS i _ iCd _ (Or.inl h1), geomFold_k]
  exact lidReassign_k_in h0 (le_of_lt h1)

lemma tzPre_rho_conv {i : ℕ} (h1 : iCd ≤ i) (h2 : i < iCv) :
    (threeZonePre lidEOS convEOS start iCd iCv Tconv mA0 p).1.rho_kgm3 i =
      convEOS.fn_rho_kgm3 (p.P_MPa i)
        ((threeZonePre lidEOS convEOS start iCd iCv Tconv mA0 p).1.T_K i) := by
  rw [threeZonePre_eq]
  rw [convFold_rho_val convEOS _ iCd (iCv - iCd) i h1 (by omega)]
  rw [convFold_P, geomFold_P]
  rfl

lemma tzPre_Cp_conv {i : ℕ} (h1 : iCd ≤ i) (h2 : i < iCv) :
    (threeZonePre lidEOS convEOS start iCd iCv Tconv mA0 p).1.Cp_JkgK i =
      convEOS.fn_Cp_JkgK (p.P_MPa i)
        ((threeZonePre lidEOS convEOS start iCd iCv Tconv mA0 p).1.T_K i) := by
  rw [threeZonePre_eq]
  rw [convFold_Cp_val convEOS _ iCd (iCv - iCd) i h1 (by omega)]
  rw [convFold_P, geomFold_P]
  rfl

lemma tzPre_alpha_conv {i : ℕ} (h1 : iCd ≤ i) (h2 : i < iCv) :
    (threeZonePre lidEOS convEOS start iCd iCv Tconv mA0 p).1.alpha_pK i =
      convEOS.fn_alpha_pK (p.P_MPa i)
        ((threeZonePre lidEOS convEOS start iCd iCv Tconv mA0 p).1.T_K i) := by
  rw [threeZonePre_eq]
  rw [convFold_alpha_val convEOS _ iCd (iCv - iCd) i h1 (by omega)]
  rw [convFold_P, geomFold_P]
  rfl

lemma tzPre_k_conv {i : ℕ} (h1 : iCd ≤ i) (h2 : i < iCv) :
    (threeZonePre lidEOS convEOS start iCd iCv Tconv mA0 p).1.kTherm_WmK i =
      convEOS.fn_kTherm_WmK (p.P_MPa i)
        ((threeZonePre lidEOS convEOS start iCd iCv Tconv mA0 p).1.T_K i) := by
  rw [threeZonePre_eq]
  rw [convFold_k_val convEOS _ iCd (iCv - iCd) i h1 (by omega)]
  rw [convFold_P, geomFold_P]
  rfl

lemma tzFin_T_pre {i : ℕ} (h : i < iCv) :
    (threeZoneFinal lidEOS convEOS tblEOS start iCd iCv bottom Tconv Pb Tb mA0 p).T_K i =
      (threeZonePre lidEOS convEOS start iCd iCv Tconv mA0 p).1.T_K i := by
  rw [threeZoneFinal_eq, geomFold_T]
  exact tblReassign_T_out (by omega)

lemma tzFin_rho_pre {i : ℕ} (h : i < iCv) :
    (threeZoneFinal lidEOS convEOS tblEOS start iCd iCv bottom Tconv Pb Tb mA0 p).rho_kgm3 i =
      (threeZonePre lidEOS convEOS start iCd iCv Tconv mA0 p).1.rho_kgm3 i := by
  rw [threeZoneFinal_eq, geomFold_rho]
  exact tblReassign_rho_out (by omega)

lemma tzFin_Cp_pre {i : ℕ} (h : i < iCv) :
    (threeZoneFinal lidEOS convEOS tblEOS start iCd iCv bottom Tconv Pb Tb mA0 p).Cp_JkgK i =
      (threeZonePre lidEOS convEOS start iCd iCv Tconv mA0 p).1.Cp_JkgK i := by
  rw [threeZoneFinal_eq, geomFold_Cp]
  exact tblReassign_Cp_out (by omega)

lemma tzFin_alpha_pre {i : ℕ} (h : i < iCv) :
    (threeZoneFinal lidEOS convEOS tblEOS start iCd iCv bottom Tconv Pb Tb mA0 p).alpha_pK i =
      (threeZonePre lidEOS convEOS start iCd iCv Tconv mA0 p).1.alpha_pK i := by
  rw [threeZoneFinal_eq, geomFold_alpha]
  exact tblReassign_alpha_out (by omega)

lemma tzFin_k_pre {i : ℕ} (h : i < iCv) :
    (threeZoneFinal lidEOS convEOS tblEOS start iCd iCv bottom Tconv Pb Tb mA0 p).kTherm_WmK i =
      (threeZonePre lidEOS convEOS start iCd iCv Tconv mA0 p).1.kTherm_WmK i := by
  rw [threeZoneFinal_eq, geomFold_k]
  exact tblReassign_k_out (by omega)

lemma tzFin_z_pre {i : ℕ} (h : i < iCv) :
    (threeZoneFinal lidEOS convEOS tblEOS start iCd iCv bottom Tconv Pb Tb mA0 p).z_m i =
      (threeZonePre lidEOS convEOS start iCd iCv Tconv mA0 p).1.z_m i := by
  rw [threeZoneFinal_eq, geomFold_z_ne i _ iCv _ (Or.inl h), tblReassign_z]

lemma tzFin_r_pre {i : ℕ} (h : i < iCv) :
    (threeZoneFinal lidEOS convEOS tblEOS start iCd iCv bottom Tconv Pb Tb mA0 p).r_m i =
      (threeZonePre lidEOS convEOS start iCd iCv Tconv mA0 p).1.r_m i := by
  rw [threeZoneFinal_eq, geomFold_r_ne i _ iCv _ (Or.inl h), tblReassign_r]

lemma tzFin_g_pre {i : ℕ} (h : i < iCv) :
    (threeZoneFinal lidEOS convEOS tblEOS start iCd iCv bottom Tconv Pb Tb mA0 p).g_ms2 i =
      (threeZonePre lidEOS convEOS start iCd iCv Tconv mA0 p).1.g_ms2 i := by
  rw [threeZoneFinal_eq, geomFold_g_ne i _ iCv _ (Or.inl h), tblReassign_g]

lemma tzFin_ML_pre {i : ℕ} (hv : 1 ≤ iCv) (h : i + 1 < iCv) :
    (threeZoneFinal lidEOS convEOS tblEOS start iCd iCv bottom Tconv Pb Tb mA0 p).MLayer_kg i =
      (threeZonePre lidEOS convEOS start iCd iCv Tconv mA0 p).1.MLayer_kg i := by
  rw [threeZoneFinal_eq, geomFold_ML_ne i _ iCv _ hv (Or.inl h), tblReassign_ML]

lemma tzFin_T_tbl {i : ℕ} (hv : 1 ≤ iCv) (h0 : iCv ≤ i) (h1 : i ≤ bottom) :
    (threeZoneFinal lidEOS convEOS tblEOS start iCd iCv bottom Tconv Pb Tb mA0 p).T_K i =
      Tb ^ (p.P_MPa i / Pb)
      * ((threeZoneFinal lidEOS convEOS tblEOS start iCd iCv bottom Tconv Pb Tb mA0 p).T_K (iCv - 1))
        ^ (1 - p.P_MPa i / Pb) := by
  have hanch : (threeZoneFinal lidEOS convEOS tblEOS start iCd iCv bottom Tconv Pb Tb mA0 p).T_K (iCv - 1)
      = (threeZonePre lidEOS convEOS start iCd iCv Tconv mA0 p).1.T_K (iCv - 1) :=
    tzFin_T_pre lidEOS convEOS tblEOS start iCd iCv bottom Tconv Pb Tb mA0 p (by omega)
  rw [hanch, threeZoneFinal_eq, geomFold_T, tblReassign_T_in h0 h1, tzPre_P]

lemma tzFin_T_lid {i : ℕ} (h0 : start ≤ i) (h1 : i < iCd) (hio : iCd ≤ iCv) :
    (threeZoneFinal lidEOS convEOS tblEOS start iCd iCv bottom Tconv Pb Tb mA0 p).T_K i =
      Tconv ^ (p.P_MPa i / p.P_MPa iCd) * (p.T_K start) ^ (1 - p.P_MPa i / p.P_MPa iCd) := by
  rw [tzFin_T_pre lidEOS convEOS tblEOS start iCd iCv bottom Tconv Pb Tb mA0 p (by omega)]
  exact tzPre_T_lid lidEOS convEOS start iCd iCv Tconv mA0 p h0 h1

lemma tzFin_T_conv {i : ℕ} (ha : 1 ≤ iCd) (h1 : iCd ≤ i) (h2 : i < iCv) :
    (threeZoneFinal lidEOS convEOS tblEOS start iCd iCv bottom Tconv Pb Tb mA0 p).T_K i =
      (threeZoneFinal lidEOS convEOS tblEOS start iCd iCv bottom Tconv Pb Tb mA0 p).T_K (i-1)
      + (threeZoneFinal lidEOS convEOS tblEOS start iCd iCv bottom Tconv Pb Tb mA0 p).T_K (i-1)
        * (threeZoneFinal lidEOS convEOS tblEOS start iCd iCv bottom Tconv Pb Tb mA0 p).alpha_pK (i-1)
        / (threeZoneFinal lidEOS convEOS tblEOS start iCd iCv bottom Tconv Pb Tb mA0 p).Cp_JkgK (i-1)
        / (threeZoneFinal lidEOS convEOS tblEOS start iCd iCv bottom Tconv Pb Tb mA0 p).rho_kgm3 (i-1)
        * ((threeZoneFinal lidEOS convEOS tblEOS start iCd iCv bottom Tconv Pb Tb mA0 p).P_MPa i
            - (threeZoneFinal lidEOS convEOS tblEOS start iCd iCv bottom Tconv Pb Tb mA0 p).P_MPa (i-1))
        * 1e6 := by
  have h := tzPre_T_conv lidEOS convEOS start iCd iCv Tconv mA0 p ha h1 h2
  rw [tzFin_T_pre lidEOS convEOS tblEOS start iCd iCv bottom Tconv Pb Tb mA0 p h2,
      tzFin_T_pre lidEOS convEOS tblEOS start iCd iCv bottom Tconv Pb Tb mA0 p (by omega : i - 1 < iCv),
      tzFin_alpha_pre lidEOS convEOS tblEOS start iCd iCv bottom Tconv Pb Tb mA0 p (by omega : i - 1 < iCv),
      tzFin_Cp_pre lidEOS convEOS tblEOS start iCd iCv bottom Tconv Pb Tb mA0 p (by omega : i - 1 < iCv),
      tzFin_rho_pre lidEOS convEOS tblEOS start iCd iCv bottom Tconv Pb Tb mA0 p (by omega : i - 1 < iCv),
      tzFin_P lidEOS convEOS tblEOS start iCd iCv bottom Tconv Pb Tb mA0 p]
  rw [tzPre_P] at h
  exact h

lemma tzFin_rho_lid {i : ℕ} (h0 : start ≤ i) (h1 : i < iCd) (hio : iCd ≤ iCv) :
    (threeZoneFinal lidEOS convEOS tblEOS start iCd iCv bottom Tconv Pb Tb mA0 p).rho_kgm3 i =
      lidEOS.fn_rho_kgm3
        ((threeZoneFinal lidEOS convEOS tblEOS start iCd iCv bottom Tconv Pb Tb mA0 p).P_MPa i)
        ((threeZoneFinal lidEOS convEOS tblEOS start iCd iCv bottom Tconv Pb Tb mA0 p).T_K i) := by
  rw [tzFin_P lidEOS convEOS tblEOS start iCd iCv bottom Tconv Pb Tb mA0 p,
      tzFin_rho_pre lidEOS convEOS tblEOS start iCd iCv bottom Tconv Pb Tb mA0 p (by omega),
      tzFin_T_pre lidEOS convEOS tblEOS start iCd iCv bottom Tconv Pb Tb mA0 p (by omega)]
  exact tzPre_rho_lid lidEOS convEOS start iCd iCv Tconv mA0 p h0 h1

lemma tzFin_Cp_lid {i : ℕ} (h0 : start ≤ i) (h1 : i < iCd) (hio : iCd ≤ iCv) :
    (threeZoneFinal lidEOS convEOS tblEOS start iCd iCv bottom Tconv Pb Tb mA0 p).Cp_JkgK i =
      lidEOS.fn_Cp_JkgK
        ((threeZoneFinal lidEOS convEOS tblEOS start iCd iCv bottom Tconv Pb Tb mA0 p).P_MPa i)
        ((threeZoneFinal lidEOS convEOS tblEOS start iCd iCv bottom Tconv Pb Tb mA0 p).T_K i) := by
  rw [tzFin_P lidEOS convEOS tblEOS start iCd iCv bottom Tconv Pb Tb mA0 p,
      tzFin_Cp_pre lidEOS convEOS tblEOS start iCd iCv bottom Tconv Pb Tb mA0 p (by omega),
      tzFin_T_pre lidEOS convEOS tblEOS start iCd iCv bottom Tconv Pb Tb mA0 p (by omega)]
  exact tzPre_Cp_lid lidEOS convEOS start iCd iCv Tconv mA0 p h0 h1

lemma tzFin_alpha_lid {i : ℕ} (h0 : start ≤ i) (h1 : i < iCd) (hio : iCd ≤ iCv) :
    (threeZoneFinal lidEOS convEOS tblEOS start iCd iCv bottom Tconv Pb Tb mA0 p).alpha_pK i =
      lidEOS.fn_alpha_pK
        ((threeZoneFinal lidEOS convEOS tblEOS start iCd iCv bottom Tconv Pb Tb mA0 p).P_MPa i)
        ((threeZoneFinal lidEOS convEOS tblEOS start iCd iCv bottom Tconv Pb Tb mA0 p).T_K i) := by
  rw [tzFin_P lidEOS convEOS tblEOS start iCd iCv bottom Tconv Pb Tb mA0 p,
      tzFin_alpha_pre lidEOS convEOS tblEOS start iCd iCv bottom Tconv Pb Tb mA0 p (by omega),
      tzFin_T_pre lidEOS convEOS tblEOS start iCd iCv bottom Tconv Pb Tb mA0 p (by omega)]
  exact tzPre_alpha_lid lidEOS convEOS start iCd iCv Tconv mA0 p h0 h1

lemma tzFin_k_lid {i : ℕ} (h0 : start ≤ i) (h1 : i < iCd) (hio : iCd ≤ iCv) :
    (threeZoneFinal lidEOS convEOS tblEOS start iCd iCv bottom Tconv Pb Tb mA0 p).kTherm_WmK i =
      lidEOS.fn_kTherm_WmK
        ((threeZoneFinal lidEOS convEOS tblEOS start iCd iCv bottom Tconv Pb Tb mA0 p).P_MPa i)
        ((threeZoneFinal lidEOS convEOS tblEOS start iCd iCv bottom Tconv Pb Tb mA0 p).T_K i) := by
  rw [tzFin_P lidEOS convEOS tblEOS start iCd iCv bottom Tconv Pb Tb mA0 p,
      tzFin_k_pre lidEOS convEOS tblEOS start iCd iCv bottom Tconv Pb Tb mA0 p (by omega),
      tzFin_T_pre lidEOS convEOS tblEOS start iCd iCv bottom Tconv Pb Tb mA0 p (by omega)]
  exact tzPre_k_lid lidEOS convEOS start iCd iCv Tconv mA0 p h0 h1

lemma tzFin_rho_conv {i : ℕ} (h1 : iCd ≤ i) (h2 : i < iCv) :
    (threeZoneFinal lidEOS convEOS tblEOS start iCd iCv bottom Tconv Pb Tb mA0 p).rho_kgm3 i =
      convEOS.fn_rho_kgm3
        ((threeZoneFinal lidEOS convEOS tblEOS start iCd iCv bottom Tconv Pb Tb mA0 p).P_MPa i)
        ((threeZoneFinal lidEOS convEOS tblEOS start iCd iCv bottom Tconv Pb Tb mA0 p).T_K i) := by
  rw [tzFin_P lidEOS convEOS tblEOS start iCd iCv bottom Tconv Pb Tb mA0 p,
      tzFin_rho_pre lidEOS convEOS tblEOS start iCd iCv bottom Tconv Pb Tb mA0 p h2,
      tzFin_T_pre lidEOS convEOS tblEOS start iCd iCv bottom Tconv Pb Tb mA0 p h2]
  exact tzPre_rho_conv lidEOS convEOS start iCd iCv Tconv mA0 p h1 h2

lemma tzFin_Cp_conv {i : ℕ} (h1 : iCd ≤ i) (h2 : i < iCv) :
    (threeZoneFinal lidEOS convEOS tblEOS start iCd iCv bottom Tconv Pb Tb mA0 p).Cp_JkgK i =
      convEOS.fn_Cp_JkgK
        ((threeZoneFinal lidEOS convEOS tblEOS start iCd iCv bottom Tconv Pb Tb mA0 p).P_MPa i)
        ((threeZoneFinal lidEOS convEOS tblEOS start iCd iCv bottom Tconv Pb Tb mA0 p).T_K i) := by
  rw [tzFin_P lidEOS convEOS tblEOS start iCd iCv bottom Tconv Pb Tb mA0 p,
      tzFin_Cp_pre lidEOS convEOS tblEOS start iCd iCv bottom Tconv Pb Tb mA0 p h2,
      tzFin_T_pre lidEOS convEOS tblEOS start iCd iCv bottom Tconv Pb Tb mA0 p h2]
  exact tzPre_Cp_conv lidEOS convEOS start iCd iCv Tconv mA0 p h1 h2

lemma tzFin_alpha_conv {i : ℕ} (h1 : iCd ≤ i) (h2 : i < iCv) :
    (threeZoneFinal lidEOS convEOS tblEOS start iCd iCv bottom Tconv Pb Tb mA0 p).alpha_pK i =
      convEOS.fn_alpha_pK
        ((threeZoneFinal lidEOS convEOS tblEOS start iCd iCv bottom Tconv Pb Tb mA0 p).P_MPa i)
        ((threeZoneFinal lidEOS convEOS tblEOS start iCd iCv bottom Tconv Pb Tb mA0 p).T_K i) := by
  rw [tzFin_P lidEOS convEOS tblEOS start iCd iCv bottom Tconv Pb Tb mA0 p,
      tzFin_alpha_pre lidEOS convEOS tblEOS start iCd iCv bottom Tconv Pb Tb mA0 p h2,
      tzFin_T_pre lidEOS convEOS tblEOS start iCd iCv bottom Tconv Pb Tb mA0 p h2]
  exact tzPre_alpha_conv lidEOS convEOS start iCd iCv Tconv mA0 p h1 h2

lemma tzFin_k_conv {i : ℕ} (h1 : iCd ≤ i) (h2 : i < iCv) :
    (threeZoneFinal lidEOS convEOS tblEOS start iCd iCv bottom Tconv Pb Tb mA0 p).kTherm_WmK i =
      convEOS.fn_kTherm_WmK
        ((threeZoneFinal lidEOS convEOS tblEOS start iCd iCv bottom Tconv Pb Tb mA0 p).P_MPa i)
        ((threeZoneFinal lidEOS convEOS tblEOS start iCd iCv bottom Tconv Pb Tb mA0 p).T_K i) := by
  rw [tzFin_P lidEOS convEOS tblEOS start iCd iCv bottom Tconv Pb Tb mA0 p,
      tzFin_k_pre lidEOS convEOS tblEOS start iCd iCv bottom Tconv Pb Tb mA0 p h2,
      tzFin_T_pre lidEOS convEOS tblEOS start iCd iCv bottom Tconv Pb Tb mA0 p h2]
  exact tzPre_k_conv lidEOS convEOS start iCd iCv Tconv mA0 p h1 h2

lemma tzFin_rho_tbl {i : ℕ} (h0 : iCv ≤ i) (h1 : i < bottom) :
    (threeZoneFinal lidEOS convEOS tblEOS start iCd iCv bottom Tconv Pb Tb mA0 p).rho_kgm3 i =
      tblEOS.fn_rho_kgm3
        ((threeZoneFinal lidEOS convEOS tblEOS start iCd iCv bottom Tconv Pb Tb mA0 p).P_MPa i)
        ((threeZoneFinal lidEOS convEOS tblEOS start iCd iCv bottom Tconv Pb Tb mA0 p).T_K i) := by
  rw [threeZoneFinal_eq, geomFold_rho, geomFold_T, geomFold_P, tblReassign_rho_in h0 h1,
      tblReassign_P]

lemma tzFin_Cp_tbl {i : ℕ} (h0 : iCv ≤ i) (h1 : i < bottom) :
    (threeZoneFinal lidEOS convEOS tblEOS start iCd iCv bottom Tconv Pb Tb mA0 p).Cp_JkgK i =
      tblEOS.fn_Cp_JkgK
        ((threeZoneFinal lidEOS convEOS tblEOS start iCd iCv bottom Tconv Pb Tb mA0 p).P_MPa i)
        ((threeZoneFinal lidEOS convEOS tblEOS start iCd iCv bottom Tconv Pb Tb mA0 p).T_K i) := by
  rw [threeZoneFinal_eq, geomFold_Cp, geomFold_T, geomFold_P, tblReassign_Cp_in h0 h1,
      tblReassign_P]

lemma tzFin_alpha_tbl {i : ℕ} (h0 : iCv ≤ i) (h1 : i < bottom) :
    (threeZoneFinal lidEOS convEOS tblEOS start iCd iCv bottom Tconv Pb Tb mA0 p).alpha_pK i =
      tblEOS.fn_alpha_pK
        ((threeZoneFinal lidEOS convEOS tblEOS start iCd iCv bottom Tconv Pb Tb mA0 p).P_MPa i)
        ((threeZoneFinal lidEOS convEOS tblEOS start iCd iCv bottom Tconv Pb Tb mA0 p).T_K i) := by
  rw [threeZoneFinal_eq, geomFold_alpha, geomFold_T, geomFold_P, tblReassign_alpha_in h0 h1,
      tblReassign_P]

lemma tzFin_z_s3 {i : ℕ} (hio : iCd ≤ iCv) (hA : i < iCd) :
    (threeZoneFinal lidEOS convEOS tblEOS start iCd iCv bottom Tconv Pb Tb mA0 p).z_m i =
      (foldRange geomStep (lidReassign lidEOS start iCd Tconv p, mA0) (start+1) (iCd - (start+1))).1.z_m i := by
  rw [threeZoneFinal_eq, geomFold_z_ne i _ iCv _ (Or.inl (by omega)), tblReassign_z,
      threeZonePre_eq, convFold_z_ne convEOS i _ iCd _ (Or.inl hA)]

lemma tzFin_r_s3 {i : ℕ} (hio : iCd ≤ iCv) (hA : i < iCd) :
    (threeZoneFinal lidEOS convEOS tblEOS start iCd iCv bottom Tconv Pb Tb mA0 p).r_m i =
      (foldRange geomStep (lidReassign lidEOS start iCd Tconv p, mA0) (start+1) (iCd - (start+1))).1.r_m i := by
  rw [threeZoneFinal_eq, geomFold_r_ne i _ iCv _ (Or.inl (by omega)), tblReassign_r,
      threeZonePre_eq, convFold_r_ne convEOS i _ iCd _ (Or.inl hA)]

lemma tzFin_g_s3 {i : ℕ} (hio : iCd ≤ iCv) (hA : i < iCd) :
    (threeZoneFinal lidEOS convEOS tblEOS start iCd iCv bottom Tconv Pb Tb mA0 p).g_ms2 i =
      (foldRange geomStep (lidReassign lidEOS start iCd Tconv p, mA0) (start+1) (iCd - (start+1))).1.g_ms2 i := by
  rw [threeZoneFinal_eq, geomFold_g_ne i _ iCv _ (Or.inl (by omega)), tblReassign_g,
      threeZonePre_eq, convFold_g_ne convEOS i _ iCd _ (Or.inl hA)]

lemma tzFin_rho_s3 {i : ℕ} (hio : iCd ≤ iCv) (hA : i < iCd) :
    (threeZoneFinal lidEOS convEOS tblEOS start iCd iCv bottom Tconv Pb Tb mA0 p).rho_kgm3 i =
      (foldRange geomStep (lidReassign lidEOS start iCd Tconv p, mA0) (start+1) (iCd - (start+1))).1.rho_kgm3 i := by
  rw [threeZoneFinal_eq, geomFold_rho, tblReassign_rho_out (by omega),
      threeZonePre_eq, convFold_rho_ne convEOS i _ iCd _ (Or.inl hA)]

lemma tzFin_ML_s3 {j : ℕ} (hio : iCd ≤ iCv) (hA : j + 1 < iCd) :
    (threeZoneFinal lidEOS convEOS tblEOS start iCd iCv bottom Tconv Pb Tb mA0 p).MLayer_kg j =
      (foldRange geomStep (lidReassign lidEOS start iCd Tconv p, mA0) (start+1) (iCd - (start+1))).1.MLayer_kg j := by
  rw [threeZoneFinal_eq, geomFold_ML_ne j _ iCv _ (by omega) (Or.inl (by omega)), tblReassign_ML,
      threeZonePre_eq, convFold_ML_ne convEOS j _ iCd _ (by omega) (Or.inl hA)]

lemma tzFin_z_low {i : ℕ} (hsd : start < iCd) (hio : iCd ≤ iCv) (h : i ≤ start) :
    (threeZoneFinal lidEOS convEOS tblEOS start iCd iCv bottom Tconv Pb Tb mA0 p).z_m i = p.z_m i := by
  rw [tzFin_z_s3 lidEOS convEOS tblEOS start iCd iCv bottom Tconv Pb Tb mA0 p hio (by omega),
      geomFold_z_ne i _ (start+1) _ (Or.inl (by omega)), lidReassign_z]

lemma tzFin_r_low {i : ℕ} (hsd : start < iCd) (hio : iCd ≤ iCv) (h : i ≤ start) :
    (threeZoneFinal lidEOS convEOS tblEOS start iCd iCv bottom Tconv Pb Tb mA0 p).r_m i = p.r_m i := by
  rw [tzFin_r_s3 lidEOS convEOS tblEOS start iCd iCv bottom Tconv Pb Tb mA0 p hio (by omega),
      geomFold_r_ne i _ (start+1) _ (Or.inl (by omega)), lidReassign_r]

lemma tzFin_g_low {i : ℕ} (hsd : start < iCd) (hio : iCd ≤ iCv) (h : i ≤ start) :
    (threeZoneFinal lidEOS convEOS tblEOS start iCd iCv bottom Tconv Pb Tb mA0 p).g_ms2 i = p.g_ms2 i := by
  rw [tzFin_g_s3 lidEOS convEOS tblEOS start iCd iCv bottom Tconv Pb Tb mA0 p hio (by omega),
      geomFold_g_ne i _ (start+1) _ (Or.inl (by omega)), lidReassign_g]

lemma tzFin_ML_low {j : ℕ} (hsd : start < iCd) (hio : iCd ≤ iCv) (h : j < start) :
    (threeZoneFinal lidEOS convEOS tblEOS start iCd iCv bottom Tconv Pb Tb mA0 p).MLayer_kg j = p.MLayer_kg j := by
  rw [tzFin_ML_s3 lidEOS convEOS tblEOS start iCd iCv bottom Tconv Pb Tb mA0 p hio (by omega),
      geomFold_ML_ne j _ (start+1) _ (by omega) (Or.inl (by omega)), lidReassign_ML]

lemma tzFin_z_rel {i : ℕ} (ha : 1 ≤ iCd) (hv : 1 ≤ iCv) (hio : iCd ≤ iCv)
    (h1 : start + 1 ≤ i) (h2 : i ≤ bottom) :
    (threeZoneFinal lidEOS convEOS tblEOS start iCd iCv bottom Tconv Pb Tb mA0 p).z_m i =
      (threeZoneFinal lidEOS convEOS tblEOS start iCd iCv bottom Tconv Pb Tb mA0 p).z_m (i-1)
      + ((threeZoneFinal lidEOS convEOS tblEOS start iCd iCv bottom Tconv Pb Tb mA0 p).P_MPa i
          - (threeZoneFinal lidEOS convEOS tblEOS start iCd iCv bottom Tconv Pb Tb mA0 p).P_MPa (i-1)) * 1e6
        / (threeZoneFinal lidEOS convEOS tblEOS start iCd iCv bottom Tconv Pb Tb mA0 p).g_ms2 (i-1)
        / (threeZoneFinal lidEOS convEOS tblEOS start iCd iCv bottom Tconv Pb Tb mA0 p).rho_kgm3 (i-1) := by
  rcases Nat.lt_or_ge i iCd with hA | hge
  · have hval := geomFold_z_val (lidReassign lidEOS start iCd Tconv p, mA0) (start+1)
        (iCd - (start+1)) i (by omega) h1 (by omega)
    rw [tzFin_z_s3 lidEOS convEOS tblEOS start iCd iCv bottom Tconv Pb Tb mA0 p hio hA,
        tzFin_z_s3 lidEOS convEOS tblEOS start iCd iCv bottom Tconv Pb Tb mA0 p hio (by omega),
        tzFin_g_s3 lidEOS convEOS tblEOS start iCd iCv bottom Tconv Pb Tb mA0 p hio (by omega),
        tzFin_rho_s3 lidEOS convEOS tblEOS start iCd iCv bottom Tconv Pb Tb mA0 p hio (by omega),
        tzFin_P lidEOS convEOS tblEOS start iCd iCv bottom Tconv Pb Tb mA0 p]
    rw [show (foldRange geomStep (lidReassign lidEOS start iCd Tconv p, mA0) (start+1) (iCd - (start+1))).1.P_MPa = p.P_MPa
      from by rw [geomFold_P]; exact lidReassign_P _ _ _ _ _] at hval
    exact hval
  · rcases Nat.lt_or_ge i iCv with hB | hC
    · have hval := convFold_z_val convEOS
        (foldRange geomStep (lidReassign lidEOS start iCd Tconv p, mA0) (start+1) (iCd - (start+1)))
        iCd (iCv - iCd) i ha hge (by omega)
      rw [tzFin_z_pre lidEOS convEOS tblEOS start iCd iCv bottom Tconv Pb Tb mA0 p hB,
          tzFin_z_pre lidEOS convEOS tblEOS start iCd iCv bottom Tconv Pb Tb mA0 p (by omega),
          tzFin_g_pre lidEOS convEOS tblEOS start iCd iCv bottom Tconv Pb Tb mA0 p (by omega),
          tzFin_rho_pre lidEOS convEOS tblEOS start iCd iCv bottom Tconv Pb Tb mA0 p (by omega),
          tzFin_P lidEOS convEOS tblEOS start iCd iCv bottom Tconv Pb Tb mA0 p,
          threeZonePre_eq]
      rw [show (foldRange (convectStep convEOS)
            (foldRange geomStep (lidReassign lidEOS start iCd Tconv p, mA0) (start+1) (iCd - (start+1)))
            iCd (iCv - iCd)).1.P_MPa = p.P_MPa
        from by rw [convFold_P, geomFold_P]; exact lidReassign_P _ _ _ _ _] at hval
      exact hval
    · have hval := geomFold_z_val
        (tblReassign tblEOS iCv bottom Pb Tb (threeZonePre lidEOS convEOS start iCd iCv Tconv mA0 p).1,
         (threeZonePre lidEOS convEOS start iCd iCv Tconv mA0 p).2)
        iCv (bottom + 1 - iCv) i hv hC (by omega)
      rw [threeZoneFinal_eq]
      exact hval

lemma tzFin_r_val {i : ℕ} (ha : 1 ≤ iCd) (hv : 1 ≤ iCv) (hio : iCd ≤ iCv)
    (h1 : start + 1 ≤ i) (h2 : i ≤ bottom) :
    (threeZoneFinal lidEOS convEOS tblEOS start iCd iCv bottom Tconv Pb Tb mA0 p).r_m i =
      p.Bulk.R_m - (threeZoneFinal lidEOS convEOS tblEOS start iCd iCv bottom Tconv Pb Tb mA0 p).z_m i := by
  rcases Nat.lt_or_ge i iCd with hA | hge
  · have hval := geomFold_r_val (lidReassign lidEOS start iCd Tconv p, mA0) (start+1)
        (iCd - (start+1)) i (by omega) h1 (by omega)
    rw [tzFin_r_s3 lidEOS convEOS tblEOS start iCd iCv bottom Tconv Pb Tb mA0 p hio hA,
        tzFin_z_s3 lidEOS convEOS tblEOS start iCd iCv bottom Tconv Pb Tb mA0 p hio hA]
    exact hval
  · rcases Nat.lt_or_ge i iCv with hB | hC
    · have hval := convFold_r_val convEOS
        (foldRange geomStep (lidReassign lidEOS start iCd Tconv p, mA0) (start+1) (iCd - (start+1)))
        iCd (iCv - iCd) i ha hge (by omega)
      rw [geomFold_Bulk] at hval
      rw [tzFin_r_pre lidEOS convEOS tblEOS start iCd iCv bottom Tconv Pb Tb mA0 p hB,
          tzFin_z_pre lidEOS convEOS tblEOS start iCd iCv bottom Tconv Pb Tb mA0 p hB,
          threeZonePre_eq]
      exact hval
    · have hval := geomFold_r_val
        (tblReassign tblEOS iCv bottom Pb Tb (threeZonePre lidEOS convEOS start iCd iCv Tconv mA0 p).1,
         (threeZonePre lidEOS convEOS start iCd iCv Tconv mA0 p).2)
        iCv (bottom + 1 - iCv) i hv hC (by omega)
      rw [show (tblReassign tblEOS iCv bottom Pb Tb (threeZonePre lidEOS convEOS start iCd iCv Tconv mA0 p).1,
            (threeZonePre lidEOS convEOS start iCd iCv Tconv mA0 p).2).1.Bulk = p.Bulk
        from by rw [tblReassign_Bulk]; exact tzPre_Bulk lidEOS convEOS start iCd iCv Tconv mA0 p] at hval
      rw [threeZoneFinal_eq]
      exact hval

lemma tzFin_ML_val {i : ℕ} (ha : 1 ≤ iCd) (hv : 1 ≤ iCv) (hio : iCd ≤ iCv)
    (h1 : start + 1 ≤ i) (h2 : i ≤ bottom) :
    (threeZoneFinal lidEOS convEOS tblEOS start iCd iCv bottom Tconv Pb Tb mA0 p).MLayer_kg (i-1) =
      4/3 * Real.pi * (threeZoneFinal lidEOS convEOS tblEOS start iCd iCv bottom Tconv Pb Tb mA0 p).rho_kgm3 (i-1)
        * (((threeZoneFinal lidEOS convEOS tblEOS start iCd iCv bottom Tconv Pb Tb mA0 p).r_m (i-1))^3
            - ((threeZoneFinal lidEOS convEOS tblEOS start iCd iCv bottom Tconv Pb Tb mA0 p).r_m i)^3) := by
  rcases Nat.lt_or_ge i iCd with hA | hge
  · have hval := geomFold_ML_val (lidReassign lidEOS start iCd Tconv p, mA0) (start+1)
        (iCd - (start+1)) i (by omega) h1 (by omega)
    rw [tzFin_ML_s3 lidEOS convEOS tblEOS start iCd iCv bottom Tconv Pb Tb mA0 p hio (by omega),
        tzFin_rho_s3 lidEOS convEOS tblEOS start iCd iCv bottom Tconv Pb Tb mA0 p hio (by omega),
        tzFin_r_s3 lidEOS convEOS tblEOS start iCd iCv bottom Tconv Pb Tb mA0 p hio (by omega : i - 1 < iCd),
        tzFin_r_s3 lidEOS convEOS tblEOS start iCd iCv bottom Tconv Pb Tb mA0 p hio hA]
    exact hval
  · rcases Nat.lt_or_ge i iCv with hB | hC
    · have hval := convFold_ML_val convEOS
        (foldRange geomStep (lidReassign lidEOS start iCd Tconv p, mA0) (start+1) (iCd - (start+1)))
        iCd (iCv - iCd) i ha hge (by omega)
      rw [tzFin_ML_pre lidEOS convEOS tblEOS start iCd iCv bottom Tconv Pb Tb mA0 p hv (by omega),
          tzFin_rho_pre lidEOS convEOS tblEOS start iCd iCv bottom Tconv Pb Tb mA0 p (by omega),
          tzFin_r_pre lidEOS convEOS tblEOS start iCd iCv bottom Tconv Pb Tb mA0 p (by omega : i - 1 < iCv),
          tzFin_r_pre lidEOS convEOS tblEOS start iCd iCv bottom Tconv Pb Tb mA0 p hB,
          threeZonePre_eq]
      exact hval
    · have hval := geomFold_ML_val
        (tblReassign tblEOS iCv bottom Pb Tb (threeZonePre lidEOS convEOS start iCd iCv Tconv mA0 p).1,
         (threeZonePre lidEOS convEOS start iCd iCv Tconv mA0 p).2)
        iCv (bottom + 1 - iCv) i hv hC (by omega)
      rw [threeZoneFinal_eq]
      exact hval

lemma sum_merge2 (F : ℕ → ℝ) (m : ℝ) (a b i : ℕ) (h1 : a ≤ b) (h2 : b ≤ i) :
    m + ∑ j ∈ Finset.Ico a b, F j + ∑ j ∈ Finset.Ico b i, F j
      = m + ∑ j ∈ Finset.Ico a i, F j := by
  rw [add_assoc, Finset.sum_Ico_consecutive F h1 h2]

lemma tzFin_g_val {i : ℕ} (ha : 1 ≤ iCd) (hv : 1 ≤ iCv) (hio : iCd ≤ iCv) (hsd : start < iCd)
    (h1 : start + 1 ≤ i) (h2 : i ≤ bottom) :
    (threeZoneFinal lidEOS convEOS tblEOS start iCd iCv bottom Tconv Pb Tb mA0 p).g_ms2 i =
      Constants.G * (p.Bulk.M_kg -
        (mA0 + ∑ j ∈ Finset.Ico start i,
          (threeZoneFinal lidEOS convEOS tblEOS start iCd iCv bottom Tconv Pb Tb mA0 p).MLayer_kg j))
      / ((threeZoneFinal lidEOS convEOS tblEOS start iCd iCv bottom Tconv Pb Tb mA0 p).r_m i)^2 := by
  have hacc3 : (foldRange geomStep (lidReassign lidEOS start iCd Tconv p, mA0) (start+1) (iCd - (start+1))).2
      = mA0 + ∑ j ∈ Finset.Ico start (iCd-1),
          (threeZoneFinal lidEOS convEOS tblEOS start iCd iCv bottom Tconv Pb Tb mA0 p).MLayer_kg j := by
    have hstep := geomFold_acc (lidReassign lidEOS start iCd Tconv p, mA0) (start+1) (iCd - (start+1)) (by omega)
    rw [show start+1-1 = start from by omega,
        show start + (iCd - (start+1)) = iCd - 1 from by omega] at hstep
    rw [hstep]
    have hcongr : ∀ j ∈ Finset.Ico start (iCd-1),
        (foldRange geomStep (lidReassign lidEOS start iCd Tconv p, mA0) (start+1) (iCd - (start+1))).1.MLayer_kg j
          = (threeZoneFinal lidEOS convEOS tblEOS start iCd iCv bottom Tconv Pb Tb mA0 p).MLayer_kg j := by
      intro j hj
      rw [Finset.mem_Ico] at hj
      exact (tzFin_ML_s3 lidEOS convEOS tblEOS start iCd iCv bottom Tconv Pb Tb mA0 p hio (by omega)).symm
    rw [Finset.sum_congr rfl hcongr]
  rcases Nat.lt_or_ge i iCd with hA | hge
  · have hval := geomFold_g_val (lidReassign lidEOS start iCd Tconv p, mA0) (start+1)
        (iCd - (start+1)) i (by omega) h1 (by omega)
    rw [show start+1-1 = start from by omega] at hval
    have hcongr : ∀ j ∈ Finset.Ico start i,
        (foldRange geomStep (lidReassign lidEOS start iCd Tconv p, mA0) (start+1) (iCd - (start+1))).1.MLayer_kg j
          = (threeZoneFinal lidEOS convEOS tblEOS start iCd iCv bottom Tconv Pb Tb mA0 p).MLayer_kg j := by
      intro j hj
      rw [Finset.mem_Ico] at hj
      exact (tzFin_ML_s3 lidEOS convEOS tblEOS start iCd iCv bottom Tconv Pb Tb mA0 p hio (by omega)).symm
    rw [Finset.sum_congr rfl hcongr] at hval
    rw [tzFin_g_s3 lidEOS convEOS tblEOS start iCd iCv bottom Tconv Pb Tb mA0 p hio hA,
        tzFin_r_s3 lidEOS convEOS tblEOS start iCd iCv bottom Tconv Pb Tb mA0 p hio hA]
    exact hval
  · rcases Nat.lt_or_ge i iCv with hB | hC
    · have hval := convFold_g_val convEOS
        (foldRange geomStep (lidReassign lidEOS start iCd Tconv p, mA0) (start+1) (iCd - (start+1)))
        iCd (iCv - iCd) i ha hge (by omega)
      have hcongr : ∀ j ∈ Finset.Ico (iCd-1) i,
          (foldRange (convectStep convEOS)
            (foldRange geomStep (lidReassign lidEOS start iCd Tconv p, mA0) (start+1) (iCd - (start+1)))
            iCd (iCv - iCd)).1.MLayer_kg j
            = (threeZoneFinal lidEOS convEOS tblEOS start iCd iCv bottom Tconv Pb Tb mA0 p).MLayer_kg j := by
        intro j hj
        rw [Finset.mem_Ico] at hj
        have hj2 := @tzFin_ML_pre lidEOS convEOS tblEOS start iCd iCv bottom Tconv Pb Tb mA0 p j hv (by omega)
        rw [threeZonePre_eq] at hj2
        exact hj2.symm
      rw [hacc3, Finset.sum_congr rfl hcongr, geomFold_Bulk,
          sum_merge2 _ mA0 start (iCd-1) i (by omega) (by omega)] at hval
      rw [tzFin_g_pre lidEOS convEOS tblEOS start iCd iCv bottom Tconv Pb Tb mA0 p hB,
          tzFin_r_pre lidEOS convEOS tblEOS start iCd iCv bottom Tconv Pb Tb mA0 p hB,
          threeZonePre_eq]
      exact hval
    · have hval := geomFold_g_val
        (tblReassign tblEOS iCv bottom Pb Tb (threeZonePre lidEOS convEOS start iCd iCv Tconv mA0 p).1,
         (threeZonePre lidEOS convEOS start iCd iCv Tconv mA0 p).2)
        iCv (bottom + 1 - iCv) i hv hC (by omega)
      rw [← threeZoneFinal_eq] at hval
      have haccPre : (threeZonePre lidEOS convEOS start iCd iCv Tconv mA0 p).2
          = mA0 + ∑ j ∈ Finset.Ico start (iCd-1),
              (threeZoneFinal lidEOS convEOS tblEOS start iCd iCv bottom Tconv Pb Tb mA0 p).MLayer_kg j
            + ∑ j ∈ Finset.Ico (iCd-1) (iCv-1),
              (threeZoneFinal lidEOS convEOS tblEOS start iCd iCv bottom Tconv Pb Tb mA0 p).MLayer_kg j := by
        rw [threeZonePre_eq, convFold_acc convEOS _ iCd (iCv - iCd) ha]
        rw [show iCd-1+(iCv-iCd) = iCv-1 from by omega]
        rw [hacc3]
        have hcongr : ∀ j ∈ Finset.Ico (iCd-1) (iCv-1),
            (foldRange (convectStep convEOS)
              (foldRange geomStep (lidReassign lidEOS start iCd Tconv p, mA0) (start+1) (iCd - (start+1)))
              iCd (iCv - iCd)).1.MLayer_kg j
              = (threeZoneFinal lidEOS convEOS tblEOS start iCd iCv bottom Tconv Pb Tb mA0 p).MLayer_kg j := by
          intro j hj
          rw [Finset.mem_Ico] at hj
          have hj2 := @tzFin_ML_pre lidEOS convEOS tblEOS start iCd iCv bottom Tconv Pb Tb mA0 p j hv (by omega)
          rw [threeZonePre_eq] at hj2
          exact hj2.symm
        rw [Finset.sum_congr rfl hcongr]
      rw [haccPre,
          sum_merge2 _ (mA0 + ∑ j ∈ Finset.Ico start (iCd-1),
            (threeZoneFinal lidEOS convEOS tblEOS start iCd iCv bottom Tconv Pb Tb mA0 p).MLayer_kg j)
            (iCd-1) (iCv-1) i (by omega) (by omega),
          sum_merge2 _ mA0 start (iCd-1) i (by omega) (by omega),
          show (tblReassign tblEOS iCv bottom Pb Tb (threeZonePre lidEOS convEOS start iCd iCv Tconv mA0 p).1,
            (threeZonePre lidEOS convEOS start iCd iCv Tconv mA0 p).2).1.Bulk = p.Bulk
          from by rw [tblReassign_Bulk]; exact tzPre_Bulk lidEOS convEOS start iCd iCv Tconv mA0 p] at hval
      exact hval

lemma tzFin_k_tbl {i : ℕ} (h0 : iCv ≤ i) (h1 : i < bottom) :
    (threeZoneFinal lidEOS convEOS tblEOS start iCd iCv bottom Tconv Pb Tb mA0 p).kTherm_WmK i =
      tblEOS.fn_kTherm_WmK
        ((threeZoneFinal lidEOS convEOS tblEOS start iCd iCv bottom Tconv Pb Tb mA0 p).P_MPa i)
        ((threeZoneFinal lidEOS convEOS tblEOS start iCd iCv bottom Tconv Pb Tb mA0 p).T_K i) := by
  rw [threeZoneFinal_eq, geomFold_k, geomFold_T, geomFold_P, tblReassign_k_in h0 h1,
      tblReassign_P]

lemma threeZoneCore_eq (check : Bool) :
    threeZoneCore lidEOS convEOS tblEOS start iCd iCv bottom Tconv Pb Tb mA0 check p =
      if check = true ∧ Tb < (threeZonePre lidEOS convEOS start iCd iCv Tconv mA0 p).1.T_K (iCv - 1)
      then Except.error PyErr.valueError
      else Except.ok (threeZoneFinal lidEOS convEOS tblEOS start iCd iCv bottom Tconv Pb Tb mA0 p) := rfl

lemma threeZoneCore_ok_of (check : Bool)
    (hck : ¬ (check = true ∧ Tb < (threeZonePre lidEOS convEOS start iCd iCv Tconv mA0 p).1.T_K (iCv - 1))) :
    threeZoneCore lidEOS convEOS tblEOS start iCd iCv bottom Tconv Pb Tb mA0 check p =
      Except.ok (threeZoneFinal lidEOS convEOS tblEOS start iCd iCv bottom Tconv Pb Tb mA0 p) := by
  rw [threeZoneCore_eq, if_neg hck]

lemma threeZoneCore_error_of
    (hck : Tb < (threeZonePre lidEOS convEOS start iCd iCv Tconv mA0 p).1.T_K (iCv - 1)) :
    threeZoneCore lidEOS convEOS tblEOS start iCd iCv bottom Tconv Pb Tb mA0 true p =
      Except.error PyErr.valueError := by
  rw [threeZoneCore_eq, if_pos ⟨rfl, hck⟩]

lemma threeZoneCore_ok_elim {q : PlanetState} (check : Bool)
    (h : threeZoneCore lidEOS convEOS tblEOS start iCd iCv bottom Tconv Pb Tb mA0 check p = Except.ok q) :
    q = threeZoneFinal lidEOS convEOS tblEOS start iCd iCv bottom Tconv Pb Tb mA0 p := by
  rw [threeZoneCore_eq] at h
  by_cases hc : check = true ∧ Tb < (threeZonePre lidEOS convEOS start iCd iCv Tconv mA0 p).1.T_K (iCv - 1)
  · rw [if_pos hc] at h
    exact absurd h (fun hh => Except.noConfusion hh)
  · rw [if_neg hc] at h
    exact (Except.ok.inj h).symm

end ThreeZone

/-! ## Run shapes of the three integrators -/

lemma resSt_ok (q : PlanetState) : resSt (Except.ok q) = q := rfl

lemma firstIdxAbove_eq {z : ℕ → ℝ} {c : ℝ} {n : ℕ}
    (hn : c < z n) (hm : ∀ m, m < n → ¬ c < z m) : firstIdxAbove z c = n := by
  unfold firstIdxAbove
  split
  · next h => exact (Nat.find_eq_iff h).mpr ⟨hn, hm⟩
  · next h => exact absurd ⟨n, hn⟩ h

lemma IceIConvect_eq (env : ConvEnv) (p0 : PlanetState) :
    IceIConvect env p0 =
      if p0.z_m (p0.Steps.nIbottom - 1) ≤ (iceIConvParams env p0).eLid_m + (iceIConvParams env p0).deltaTBL_m then
        Except.ok {iceIAssigned env p0 with Ocean := {(iceIAssigned env p0).Ocean with QfromMantle_W :=
          ((iceIAssigned env p0).T_K 1 - (iceIAssigned env p0).Bulk.Tsurf_K) /
            ((iceIAssigned env p0).Bulk.R_m - (iceIAssigned env p0).r_m 1) * (iceIAssigned env p0).kTherm_WmK 0
            * 4 * Real.pi * (iceIAssigned env p0).Bulk.R_m ^ 2}}
      else if iceI_nConduct env p0 < p0.Steps.nClath then Except.error PyErr.valueError
      else if p0.Do.CLATHRATE = true then Except.error PyErr.nameError
      else threeZoneCore (p0.Ocean.surfIceEOS "Ih") (p0.Ocean.surfIceEOS "Ih") (p0.Ocean.surfIceEOS "Ih")
        0 (iceI_nConduct env p0) (iceI_nConvectEnd env p0) p0.Steps.nIbottom
        (iceIConvParams env p0).Tconv_K p0.PbI_MPa p0.Bulk.Tb_K 0 false (iceIAssigned env p0) := rfl

lemma IceIIIConvect_eq (env : ConvEnv) (p0 : PlanetState) :
    IceIIIConvect env p0 =
      if p0.z_m (p0.Steps.nIIIbottom - 1) - p0.z_m (p0.Steps.nIbottom - 1)
          ≤ (iceIIIConvParams env p0).eLid_m + (iceIIIConvParams env p0).deltaTBL_m then
        Except.ok (iceIIIAssigned env p0)
      else threeZoneCore (p0.Ocean.surfIceEOS "III") (p0.Ocean.surfIceEOS "III") (p0.Ocean.surfIceEOS "III")
        p0.Steps.nIbottom (iceIII_iConductEnd env p0) (iceIII_iConvectEnd env p0) p0.Steps.nIIIbottom
        (iceIIIConvParams env p0).Tconv_K p0.PbIII_MPa p0.Bulk.TbIII_K
        (∑ j ∈ Finset.range p0.Steps.nIbottom, p0.MLayer_kg j) true (iceIIIAssigned env p0) := rfl

lemma IceVConvect_eq (env : ConvEnv) (p0 : PlanetState) :
    IceVConvect env p0 =
      if p0.z_m (p0.Steps.nSurfIce - 1) - p0.z_m (p0.Steps.nIIIbottom - 1)
          ≤ (iceVConvParams env p0).eLid_m + (iceVConvParams env p0).deltaTBL_m then
        Except.ok (iceVAssigned env p0)
      else threeZoneCore (p0.Ocean.surfIceEOS "V") (p0.Ocean.iceEOS "V") (p0.Ocean.surfIceEOS "V")
        p0.Steps.nIIIbottom (iceV_iConductEnd env p0) (iceV_iConvectEnd env p0) p0.Steps.nSurfIce
        (iceVConvParams env p0).Tconv_K p0.PbV_MPa p0.Bulk.TbV_K
        (∑ j ∈ Finset.range p0.Steps.nIIIbottom, p0.MLayer_kg j) true (iceVAssigned env p0) := rfl

lemma iceIAssigned_z (env : ConvEnv) (p0 : PlanetState) :
    (iceIAssigned env p0).z_m = p0.z_m := by
  simp only [iceIAssigned]; split <;> rfl

lemma iceIAssigned_r (env : ConvEnv) (p0 : PlanetState) :
    (iceIAssigned env p0).r_m = p0.r_m := by
  simp only [iceIAssigned]; split <;> rfl

lemma iceIAssigned_P (env : ConvEnv) (p0 : PlanetState) :
    (iceIAssigned env p0).P_MPa = p0.P_MPa := by
  simp only [iceIAssigned]; split <;> rfl

lemma iceIAssigned_T (env : ConvEnv) (p0 : PlanetState) :
    (iceIAssigned env p0).T_K = p0.T_K := by
  simp only [iceIAssigned]; split <;> rfl

lemma iceIAssigned_rho (env : ConvEnv) (p0 : PlanetState) :
    (iceIAssigned env p0).rho_kgm3 = p0.rho_kgm3 := by
  simp only [iceIAssigned]; split <;> rfl

lemma iceIAssigned_Cp (env : ConvEnv) (p0 : PlanetState) :
    (iceIAssigned env p0).Cp_JkgK = p0.Cp_JkgK := by
  simp only [iceIAssigned]; split <;> rfl

lemma iceIAssigned_alpha (env : ConvEnv) (p0 : PlanetState) :
    (iceIAssigned env p0).alpha_pK = p0.alpha_pK := by
  simp only [iceIAssigned]; split <;> rfl

lemma iceIAssigned_k (env : ConvEnv) (p0 : PlanetState) :
    (iceIAssigned env p0).kTherm_WmK = p0.kTherm_WmK := by
  simp only [iceIAssigned]; split <;> rfl

lemma iceIAssigned_g (env : ConvEnv) (p0 : PlanetState) :
    (iceIAssigned env p0).g_ms2 = p0.g_ms2 := by
  simp only [iceIAssigned]; split <;> rfl

lemma iceIAssigned_ML (env : ConvEnv) (p0 : PlanetState) :
    (iceIAssigned env p0).MLayer_kg = p0.MLayer_kg := by
  simp only [iceIAssigned]; split <;> rfl

lemma iceIAssigned_BulkR (env : ConvEnv) (p0 : PlanetState) :
    (iceIAssigned env p0).Bulk.R_m = p0.Bulk.R_m := by
  simp only [iceIAssigned]; split <;> rfl

lemma iceIAssigned_BulkM (env : ConvEnv) (p0 : PlanetState) :
    (iceIAssigned env p0).Bulk.M_kg = p0.Bulk.M_kg := by
  simp only [iceIAssigned]; split <;> rfl

lemma iceIAssigned_BulkTb (env : ConvEnv) (p0 : PlanetState) :
    (iceIAssigned env p0).Bulk.Tb_K = p0.Bulk.Tb_K := by
  simp only [iceIAssigned]; split <;> rfl

lemma iceIIIAssigned_arrays (env : ConvEnv) (p0 : PlanetState) :
    (iceIIIAssigned env p0).z_m = p0.z_m ∧ (iceIIIAssigned env p0).r_m = p0.r_m ∧
    (iceIIIAssigned env p0).P_MPa = p0.P_MPa ∧ (iceIIIAssigned env p0).T_K = p0.T_K ∧
    (iceIIIAssigned env p0).rho_kgm3 = p0.rho_kgm3 ∧ (iceIIIAssigned env p0).Cp_JkgK = p0.Cp_JkgK ∧
    (iceIIIAssigned env p0).alpha_pK = p0.alpha_pK ∧ (iceIIIAssigned env p0).kTherm_WmK = p0.kTherm_WmK ∧
    (iceIIIAssigned env p0).g_ms2 = p0.g_ms2 ∧ (iceIIIAssigned env p0).MLayer_kg = p0.MLayer_kg ∧
    (iceIIIAssigned env p0).Bulk = p0.Bulk :=
  ⟨rfl, rfl, rfl, rfl, rfl, rfl, rfl, rfl, rfl, rfl, rfl⟩

lemma iceIIIAssigned_z (env : ConvEnv) (p0 : PlanetState) :
    (iceIIIAssigned env p0).z_m = p0.z_m := rfl

lemma iceIIIAssigned_r (env : ConvEnv) (p0 : PlanetState) :
    (iceIIIAssigned env p0).r_m = p0.r_m := rfl

lemma iceIIIAssigned_P (env : ConvEnv) (p0 : PlanetState) :
    (iceIIIAssigned env p0).P_MPa = p0.P_MPa := rfl

lemma iceIIIAssigned_T (env : ConvEnv) (p0 : PlanetState) :
    (iceIIIAssigned env p0).T_K = p0.T_K := rfl

lemma iceIIIAssigned_g (env : ConvEnv) (p0 : PlanetState) :
    (iceIIIAssigned env p0).g_ms2 = p0.g_ms2 := rfl

lemma iceIIIAssigned_ML (env : ConvEnv) (p0 : PlanetState) :
    (iceIIIAssigned env p0).MLayer_kg = p0.MLayer_kg := rfl

lemma iceIIIAssigned_Bulk (env : ConvEnv) (p0 : PlanetState) :
    (iceIIIAssigned env p0).Bulk = p0.Bulk := rfl

lemma iceVAssigned_z (env : ConvEnv) (p0 : PlanetState) :
    (iceVAssigned env p0).z_m = p0.z_m := rfl

lemma iceVAssigned_r (env : ConvEnv) (p0 : PlanetState) :
    (iceVAssigned env p0).r_m = p0.r_m := rfl

lemma iceVAssigned_P (env : ConvEnv) (p0 : PlanetState) :
    (iceVAssigned env p0).P_MPa = p0.P_MPa := rfl

lemma iceVAssigned_T (env : ConvEnv) (p0 : PlanetState) :
    (iceVAssigned env p0).T_K = p0.T_K := rfl

lemma iceVAssigned_g (env : ConvEnv) (p0 : PlanetState) :
    (iceVAssigned env p0).g_ms2 = p0.g_ms2 := rfl

lemma iceVAssigned_ML (env : ConvEnv) (p0 : PlanetState) :
    (iceVAssigned env p0).MLayer_kg = p0.MLayer_kg := rfl

lemma iceVAssigned_Bulk (env : ConvEnv) (p0 : PlanetState) :
    (iceVAssigned env p0).Bulk = p0.Bulk := rfl

lemma iceVAssigned_arrays (env : ConvEnv) (p0 : PlanetState) :
    (iceVAssigned env p0).z_m = p0.z_m ∧ (iceVAssigned env p0).r_m = p0.r_m ∧
    (iceVAssigned env p0).P_MPa = p0.P_MPa ∧ (iceVAssigned env p0).T_K = p0.T_K ∧
    (iceVAssigned env p0).rho_kgm3 = p0.rho_kgm3 ∧ (iceVAssigned env p0).Cp_JkgK = p0.Cp_JkgK ∧
    (iceVAssigned env p0).alpha_pK = p0.alpha_pK ∧ (iceVAssigned env p0).kTherm_WmK = p0.kTherm_WmK ∧
    (iceVAssigned env p0).g_ms2 = p0.g_ms2 ∧ (iceVAssigned env p0).MLayer_kg = p0.MLayer_kg ∧
    (iceVAssigned env p0).Bulk = p0.Bulk :=
  ⟨rfl, rfl, rfl, rfl, rfl, rfl, rfl, rfl, rfl, rfl, rfl⟩

/-! ## Concrete evaluation: the ice-I run on `env0`/`p0` -/

lemma p0_nIbottom : p0.Steps.nIbottom = 3 := rfl

lemma p0_nClath : p0.Steps.nClath = 0 := rfl

lemma p0_CLATH : p0.Do.CLATHRATE = false := rfl

lemma p0_z (i : ℕ) : p0.z_m i = (i : ℝ) := rfl

lemma p0_P (i : ℕ) : p0.P_MPa i = (i : ℝ) := rfl

lemma p0_T (i : ℕ) : p0.T_K i = 100 := rfl

lemma p0_eLid : (iceIConvParams env0 p0).eLid_m = 1/2 := rfl

lemma p0_dTBL : (iceIConvParams env0 p0).deltaTBL_m = 1/5 := rfl

lemma p0_notWhole :
    ¬ (p0.z_m (p0.Steps.nIbottom - 1) ≤ (iceIConvParams env0 p0).eLid_m + (iceIConvParams env0 p0).deltaTBL_m) := by
  rw [p0_nIbottom, p0_eLid, p0_dTBL, p0_z]
  norm_num

lemma p0_nConduct : iceI_nConduct env0 p0 = 1 := by
  show firstIdxAbove p0.z_m (iceIConvParams env0 p0).eLid_m = 1
  rw [p0_eLid]
  apply firstIdxAbove_eq
  · rw [p0_z]; norm_num
  · intro m hm
    interval_cases m
    rw [p0_z]; norm_num

lemma p0_nConvectEnd : iceI_nConvectEnd env0 p0 = 2 := by
  show iceI_nConduct env0 p0 +
      (firstIdxAbove p0.z_m (p0.z_m (p0.Steps.nIbottom - 1) - (iceIConvParams env0 p0).deltaTBL_m)
        - iceI_nConduct env0 p0) = 2
  rw [p0_nConduct, p0_nIbottom, p0_dTBL]
  have h2 : firstIdxAbove p0.z_m (p0.z_m (3 - 1) - 1/5) = 2 := by
    apply firstIdxAbove_eq
    · norm_num [p0]
    · intro m hm
      interval_cases m <;> norm_num [p0]
  rw [h2]

lemma p0_run : IceIConvect env0 p0 = Except.ok q0 := by
  rw [IceIConvect_eq, if_neg p0_notWhole, p0_nConduct, p0_nConvectEnd]
  rw [if_neg (show ¬ (1 < p0.Steps.nClath) from by rw [p0_nClath]; omega)]
  rw [if_neg (show ¬ (p0.Do.CLATHRATE = true) from by rw [p0_CLATH]; simp)]
  exact threeZoneCore_ok_of _ _ _ _ _ _ _ _ _ _ _ _ false (by simp)

lemma q0_eq :
    q0 = threeZoneFinal eosConst eosConst eosConst 0 1 2 3 200 2 50 0 (iceIAssigned env0 p0) := rfl

lemma q0_T0 : q0.T_K 0 = 100 := by
  rw [q0_eq, @tzFin_T_lid eosConst eosConst eosConst 0 1 2 3 200 2 50 0 (iceIAssigned env0 p0)
      0 (le_refl 0) (by norm_num) (by norm_num),
    iceIAssigned_P, iceIAssigned_T]
  simp only [p0_P, p0_T]
  norm_num

lemma q0_alpha0 : q0.alpha_pK 0 = 0 := by
  rw [q0_eq, @tzFin_alpha_lid eosConst eosConst eosConst 0 1 2 3 200 2 50 0 (iceIAssigned env0 p0)
      0 (le_refl 0) (by norm_num) (by norm_num)]
  rfl

lemma q0_T1 : q0.T_K 1 = 100 := by
  rw [q0_eq, @tzFin_T_conv eosConst eosConst eosConst 0 1 2 3 200 2 50 0 (iceIAssigned env0 p0)
      1 (le_refl 1) (le_refl 1) (by norm_num)]
  rw [← q0_eq, show (1:ℕ) - 1 = 0 from rfl, q0_T0, q0_alpha0]
  norm_num

lemma q0_T2 : q0.T_K 2 = 50 := by
  rw [q0_eq, @tzFin_T_tbl eosConst eosConst eosConst 0 1 2 3 200 2 50 0 (iceIAssigned env0 p0)
      2 (by norm_num) (le_refl 2) (by norm_num)]
  rw [← q0_eq, show (2:ℕ) - 1 = 1 from rfl, q0_T1, iceIAssigned_P]
  simp only [p0_P]
  norm_num

lemma p0_lid_T1 : (lidReassign eosConst 0 1 200 (iceIAssigned env0 p0)).T_K 1 = 200 := by
  rw [lidReassign_T_in (by norm_num) (le_refl 1), iceIAssigned_P, iceIAssigned_T]
  simp only [p0_P, p0_T]
  norm_num

/-! ## Concrete evaluation: the ice-III runs on `env0`/`pIII` and `env0`/`pIIIbad` -/

lemma pIII_nIb : pIII.Steps.nIbottom = 1 := rfl

lemma pIII_z (i : ℕ) : pIII.z_m i = (i : ℝ) := rfl

lemma pIII_P (i : ℕ) : pIII.P_MPa i = if i = 0 then 0 else (i : ℝ) - 1 := rfl

lemma pIII_T (i : ℕ) : pIII.T_K i = 100 := rfl

lemma pIII_TbIII : pIII.Bulk.TbIII_K = 150 := rfl

lemma pIII_notWhole :
    ¬ (pIII.z_m (pIII.Steps.nIIIbottom - 1) - pIII.z_m (pIII.Steps.nIbottom - 1)
        ≤ (iceIIIConvParams env0 pIII).eLid_m + (iceIIIConvParams env0 pIII).deltaTBL_m) := by
  rw [show (iceIIIConvParams env0 pIII).eLid_m = 1/2 from rfl,
      show (iceIIIConvParams env0 pIII).deltaTBL_m = 1/5 from rfl,
      show pIII.Steps.nIIIbottom = 3 from rfl, pIII_nIb, pIII_z, pIII_z]
  norm_num

lemma pIII_iCd : iceIII_iConductEnd env0 pIII = 2 := by
  show firstIdxAbove pIII.z_m (pIII.z_m pIII.Steps.nIbottom + (iceIIIConvParams env0 pIII).eLid_m) = 2
  rw [pIII_nIb, show (iceIIIConvParams env0 pIII).eLid_m = 1/2 from rfl]
  apply firstIdxAbove_eq
  · norm_num [pIII, p0]
  · intro m hm
    interval_cases m <;> norm_num [pIII, p0]

lemma pIII_iCv : iceIII_iConvectEnd env0 pIII = 3 := by
  show firstIdxAbove pIII.z_m (pIII.z_m pIII.Steps.nIbottom +
      (pIII.z_m (pIII.Steps.nIIIbottom - 1) - pIII.z_m (pIII.Steps.nIbottom - 1))
      - (iceIIIConvParams env0 pIII).deltaTBL_m) = 3
  rw [pIII_nIb, show pIII.Steps.nIIIbottom = 3 from rfl,
      show (iceIIIConvParams env0 pIII).deltaTBL_m = 1/5 from rfl]
  apply firstIdxAbove_eq
  · norm_num [pIII, p0]
  · intro m hm
    interval_cases m <;> norm_num [pIII, p0]

lemma pIII_preT1 : (threeZonePre eosConst eosConst 1 2 3 200
      (∑ j ∈ Finset.range pIII.Steps.nIbottom, pIII.MLayer_kg j) (iceIIIAssigned env0 pIII)).1.T_K 1 = 100 := by
  rw [@tzPre_T_lid eosConst eosConst 1 2 3 200
      (∑ j ∈ Finset.range pIII.Steps.nIbottom, pIII.MLayer_kg j) (iceIIIAssigned env0 pIII)
      1 (le_refl 1) (by norm_num),
    iceIIIAssigned_P, iceIIIAssigned_T]
  simp only [pIII_P, pIII_T]
  norm_num

lemma pIII_alphaPre1 : (threeZonePre eosConst eosConst 1 2 3 200
      (∑ j ∈ Finset.range pIII.Steps.nIbottom, pIII.MLayer_kg j) (iceIIIAssigned env0 pIII)).1.alpha_pK 1 = 0 := by
  rw [@tzPre_alpha_lid eosConst eosConst 1 2 3 200
      (∑ j ∈ Finset.range pIII.Steps.nIbottom, pIII.MLayer_kg j) (iceIIIAssigned env0 pIII)
      1 (le_refl 1) (by norm_num)]
  rfl

lemma pIII_preT2 : (threeZonePre eosConst eosConst 1 2 3 200
      (∑ j ∈ Finset.range pIII.Steps.nIbottom, pIII.MLayer_kg j) (iceIIIAssigned env0 pIII)).1.T_K 2 = 100 := by
  rw [@tzPre_T_conv eosConst eosConst 1 2 3 200
      (∑ j ∈ Finset.range pIII.Steps.nIbottom, pIII.MLayer_kg j) (iceIIIAssigned env0 pIII)
      2 (by norm_num) (le_refl 2) (by norm_num)]
  rw [show (2:ℕ) - 1 = 1 from rfl, pIII_preT1, pIII_alphaPre1]
  norm_num

lemma pIII_run : IceIIIConvect env0 pIII = Except.ok qIII := by
  rw [IceIIIConvect_eq, if_neg pIII_notWhole, pIII_iCd, pIII_iCv]
  apply threeZoneCore_ok_of
  intro hcontra
  have h2 : pIII.Bulk.TbIII_K < (threeZonePre eosConst eosConst 1 2 3 200
      (∑ j ∈ Finset.range pIII.Steps.nIbottom, pIII.MLayer_kg j) (iceIIIAssigned env0 pIII)).1.T_K (3 - 1) :=
    hcontra.2
  rw [show (3:ℕ) - 1 = 2 from rfl, pIII_preT2, pIII_TbIII] at h2
  norm_num at h2

lemma pIIIbad_z (i : ℕ) : pIIIbad.z_m i = (i : ℝ) := rfl

lemma pIIIbad_TbIII : pIIIbad.Bulk.TbIII_K = 50 := rfl

lemma pIIIbad_notWhole :
    ¬ (pIIIbad.z_m (pIIIbad.Steps.nIIIbottom - 1) - pIIIbad.z_m (pIIIbad.Steps.nIbottom - 1)
        ≤ (iceIIIConvParams env0 pIIIbad).eLid_m + (iceIIIConvParams env0 pIIIbad).deltaTBL_m) := by
  rw [show (iceIIIConvParams env0 pIIIbad).eLid_m = 1/2 from rfl,
      show (iceIIIConvParams env0 pIIIbad).deltaTBL_m = 1/5 from rfl,
      show pIIIbad.Steps.nIIIbottom = 3 from rfl, show pIIIbad.Steps.nIbottom = 1 from rfl,
      pIIIbad_z, pIIIbad_z]
  norm_num

lemma pIIIbad_iCd : iceIII_iConductEnd env0 pIIIbad = 2 := by
  show firstIdxAbove pIIIbad.z_m (pIIIbad.z_m pIIIbad.Steps.nIbottom + (iceIIIConvParams env0 pIIIbad).eLid_m) = 2
  rw [show pIIIbad.Steps.nIbottom = 1 from rfl,
      show (iceIIIConvParams env0 pIIIbad).eLid_m = 1/2 from rfl]
  apply firstIdxAbove_eq
  · norm_num [pIIIbad, pIII, p0]
  · intro m hm
    interval_cases m <;> norm_num [pIIIbad, pIII, p0]

lemma pIIIbad_iCv : iceIII_iConvectEnd env0 pIIIbad = 3 := by
  show firstIdxAbove pIIIbad.z_m (pIIIbad.z_m pIIIbad.Steps.nIbottom +
      (pIIIbad.z_m (pIIIbad.Steps.nIIIbottom - 1) - pIIIbad.z_m (pIIIbad.Steps.nIbottom - 1))
      - (iceIIIConvParams env0 pIIIbad).deltaTBL_m) = 3
  rw [show pIIIbad.Steps.nIbottom = 1 from rfl, show pIIIbad.Steps.nIIIbottom = 3 from rfl,
      show (iceIIIConvParams env0 pIIIbad).deltaTBL_m = 1/5 from rfl]
  apply firstIdxAbove_eq
  · norm_num [pIIIbad, pIII, p0]
  · intro m hm
    interval_cases m <;> norm_num [pIIIbad, pIII, p0]

lemma pIIIbad_preT1 : (threeZonePre eosConst eosConst 1 2 3 200
      (∑ j ∈ Finset.range pIIIbad.Steps.nIbottom, pIIIbad.MLayer_kg j) (iceIIIAssigned env0 pIIIbad)).1.T_K 1 = 100 := by
  rw [@tzPre_T_lid eosConst eosConst 1 2 3 200
      (∑ j ∈ Finset.range pIIIbad.Steps.nIbottom, pIIIbad.MLayer_kg j) (iceIIIAssigned env0 pIIIbad)
      1 (le_refl 1) (by norm_num),
    iceIIIAssigned_P, iceIIIAssigned_T]
  simp only [show ∀ i, pIIIbad.P_MPa i = if i = 0 then 0 else (i : ℝ) - 1 from fun _ => rfl,
    show ∀ i, pIIIbad.T_K i = 100 from fun _ => rfl]
  norm_num

lemma pIIIbad_alphaPre1 : (threeZonePre eosConst eosConst 1 2 3 200
      (∑ j ∈ Finset.range pIIIbad.Steps.nIbottom, pIIIbad.MLayer_kg j) (iceIIIAssigned env0 pIIIbad)).1.alpha_pK 1 = 0 := by
  rw [@tzPre_alpha_lid eosConst eosConst 1 2 3 200
      (∑ j ∈ Finset.range pIIIbad.Steps.nIbottom, pIIIbad.MLayer_kg j) (iceIIIAssigned env0 pIIIbad)
      1 (le_refl 1) (by norm_num)]
  rfl

lemma pIIIbad_preT2 : (threeZonePre eosConst eosConst 1 2 3 200
      (∑ j ∈ Finset.range pIIIbad.Steps.nIbottom, pIIIbad.MLayer_kg j) (iceIIIAssigned env0 pIIIbad)).1.T_K 2 = 100 := by
  rw [@tzPre_T_conv eosConst eosConst 1 2 3 200
      (∑ j ∈ Finset.range pIIIbad.Steps.nIbottom, pIIIbad.MLayer_kg j) (iceIIIAssigned env0 pIIIbad)
      2 (by norm_num) (le_refl 2) (by norm_num)]
  rw [show (2:ℕ) - 1 = 1 from rfl, pIIIbad_preT1, pIIIbad_alphaPre1]
  norm_num

/-! ## Concrete evaluation: the ice-V runs on `env0`/`pV` and `env0`/`pVbad` -/

lemma pV_z (i : ℕ) : pV.z_m i = (i : ℝ) := rfl

lemma pV_TbV : pV.Bulk.TbV_K = 150 := rfl

lemma pV_notWhole :
    ¬ (pV.z_m (pV.Steps.nSurfIce - 1) - pV.z_m (pV.Steps.nIIIbottom - 1)
        ≤ (iceVConvParams env0 pV).eLid_m + (iceVConvParams env0 pV).deltaTBL_m) := by
  rw [show (iceVConvParams env0 pV).eLid_m = 1/2 from rfl,
      show (iceVConvParams env0 pV).deltaTBL_m = 1/5 from rfl,
      show pV.Steps.nSurfIce = 3 from rfl, show pV.Steps.nIIIbottom = 1 from rfl, pV_z, pV_z]
  norm_num

lemma pV_iCd : iceV_iConductEnd env0 pV = 2 := by
  show firstIdxAbove pV.z_m (pV.z_m pV.Steps.nIIIbottom + (iceVConvParams env0 pV).eLid_m) = 2
  rw [show pV.Steps.nIIIbottom = 1 from rfl, show (iceVConvParams env0 pV).eLid_m = 1/2 from rfl]
  apply firstIdxAbove_eq
  · norm_num [pV, pIII, p0]
  · intro m hm
    interval_cases m <;> norm_num [pV, pIII, p0]

lemma pV_iCv : iceV_iConvectEnd env0 pV = 3 := by
  show firstIdxAbove pV.z_m (pV.z_m pV.Steps.nIIIbottom +
      (pV.z_m (pV.Steps.nSurfIce - 1) - pV.z_m (pV.Steps.nIIIbottom - 1))
      - (iceVConvParams env0 pV).deltaTBL_m) = 3
  rw [show pV.Steps.nIIIbottom = 1 from rfl, show pV.Steps.nSurfIce = 3 from rfl,
      show (iceVConvParams env0 pV).deltaTBL_m = 1/5 from rfl]
  apply firstIdxAbove_eq
  · norm_num [pV, pIII, p0]
  · intro m hm
    interval_cases m <;> norm_num [pV, pIII, p0]

lemma pV_preT1 : (threeZonePre eosConst eosConstB 1 2 3 200
      (∑ j ∈ Finset.range pV.Steps.nIIIbottom, pV.MLayer_kg j) (iceVAssigned env0 pV)).1.T_K 1 = 100 := by
  rw [@tzPre_T_lid eosConst eosConstB 1 2 3 200
      (∑ j ∈ Finset.range pV.Steps.nIIIbottom, pV.MLayer_kg j) (iceVAssigned env0 pV)
      1 (le_refl 1) (by norm_num),
    iceVAssigned_P, iceVAssigned_T]
  simp only [show ∀ i, pV.P_MPa i = if i = 0 then 0 else (i : ℝ) - 1 from fun _ => rfl,
    show ∀ i, pV.T_K i = 100 from fun _ => rfl]
  norm_num

lemma pV_alphaPre1 : (threeZonePre eosConst eosConstB 1 2 3 200
      (∑ j ∈ Finset.range pV.Steps.nIIIbottom, pV.MLayer_kg j) (iceVAssigned env0 pV)).1.alpha_pK 1 = 0 := by
  rw [@tzPre_alpha_lid eosConst eosConstB 1 2 3 200
      (∑ j ∈ Finset.range pV.Steps.nIIIbottom, pV.MLayer_kg j) (iceVAssigned env0 pV)
      1 (le_refl 1) (by norm_num)]
  rfl

lemma pV_preT2 : (threeZonePre eosConst eosConstB 1 2 3 200
      (∑ j ∈ Finset.range pV.Steps.nIIIbottom, pV.MLayer_kg j) (iceVAssigned env0 pV)).1.T_K 2 = 100 := by
  rw [@tzPre_T_conv eosConst eosConstB 1 2 3 200
      (∑ j ∈ Finset.range pV.Steps.nIIIbottom, pV.MLayer_kg j) (iceVAssigned env0 pV)
      2 (by norm_num) (le_refl 2) (by norm_num)]
  rw [show (2:ℕ) - 1 = 1 from rfl, pV_preT1, pV_alphaPre1]
  norm_num

lemma pV_run : IceVConvect env0 pV = Except.ok qV := by
  rw [IceVConvect_eq, if_neg pV_notWhole, pV_iCd, pV_iCv]
  apply threeZoneCore_ok_of
  intro hcontra
  have h2 : pV.Bulk.TbV_K < (threeZonePre eosConst eosConstB 1 2 3 200
      (∑ j ∈ Finset.range pV.Steps.nIIIbottom, pV.MLayer_kg j) (iceVAssigned env0 pV)).1.T_K (3 - 1) :=
    hcontra.2
  rw [show (3:ℕ) - 1 = 2 from rfl, pV_preT2, pV_TbV] at h2
  norm_num at h2

lemma pVbad_notWhole :
    ¬ (pVbad.z_m (pVbad.Steps.nSurfIce - 1) - pVbad.z_m (pVbad.Steps.nIIIbottom - 1)
        ≤ (iceVConvParams env0 pVbad).eLid_m + (iceVConvParams env0 pVbad).deltaTBL_m) := by
  rw [show (iceVConvParams env0 pVbad).eLid_m = 1/2 from rfl,
      show (iceVConvParams env0 pVbad).deltaTBL_m = 1/5 from rfl,
      show pVbad.Steps.nSurfIce = 3 from rfl, show pVbad.Steps.nIIIbottom = 1 from rfl,
      show ∀ i, pVbad.z_m i = (i : ℝ) from fun _ => rfl, show ∀ i, pVbad.z_m i = (i : ℝ) from fun _ => rfl]
  norm_num

lemma pVbad_iCd : iceV_iConductEnd env0 pVbad = 2 := by
  show firstIdxAbove pVbad.z_m (pVbad.z_m pVbad.Steps.nIIIbottom + (iceVConvParams env0 pVbad).eLid_m) = 2
  rw [show pVbad.Steps.nIIIbottom = 1 from rfl, show (iceVConvParams env0 pVbad).eLid_m = 1/2 from rfl]
  apply firstIdxAbove_eq
  · norm_num [pVbad, pV, pIII, p0]
  · intro m hm
    interval_cases m <;> norm_num [pVbad, pV, pIII, p0]

lemma pVbad_iCv : iceV_iConvectEnd env0 pVbad = 3 := by
  show firstIdxAbove pVbad.z_m (pVbad.z_m pVbad.Steps.nIIIbottom +
      (pVbad.z_m (pVbad.Steps.nSurfIce - 1) - pVbad.z_m (pVbad.Steps.nIIIbottom - 1))
      - (iceVConvParams env0 pVbad).deltaTBL_m) = 3
  rw [show pVbad.Steps.nIIIbottom = 1 from rfl, show pVbad.Steps.nSurfIce = 3 from rfl,
      show (iceVConvParams env0 pVbad).deltaTBL_m = 1/5 from rfl]
  apply firstIdxAbove_eq
  · norm_num [pVbad, pV, pIII, p0]
  · intro m hm
    interval_cases m <;> norm_num [pVbad, pV, pIII, p0]

lemma pVbad_preT1 : (threeZonePre eosConst eosConstB 1 2 3 200
      (∑ j ∈ Finset.range pVbad.Steps.nIIIbottom, pVbad.MLayer_kg j) (iceVAssigned env0 pVbad)).1.T_K 1 = 100 := by
  rw [@tzPre_T_lid eosConst eosConstB 1 2 3 200
      (∑ j ∈ Finset.range pVbad.Steps.nIIIbottom, pVbad.MLayer_kg j) (iceVAssigned env0 pVbad)
      1 (le_refl 1) (by norm_num),
    iceVAssigned_P, iceVAssigned_T]
  simp only [show ∀ i, pVbad.P_MPa i = if i = 0 then 0 else (i : ℝ) - 1 from fun _ => rfl,
    show ∀ i, pVbad.T_K i = 100 from fun _ => rfl]
  norm_num

lemma pVbad_alphaPre1 : (threeZonePre eosConst eosConstB 1 2 3 200
      (∑ j ∈ Finset.range pVbad.Steps.nIIIbottom, pVbad.MLayer_kg j) (iceVAssigned env0 pVbad)).1.alpha_pK 1 = 0 := by
  rw [@tzPre_alpha_lid eosConst eosConstB 1 2 3 200
      (∑ j ∈ Finset.range pVbad.Steps.nIIIbottom, pVbad.MLayer_kg j) (iceVAssigned env0 pVbad)
      1 (le_refl 1) (by norm_num)]
  rfl

lemma pVbad_preT2 : (threeZonePre eosConst eosConstB 1 2 3 200
      (∑ j ∈ Finset.range pVbad.Steps.nIIIbottom, pVbad.MLayer_kg j) (iceVAssigned env0 pVbad)).1.T_K 2 = 100 := by
  rw [@tzPre_T_conv eosConst eosConstB 1 2 3 200
      (∑ j ∈ Finset.range pVbad.Steps.nIIIbottom, pVbad.MLayer_kg j) (iceVAssigned env0 pVbad)
      2 (by norm_num) (le_refl 2) (by norm_num)]
  rw [show (2:ℕ) - 1 = 1 from rfl, pVbad_preT1, pVbad_alphaPre1]
  norm_num

/-! ## Concrete evaluation: the ice-I run on `env0`/`pMono` -/

lemma pMono_z (i : ℕ) : pMono.z_m i = (i : ℝ) := rfl

lemma pMono_P (i : ℕ) : pMono.P_MPa i = (i : ℝ) * 1e-6 := rfl

lemma pMono_notWhole :
    ¬ (pMono.z_m (pMono.Steps.nIbottom - 1) ≤ (iceIConvParams env0 pMono).eLid_m + (iceIConvParams env0 pMono).deltaTBL_m) := by
  rw [show (iceIConvParams env0 pMono).eLid_m = 1/2 from rfl,
      show (iceIConvParams env0 pMono).deltaTBL_m = 1/5 from rfl,
      show pMono.Steps.nIbottom = 2 from rfl, pMono_z]
  norm_num

lemma pMono_nConduct : iceI_nConduct env0 pMono = 1 := by
  show firstIdxAbove pMono.z_m (iceIConvParams env0 pMono).eLid_m = 1
  rw [show (iceIConvParams env0 pMono).eLid_m = 1/2 from rfl]
  apply firstIdxAbove_eq
  · norm_num [pMono, p0]
  · intro m hm
    interval_cases m
    norm_num [pMono, p0]

lemma pMono_nConvectEnd : iceI_nConvectEnd env0 pMono = 1 := by
  show iceI_nConduct env0 pMono +
      (firstIdxAbove pMono.z_m (pMono.z_m (pMono.Steps.nIbottom - 1) - (iceIConvParams env0 pMono).deltaTBL_m)
        - iceI_nConduct env0 pMono) = 1
  rw [pMono_nConduct, show pMono.Steps.nIbottom = 2 from rfl,
      show (iceIConvParams env0 pMono).deltaTBL_m = 1/5 from rfl]
  have h2 : firstIdxAbove pMono.z_m (pMono.z_m (2 - 1) - 1/5) = 1 := by
    apply firstIdxAbove_eq
    · norm_num [pMono, p0]
    · intro m hm
      interval_cases m
      norm_num [pMono, p0]
  rw [h2]

lemma pMono_run : IceIConvect env0 pMono = Except.ok qMono := by
  rw [IceIConvect_eq, if_neg pMono_notWhole, pMono_nConduct, pMono_nConvectEnd]
  rw [if_neg (show ¬ (1 < pMono.Steps.nClath) from by
    rw [show pMono.Steps.nClath = 0 from rfl]; omega)]
  rw [if_neg (show ¬ (pMono.Do.CLATHRATE = true) from by
    rw [show pMono.Do.CLATHRATE = false from rfl]; simp)]
  exact threeZoneCore_ok_of _ _ _ _ _ _ _ _ _ _ _ _ false (by simp)

/-! ## Geometry values of the concrete runs -/

lemma qMono_eq :
    qMono = threeZoneFinal eosConst eosConst eosConst 0 1 1 2 200 2e-6 50 0 (iceIAssigned env0 pMono) := rfl

lemma qMono_g0 : qMono.g_ms2 0 = 1000 := by
  rw [qMono_eq, @tzFin_g_low eosConst eosConst eosConst 0 1 1 2 200 2e-6 50 0
      (iceIAssigned env0 pMono) 0 (by norm_num) (le_refl 1) (le_refl 0), iceIAssigned_g]
  rfl

lemma qMono_rho0 : qMono.rho_kgm3 0 = 1000 := by
  rw [qMono_eq, @tzFin_rho_lid eosConst eosConst eosConst 0 1 1 2 200 2e-6 50 0
      (iceIAssigned env0 pMono) 0 (le_refl 0) (by norm_num) (le_refl 1)]
  rfl

lemma qMono_rho1 : qMono.rho_kgm3 1 = 1000 := by
  rw [qMono_eq, @tzFin_rho_tbl eosConst eosConst eosConst 0 1 1 2 200 2e-6 50 0
      (iceIAssigned env0 pMono) 1 (le_refl 1) (by norm_num)]
  rfl

lemma qMono_P (i : ℕ) : qMono.P_MPa i = (i : ℝ) * 1e-6 := by
  rw [qMono_eq, tzFin_P eosConst eosConst eosConst 0 1 1 2 200 2e-6 50 0 (iceIAssigned env0 pMono),
      iceIAssigned_P, pMono_P]

lemma qMono_z0 : qMono.z_m 0 = 0 := by
  rw [qMono_eq, @tzFin_z_low eosConst eosConst eosConst 0 1 1 2 200 2e-6 50 0
      (iceIAssigned env0 pMono) 0 (by norm_num) (le_refl 1) (le_refl 0), iceIAssigned_z, pMono_z]
  norm_num

lemma qMono_r0 : qMono.r_m 0 = 10 := by
  rw [qMono_eq, @tzFin_r_low eosConst eosConst eosConst 0 1 1 2 200 2e-6 50 0
      (iceIAssigned env0 pMono) 0 (by norm_num) (le_refl 1) (le_refl 0), iceIAssigned_r]
  norm_num [pMono, p0]

lemma qMono_z1 : qMono.z_m 1 = 1e-6 := by
  rw [qMono_eq, @tzFin_z_rel eosConst eosConst eosConst 0 1 1 2 200 2e-6 50 0
      (iceIAssigned env0 pMono) 1 (le_refl 1) (le_refl 1) (le_refl 1) (le_refl 1) (by norm_num)]
  rw [← qMono_eq, show (1:ℕ) - 1 = 0 from rfl, qMono_z0, qMono_g0, qMono_rho0]
  simp only [qMono_P]
  norm_num

lemma qMono_r1 : qMono.r_m 1 = 10 - 1e-6 := by
  rw [qMono_eq, @tzFin_r_val eosConst eosConst eosConst 0 1 1 2 200 2e-6 50 0
      (iceIAssigned env0 pMono) 1 (le_refl 1) (le_refl 1) (le_refl 1) (le_refl 1) (by norm_num)]
  rw [← qMono_eq, qMono_z1, iceIAssigned_BulkR, show pMono.Bulk.R_m = 10 from rfl]

lemma qMono_ML0 : qMono.MLayer_kg 0 = 4/3 * Real.pi * 1000 * (10^3 - (10 - 1e-6)^3) := by
  have h := @tzFin_ML_val eosConst eosConst eosConst 0 1 1 2 200 2e-6 50 0
      (iceIAssigned env0 pMono) 1 (le_refl 1) (le_refl 1) (le_refl 1) (le_refl 1) (by norm_num)
  rw [← qMono_eq, show (1:ℕ) - 1 = 0 from rfl, qMono_rho0, qMono_r0, qMono_r1] at h
  exact h

lemma qMono_g1_pos : 0 < qMono.g_ms2 1 := by
  have h := @tzFin_g_val eosConst eosConst eosConst 0 1 1 2 200 2e-6 50 0
      (iceIAssigned env0 pMono) 1 (le_refl 1) (le_refl 1) (le_refl 1) (by norm_num) (le_refl 1) (by norm_num)
  rw [← qMono_eq, iceIAssigned_BulkM, ← Finset.range_eq_Ico, Finset.sum_range_one,
      qMono_ML0, qMono_r1, show pMono.Bulk.M_kg = 1e12 from rfl] at h
  rw [h]
  simp only [Constants.G]
  have hpi : Real.pi < 3.15 := Real.pi_lt_d2
  have hpi0 : 0 < Real.pi := Real.pi_pos
  apply div_pos
  · nlinarith
  · norm_num

lemma qIII_eq :
    qIII = threeZoneFinal eosConst eosConst eosConst 1 2 3 3 200 2 150
      (∑ j ∈ Finset.range pIII.Steps.nIbottom, pIII.MLayer_kg j) (iceIIIAssigned env0 pIII) := rfl

lemma qIII_g1 : qIII.g_ms2 1 = 1000 := by
  rw [qIII_eq, @tzFin_g_low eosConst eosConst eosConst 1 2 3 3 200 2 150
      (∑ j ∈ Finset.range pIII.Steps.nIbottom, pIII.MLayer_kg j) (iceIIIAssigned env0 pIII)
      1 (by norm_num) (by norm_num) (le_refl 1), iceIIIAssigned_g]
  rfl

lemma qIII_rho1 : qIII.rho_kgm3 1 = 1000 := by
  rw [qIII_eq, @tzFin_rho_lid eosConst eosConst eosConst 1 2 3 3 200 2 150
      (∑ j ∈ Finset.range pIII.Steps.nIbottom, pIII.MLayer_kg j) (iceIIIAssigned env0 pIII)
      1 (le_refl 1) (by norm_num) (by norm_num)]
  rfl

lemma qIII_rho2 : qIII.rho_kgm3 2 = 1000 := by
  rw [qIII_eq, @tzFin_rho_conv eosConst eosConst eosConst 1 2 3 3 200 2 150
      (∑ j ∈ Finset.range pIII.Steps.nIbottom, pIII.MLayer_kg j) (iceIIIAssigned env0 pIII)
      2 (le_refl 2) (by norm_num)]
  rfl

lemma qIII_P (i : ℕ) : qIII.P_MPa i = if i = 0 then 0 else (i : ℝ) - 1 := by
  rw [qIII_eq, tzFin_P eosConst eosConst eosConst 1 2 3 3 200 2 150
      (∑ j ∈ Finset.range pIII.Steps.nIbottom, pIII.MLayer_kg j) (iceIIIAssigned env0 pIII),
      iceIIIAssigned_P, pIII_P]

lemma qIII_z1 : qIII.z_m 1 = 1 := by
  rw [qIII_eq, @tzFin_z_low eosConst eosConst eosConst 1 2 3 3 200 2 150
      (∑ j ∈ Finset.range pIII.Steps.nIbottom, pIII.MLayer_kg j) (iceIIIAssigned env0 pIII)
      1 (by norm_num) (by norm_num) (le_refl 1), iceIIIAssigned_z, pIII_z]
  norm_num

lemma qIII_r1 : qIII.r_m 1 = 9 := by
  rw [qIII_eq, @tzFin_r_low eosConst eosConst eosConst 1 2 3 3 200 2 150
      (∑ j ∈ Finset.range pIII.Steps.nIbottom, pIII.MLayer_kg j) (iceIIIAssigned env0 pIII)
      1 (by norm_num) (by norm_num) (le_refl 1), iceIIIAssigned_r]
  norm_num [pIII, p0]

lemma qIII_z2 : qIII.z_m 2 = 2 := by
  rw [qIII_eq, @tzFin_z_rel eosConst eosConst eosConst 1 2 3 3 200 2 150
      (∑ j ∈ Finset.range pIII.Steps.nIbottom, pIII.MLayer_kg j) (iceIIIAssigned env0 pIII)
      2 (by norm_num) (by norm_num) (by norm_num) (le_refl 2) (by norm_num)]
  rw [← qIII_eq, show (2:ℕ) - 1 = 1 from rfl, qIII_z1, qIII_g1, qIII_rho1]
  simp only [qIII_P]
  norm_num

lemma qIII_r2 : qIII.r_m 2 = 8 := by
  rw [qIII_eq, @tzFin_r_val eosConst eosConst eosConst 1 2 3 3 200 2 150
      (∑ j ∈ Finset.range pIII.Steps.nIbottom, pIII.MLayer_kg j) (iceIIIAssigned env0 pIII)
      2 (by norm_num) (by norm_num) (by norm_num) (le_refl 2) (by norm_num)]
  rw [← qIII_eq, qIII_z2]
  rw [show (iceIIIAssigned env0 pIII).Bulk.R_m = 10 from rfl]
  norm_num

lemma qIII_ML1 : qIII.MLayer_kg 1 = 4/3 * Real.pi * 1000 * (9^3 - 8^3) := by
  have h := @tzFin_ML_val eosConst eosConst eosConst 1 2 3 3 200 2 150
      (∑ j ∈ Finset.range pIII.Steps.nIbottom, pIII.MLayer_kg j) (iceIIIAssigned env0 pIII)
      2 (by norm_num) (by norm_num) (by norm_num) (le_refl 2) (by norm_num)
  rw [← qIII_eq, show (2:ℕ) - 1 = 1 from rfl, qIII_rho1, qIII_r1, qIII_r2] at h
  exact h

lemma qIII_g2_pos : 0 < qIII.g_ms2 2 := by
  have h := @tzFin_g_val eosConst eosConst eosConst 1 2 3 3 200 2 150
      (∑ j ∈ Finset.range pIII.Steps.nIbottom, pIII.MLayer_kg j) (iceIIIAssigned env0 pIII)
      2 (by norm_num) (by norm_num) (by norm_num) (by norm_num) (le_refl 2) (by norm_num)
  rw [← qIII_eq, Finset.sum_Ico_eq_sum_range] at h
  rw [show (2:ℕ) - 1 = 1 from rfl, Finset.sum_range_one, show (1:ℕ) + 0 = 1 from rfl,
      qIII_ML1, qIII_r2, show pIII.Steps.nIbottom = 1 from rfl, Finset.sum_range_one,
      show pIII.MLayer_kg 0 = (0:ℝ) from rfl,
      show (iceIIIAssigned env0 pIII).Bulk.M_kg = 1e12 from rfl] at h
  rw [h]
  simp only [Constants.G]
  have hpi : Real.pi < 3.15 := Real.pi_lt_d2
  have hpi0 : 0 < Real.pi := Real.pi_pos
  apply div_pos
  · nlinarith
  · norm_num

lemma qV_eq :
    qV = threeZoneFinal eosConst eosConstB eosConst 1 2 3 3 200 2 150
      (∑ j ∈ Finset.range pV.Steps.nIIIbottom, pV.MLayer_kg j) (iceVAssigned env0 pV) := rfl

lemma qV_g1 : qV.g_ms2 1 = 1000 := by
  rw [qV_eq, @tzFin_g_low eosConst eosConstB eosConst 1 2 3 3 200 2 150
      (∑ j ∈ Finset.range pV.Steps.nIIIbottom, pV.MLayer_kg j) (iceVAssigned env0 pV)
      1 (by norm_num) (by norm_num) (le_refl 1), iceVAssigned_g]
  rfl

lemma qV_rho1 : qV.rho_kgm3 1 = 1000 := by
  rw [qV_eq, @tzFin_rho_lid eosConst eosConstB eosConst 1 2 3 3 200 2 150
      (∑ j ∈ Finset.range pV.Steps.nIIIbottom, pV.MLayer_kg j) (iceVAssigned env0 pV)
      1 (le_refl 1) (by norm_num) (by norm_num)]
  rfl

lemma qV_rho2 : qV.rho_kgm3 2 = 1100 := by
  rw [qV_eq, @tzFin_rho_conv eosConst eosConstB eosConst 1 2 3 3 200 2 150
      (∑ j ∈ Finset.range pV.Steps.nIIIbottom, pV.MLayer_kg j) (iceVAssigned env0 pV)
      2 (le_refl 2) (by norm_num)]
  rfl

lemma qV_P (i : ℕ) : qV.P_MPa i = if i = 0 then 0 else (i : ℝ) - 1 := by
  rw [qV_eq, tzFin_P eosConst eosConstB eosConst 1 2 3 3 200 2 150
      (∑ j ∈ Finset.range pV.Steps.nIIIbottom, pV.MLayer_kg j) (iceVAssigned env0 pV),
      iceVAssigned_P]
  rfl

lemma qV_z1 : qV.z_m 1 = 1 := by
  rw [qV_eq, @tzFin_z_low eosConst eosConstB eosConst 1 2 3 3 200 2 150
      (∑ j ∈ Finset.range pV.Steps.nIIIbottom, pV.MLayer_kg j) (iceVAssigned env0 pV)
      1 (by norm_num) (by norm_num) (le_refl 1), iceVAssigned_z, pV_z]
  norm_num

lemma qV_r1 : qV.r_m 1 = 9 := by
  rw [qV_eq, @tzFin_r_low eosConst eosConstB eosConst 1 2 3 3 200 2 150
      (∑ j ∈ Finset.range pV.Steps.nIIIbottom, pV.MLayer_kg j) (iceVAssigned env0 pV)
      1 (by norm_num) (by norm_num) (le_refl 1), iceVAssigned_r]
  norm_num [pV, pIII, p0]

lemma qV_z2 : qV.z_m 2 = 2 := by
  rw [qV_eq, @tzFin_z_rel eosConst eosConstB eosConst 1 2 3 3 200 2 150
      (∑ j ∈ Finset.range pV.Steps.nIIIbottom, pV.MLayer_kg j) (iceVAssigned env0 pV)
      2 (by norm_num) (by norm_num) (by norm_num) (le_refl 2) (by norm_num)]
  rw [← qV_eq, show (2:ℕ) - 1 = 1 from rfl, qV_z1, qV_g1, qV_rho1]
  simp only [qV_P]
  norm_num

lemma qV_r2 : qV.r_m 2 = 8 := by
  rw [qV_eq, @tzFin_r_val eosConst eosConstB eosConst 1 2 3 3 200 2 150
      (∑ j ∈ Finset.range pV.Steps.nIIIbottom, pV.MLayer_kg j) (iceVAssigned env0 pV)
      2 (by norm_num) (by norm_num) (by norm_num) (le_refl 2) (by norm_num)]
  rw [← qV_eq, qV_z2]
  rw [show (iceVAssigned env0 pV).Bulk.R_m = 10 from rfl]
  norm_num

lemma qV_ML1 : qV.MLayer_kg 1 = 4/3 * Real.pi * 1000 * (9^3 - 8^3) := by
  have h := @tzFin_ML_val eosConst eosConstB eosConst 1 2 3 3 200 2 150
      (∑ j ∈ Finset.range pV.Steps.nIIIbottom, pV.MLayer_kg j) (iceVAssigned env0 pV)
      2 (by norm_num) (by norm_num) (by norm_num) (le_refl 2) (by norm_num)
  rw [← qV_eq, show (2:ℕ) - 1 = 1 from rfl, qV_rho1, qV_r1, qV_r2] at h
  exact h

lemma qV_g2_pos : 0 < qV.g_ms2 2 := by
  have h := @tzFin_g_val eosConst eosConstB eosConst 1 2 3 3 200 2 150
      (∑ j ∈ Finset.range pV.Steps.nIIIbottom, pV.MLayer_kg j) (iceVAssigned env0 pV)
      2 (by norm_num) (by norm_num) (by norm_num) (by norm_num) (le_refl 2) (by norm_num)
  rw [← qV_eq, Finset.sum_Ico_eq_sum_range] at h
  rw [show (2:ℕ) - 1 = 1 from rfl, Finset.sum_range_one, show (1:ℕ) + 0 = 1 from rfl,
      qV_ML1, qV_r2, show pV.Steps.nIIIbottom = 1 from rfl, Finset.sum_range_one,
      show pV.MLayer_kg 0 = (0:ℝ) from rfl,
      show (iceVAssigned env0 pV).Bulk.M_kg = 1e12 from rfl] at h
  rw [h]
  simp only [Constants.G]
  have hpi : Real.pi < 3.15 := Real.pi_lt_d2
  have hpi0 : 0 < Real.pi := Real.pi_pos
  apply div_pos
  · nlinarith
  · norm_num

/-- When the three-zone path is taken and `IceIConvect` returns normally, the
result is the three-zone pipeline state. -/
lemma iceIConvect_ok_threeZone (env : ConvEnv) (p q : PlanetState)
    (hbr : ¬ (p.z_m (p.Steps.nIbottom - 1)
        ≤ (iceIConvParams env p).eLid_m + (iceIConvParams env p).deltaTBL_m))
    (hq : IceIConvect env p = Except.ok q) :
    q = threeZoneFinal (p.Ocean.surfIceEOS "Ih") (p.Ocean.surfIceEOS "Ih") (p.Ocean.surfIceEOS "Ih")
      0 (iceI_nConduct env p) (iceI_nConvectEnd env p) p.Steps.nIbottom
      (iceIConvParams env p).Tconv_K p.PbI_MPa p.Bulk.Tb_K 0 (iceIAssigned env p) := by
  rw [IceIConvect_eq, if_neg hbr] at hq
  by_cases hcl : iceI_nConduct env p < p.Steps.nClath
  · rw [if_pos hcl] at hq
    exact absurd hq (fun hh => Except.noConfusion hh)
  rw [if_neg hcl] at hq
  by_cases hcla : p.Do.CLATHRATE = true
  · rw [if_pos hcla] at hq
    exact absurd hq (fun hh => Except.noConfusion hh)
  rw [if_neg hcla] at hq
  exact threeZoneCore_ok_elim _ _ _ _ _ _ _ _ _ _ _ _ false hq

/-- When the three-zone path is taken and `IceIIIConvect` returns normally,
the result is the three-zone pipeline state. -/
lemma iceIIIConvect_ok_threeZone (env : ConvEnv) (p q : PlanetState)
    (hbr : ¬ (p.z_m (p.Steps.nIIIbottom - 1) - p.z_m (p.Steps.nIbottom - 1)
        ≤ (iceIIIConvParams env p).eLid_m + (iceIIIConvParams env p).deltaTBL_m))
    (hq : IceIIIConvect env p = Except.ok q) :
    q = threeZoneFinal (p.Ocean.surfIceEOS "III") (p.Ocean.surfIceEOS "III") (p.Ocean.surfIceEOS "III")
      p.Steps.nIbottom (iceIII_iConductEnd env p) (iceIII_iConvectEnd env p) p.Steps.nIIIbottom
      (iceIIIConvParams env p).Tconv_K p.PbIII_MPa p.Bulk.TbIII_K
      (∑ j ∈ Finset.range p.Steps.nIbottom, p.MLayer_kg j) (iceIIIAssigned env p) := by
  rw [IceIIIConvect_eq, if_neg hbr] at hq
  exact threeZoneCore_ok_elim _ _ _ _ _ _ _ _ _ _ _ _ true hq

/-- When the three-zone path is taken and `IceVConvect` returns normally, the
result is the three-zone pipeline state. -/
lemma iceVConvect_ok_threeZone (env : ConvEnv) (p q : PlanetState)
    (hbr : ¬ (p.z_m (p.Steps.nSurfIce - 1) - p.z_m (p.Steps.nIIIbottom - 1)
        ≤ (iceVConvParams env p).eLid_m + (iceVConvParams env p).deltaTBL_m))
    (hq : IceVConvect env p = Except.ok q) :
    q = threeZoneFinal (p.Ocean.surfIceEOS "V") (p.Ocean.iceEOS "V") (p.Ocean.surfIceEOS "V")
      p.Steps.nIIIbottom (iceV_iConductEnd env p) (iceV_iConvectEnd env p) p.Steps.nSurfIce
      (iceVConvParams env p).Tconv_K p.PbV_MPa p.Bulk.TbV_K
      (∑ j ∈ Finset.range p.Steps.nIIIbottom, p.MLayer_kg j) (iceVAssigned env p) := by
  rw [IceVConvect_eq, if_neg hbr] at hq
  exact threeZoneCore_ok_elim _ _ _ _ _ _ _ _ _ _ _ _ true hq

/-- Merging the mass accumulated before a phase's start index with the
phase's own running sum, for an array that agrees with the input below the
start index. -/
lemma sum_range_split_eq (F G : ℕ → ℝ) (a i : ℕ) (hai : a ≤ i)
    (hF : ∀ j, j < a → F j = G j) :
    (∑ j ∈ Finset.range a, G j) + ∑ j ∈ Finset.Ico a i, F j = ∑ j ∈ Finset.range i, F j := by
  rw [Finset.range_eq_Ico, ← Finset.sum_Ico_consecutive F (Nat.zero_le a) hai]
  congr 1
  exact Finset.sum_congr rfl (fun j hj => (hF j (Finset.mem_Ico.mp hj).2).symm)

/-- Monotonicity of the three-zone pipeline: with strictly increasing input
pressures and positive previous-shell gravity and density, depth strictly
increases, radius is depth-consistent and strictly decreases, and pressure
is non-decreasing, across the updated index range. -/
lemma tzFin_monotone (lidEOS convEOS tblEOS : EOSFns) (start iCd iCv bottom : ℕ)
    (Tconv Pb Tb mA0 : ℝ) (p : PlanetState)
    (ha : 1 ≤ iCd) (hv : 1 ≤ iCv) (hio : iCd ≤ iCv) (hsd : start < iCd)
    (hr0 : p.r_m start = p.Bulk.R_m - p.z_m start)
    (hPmono : ∀ i, start + 1 ≤ i → i ≤ bottom → p.P_MPa (i-1) < p.P_MPa i)
    (hpos : ∀ i, start + 1 ≤ i → i ≤ bottom →
        0 < (threeZoneFinal lidEOS convEOS tblEOS start iCd iCv bottom Tconv Pb Tb mA0 p).g_ms2 (i-1)
        ∧ 0 < (threeZoneFinal lidEOS convEOS tblEOS start iCd iCv bottom Tconv Pb Tb mA0 p).rho_kgm3 (i-1)) :
    ∀ i, start + 1 ≤ i → i ≤ bottom →
      (threeZoneFinal lidEOS convEOS tblEOS start iCd iCv bottom Tconv Pb Tb mA0 p).z_m (i-1)
          < (threeZoneFinal lidEOS convEOS tblEOS start iCd iCv bottom Tconv Pb Tb mA0 p).z_m i
      ∧ (threeZoneFinal lidEOS convEOS tblEOS start iCd iCv bottom Tconv Pb Tb mA0 p).r_m i
          = p.Bulk.R_m - (threeZoneFinal lidEOS convEOS tblEOS start iCd iCv bottom Tconv Pb Tb mA0 p).z_m i
      ∧ (threeZoneFinal lidEOS convEOS tblEOS start iCd iCv bottom Tconv Pb Tb mA0 p).r_m i
          < (threeZoneFinal lidEOS convEOS tblEOS start iCd iCv bottom Tconv Pb Tb mA0 p).r_m (i-1)
      ∧ (threeZoneFinal lidEOS convEOS tblEOS start iCd iCv bottom Tconv Pb Tb mA0 p).P_MPa (i-1)
          ≤ (threeZoneFinal lidEOS convEOS tblEOS start iCd iCv bottom Tconv Pb Tb mA0 p).P_MPa i := by
  have hPeq := tzFin_P lidEOS convEOS tblEOS start iCd iCv bottom Tconv Pb Tb mA0 p
  have hrEq : ∀ j, start ≤ j → j ≤ bottom →
      (threeZoneFinal lidEOS convEOS tblEOS start iCd iCv bottom Tconv Pb Tb mA0 p).r_m j
        = p.Bulk.R_m - (threeZoneFinal lidEOS convEOS tblEOS start iCd iCv bottom Tconv Pb Tb mA0 p).z_m j := by
    intro j hj1 hj2
    rcases Nat.eq_or_lt_of_le hj1 with he | hlt
    · rw [← he, tzFin_r_low lidEOS convEOS tblEOS start iCd iCv bottom Tconv Pb Tb mA0 p hsd hio (le_refl start),
          tzFin_z_low lidEOS convEOS tblEOS start iCd iCv bottom Tconv Pb Tb mA0 p hsd hio (le_refl start)]
      exact hr0
    · exact @tzFin_r_val lidEOS convEOS tblEOS start iCd iCv bottom Tconv Pb Tb mA0 p
        j ha hv hio (by omega) hj2
  intro i h1 h2
  obtain ⟨hgp, hrp⟩ := hpos i h1 h2
  have hPlt := hPmono i h1 h2
  have hz := @tzFin_z_rel lidEOS convEOS tblEOS start iCd iCv bottom Tconv Pb Tb mA0 p i ha hv hio h1 h2
  have hdelta : (0:ℝ) <
      (threeZoneFinal lidEOS convEOS tblEOS start iCd iCv bottom Tconv Pb Tb mA0 p).P_MPa i
      - (threeZoneFinal lidEOS convEOS tblEOS start iCd iCv bottom Tconv Pb Tb mA0 p).P_MPa (i-1) := by
    rw [hPeq]
    linarith
  have hstep : (0:ℝ) <
      ((threeZoneFinal lidEOS convEOS tblEOS start iCd iCv bottom Tconv Pb Tb mA0 p).P_MPa i
        - (threeZoneFinal lidEOS convEOS tblEOS start iCd iCv bottom Tconv Pb Tb mA0 p).P_MPa (i-1)) * 1e6
      / (threeZoneFinal lidEOS convEOS tblEOS start iCd iCv bottom Tconv Pb Tb mA0 p).g_ms2 (i-1)
      / (threeZoneFinal lidEOS convEOS tblEOS start iCd iCv bottom Tconv Pb Tb mA0 p).rho_kgm3 (i-1) :=
    div_pos (div_pos (by linarith) hgp) hrp
  have hzlt : (threeZoneFinal lidEOS convEOS tblEOS start iCd iCv bottom Tconv Pb Tb mA0 p).z_m (i-1)
      < (threeZoneFinal lidEOS convEOS tblEOS start iCd iCv bottom Tconv Pb Tb mA0 p).z_m i := by
    rw [hz]
    linarith
  refine ⟨hzlt, hrEq i (by omega) h2, ?_, ?_⟩
  · rw [hrEq i (by omega) h2, hrEq (i-1) (by omega) (by omega)]
    linarith
  · rw [hPeq]
    exact le_of_lt hPlt

/-! ## Claim theorems -/

/-- C5: in the whole-layer-conduction case (layer thickness at or below lid
plus boundary-layer thickness as reported by the classifier), each of the
three integrators reproduces the pre-existing conductive-guess temperature
array exactly. -/
theorem c5_wholeLayerKeepsTemperatures (env : ConvEnv) (pa pb pc : PlanetState)
    (hI : pa.z_m (pa.Steps.nIbottom - 1)
        ≤ (iceIConvParams env pa).eLid_m + (iceIConvParams env pa).deltaTBL_m)
    (hIII : pb.z_m (pb.Steps.nIIIbottom - 1) - pb.z_m (pb.Steps.nIbottom - 1)
        ≤ (iceIIIConvParams env pb).eLid_m + (iceIIIConvParams env pb).deltaTBL_m)
    (hV : pc.z_m (pc.Steps.nSurfIce - 1) - pc.z_m (pc.Steps.nIIIbottom - 1)
        ≤ (iceVConvParams env pc).eLid_m + (iceVConvParams env pc).deltaTBL_m) :
    (∀ qa, IceIConvect env pa = Except.ok qa → qa.T_K = pa.T_K)
    ∧ (∀ qb, IceIIIConvect env pb = Except.ok qb → qb.T_K = pb.T_K)
    ∧ (∀ qc, IceVConvect env pc = Except.ok qc → qc.T_K = pc.T_K) := by
  refine ⟨?_, ?_, ?_⟩
  · intro qa hq
    rw [IceIConvect_eq, if_pos hI] at hq
    rw [← Except.ok.inj hq]
    exact iceIAssigned_T env pa
  · intro qb hq
    rw [IceIIIConvect_eq, if_pos hIII] at hq
    rw [← Except.ok.inj hq]
    exact iceIIIAssigned_T env pb
  · intro qc hq
    rw [IceVConvect_eq, if_pos hV] at hq
    rw [← Except.ok.inj hq]
    exact iceVAssigned_T env pc

/-- C5 witness: the whole-layer classifier `envWL` on the three concrete
stacks leaves each temperature array unchanged. -/
theorem c5_wholeLayerKeepsTemperatures_witness :
    resT (IceIConvect envWL p0) = p0.T_K ∧ resT (IceIIIConvect envWL pIII) = pIII.T_K
    ∧ resT (IceVConvect envWL pV) = pV.T_K := by
  have hI : p0.z_m (p0.Steps.nIbottom - 1)
      ≤ (iceIConvParams envWL p0).eLid_m + (iceIConvParams envWL p0).deltaTBL_m := by
    rw [show (iceIConvParams envWL p0).eLid_m = 500 from rfl,
        show (iceIConvParams envWL p0).deltaTBL_m = 500 from rfl, p0_nIbottom, p0_z]
    norm_num
  have hIII : pIII.z_m (pIII.Steps.nIIIbottom - 1) - pIII.z_m (pIII.Steps.nIbottom - 1)
      ≤ (iceIIIConvParams envWL pIII).eLid_m + (iceIIIConvParams envWL pIII).deltaTBL_m := by
    rw [show (iceIIIConvParams envWL pIII).eLid_m = 500 from rfl,
        show (iceIIIConvParams envWL pIII).deltaTBL_m = 500 from rfl,
        show pIII.Steps.nIIIbottom = 3 from rfl, pIII_nIb, pIII_z, pIII_z]
    norm_num
  have hV : pV.z_m (pV.Steps.nSurfIce - 1) - pV.z_m (pV.Steps.nIIIbottom - 1)
      ≤ (iceVConvParams envWL pV).eLid_m + (iceVConvParams envWL pV).deltaTBL_m := by
    rw [show (iceVConvParams envWL pV).eLid_m = 500 from rfl,
        show (iceVConvParams envWL pV).deltaTBL_m = 500 from rfl,
        show pV.Steps.nSurfIce = 3 from rfl, show pV.Steps.nIIIbottom = 1 from rfl, pV_z, pV_z]
    norm_num
  have hc := c5_wholeLayerKeepsTemperatures envWL p0 pIII pV hI hIII hV
  have hrI : ∃ qa, IceIConvect envWL p0 = Except.ok qa := by
    rw [IceIConvect_eq, if_pos hI]; exact ⟨_, rfl⟩
  have hrIII : IceIIIConvect envWL pIII = Except.ok (iceIIIAssigned envWL pIII) := by
    rw [IceIIIConvect_eq, if_pos hIII]
  have hrV : IceVConvect envWL pV = Except.ok (iceVAssigned envWL pV) := by
    rw [IceVConvect_eq, if_pos hV]
  obtain ⟨qa, hrI⟩ := hrI
  refine ⟨?_, ?_, ?_⟩
  · rw [hrI]; exact hc.1 _ hrI
  · rw [hrIII]; exact hc.2.1 _ hrIII
  · rw [hrV]; exact hc.2.2 _ hrV

/-- C3 counterexample: in the whole-layer-conduction case `IceIIIConvect`
keeps `Ocean.QfromMantle_W` at the classifier-returned value (7 W here)
instead of recomputing `(T[1]-Tsurf)·k[0]/(R-r[1])·4πR²` as the claim states
for every phase. -/
theorem c3_counterexample :
    resQ (IceIIIConvect envWL pIII) ≠
      (pIII.T_K 1 - pIII.Bulk.Tsurf_K) / (pIII.Bulk.R_m - pIII.r_m 1) * pIII.kTherm_WmK 0
        * (4 * Real.pi * pIII.Bulk.R_m ^ 2) := by
  have hIII : pIII.z_m (pIII.Steps.nIIIbottom - 1) - pIII.z_m (pIII.Steps.nIbottom - 1)
      ≤ (iceIIIConvParams envWL pIII).eLid_m + (iceIIIConvParams envWL pIII).deltaTBL_m := by
    rw [show (iceIIIConvParams envWL pIII).eLid_m = 500 from rfl,
        show (iceIIIConvParams envWL pIII).deltaTBL_m = 500 from rfl,
        show pIII.Steps.nIIIbottom = 3 from rfl, pIII_nIb, pIII_z, pIII_z]
    norm_num
  have hrun : IceIIIConvect envWL pIII = Except.ok (iceIIIAssigned envWL pIII) := by
    rw [IceIIIConvect_eq, if_pos hIII]
  rw [hrun, show resQ (Except.ok (iceIIIAssigned envWL pIII)) = 7 from rfl,
      pIII_T, show pIII.Bulk.Tsurf_K = 50 from rfl, show pIII.Bulk.R_m = 10 from rfl,
      show pIII.r_m 1 = 10 - ((1:ℕ):ℝ) from rfl, show pIII.kTherm_WmK 0 = 3 from rfl]
  intro hcontra
  have hpi := Real.pi_gt_three
  nlinarith [hcontra]

/-- C3 (amended): in the whole-layer-conduction case every phase leaves all
shell arrays unchanged; the ice-I integrator additionally recomputes
`QfromMantle_W = (T[1]-Tsurf)·k[0]/(R-r[1])·4πR²`, while the ice-III and
ice-V integrators leave `QfromMantle_W` at the classifier-assigned value. -/
theorem c3_amended (env : ConvEnv) (pa pb pc : PlanetState)
    (hI : pa.z_m (pa.Steps.nIbottom - 1)
        ≤ (iceIConvParams env pa).eLid_m + (iceIConvParams env pa).deltaTBL_m)
    (hIII : pb.z_m (pb.Steps.nIIIbottom - 1) - pb.z_m (pb.Steps.nIbottom - 1)
        ≤ (iceIIIConvParams env pb).eLid_m + (iceIIIConvParams env pb).deltaTBL_m)
    (hV : pc.z_m (pc.Steps.nSurfIce - 1) - pc.z_m (pc.Steps.nIIIbottom - 1)
        ≤ (iceVConvParams env pc).eLid_m + (iceVConvParams env pc).deltaTBL_m) :
    (∀ qa, IceIConvect env pa = Except.ok qa →
        qa.T_K = pa.T_K ∧ qa.P_MPa = pa.P_MPa ∧ qa.rho_kgm3 = pa.rho_kgm3
        ∧ qa.g_ms2 = pa.g_ms2 ∧ qa.z_m = pa.z_m ∧ qa.r_m = pa.r_m
        ∧ qa.MLayer_kg = pa.MLayer_kg ∧ qa.Cp_JkgK = pa.Cp_JkgK
        ∧ qa.alpha_pK = pa.alpha_pK ∧ qa.kTherm_WmK = pa.kTherm_WmK
        ∧ qa.Ocean.QfromMantle_W =
            (pa.T_K 1 - pa.Bulk.Tsurf_K) / (pa.Bulk.R_m - pa.r_m 1) * pa.kTherm_WmK 0
              * (4 * Real.pi * pa.Bulk.R_m ^ 2))
    ∧ (∀ qb, IceIIIConvect env pb = Except.ok qb →
        qb.T_K = pb.T_K ∧ qb.P_MPa = pb.P_MPa ∧ qb.rho_kgm3 = pb.rho_kgm3
        ∧ qb.g_ms2 = pb.g_ms2 ∧ qb.z_m = pb.z_m ∧ qb.r_m = pb.r_m
        ∧ qb.MLayer_kg = pb.MLayer_kg ∧ qb.Cp_JkgK = pb.Cp_JkgK
        ∧ qb.alpha_pK = pb.alpha_pK ∧ qb.kTherm_WmK = pb.kTherm_WmK
        ∧ qb.Ocean.QfromMantle_W = (iceIIIConvParams env pb).QfromMantle_W)
    ∧ (∀ qc, IceVConvect env pc = Except.ok qc →
        qc.T_K = pc.T_K ∧ qc.P_MPa = pc.P_MPa ∧ qc.rho_kgm3 = pc.rho_kgm3
        ∧ qc.g_ms2 = pc.g_ms2 ∧ qc.z_m = pc.z_m ∧ qc.r_m = pc.r_m
        ∧ qc.MLayer_kg = pc.MLayer_kg ∧ qc.Cp_JkgK = pc.Cp_JkgK
        ∧ qc.alpha_pK = pc.alpha_pK ∧ qc.kTherm_WmK = pc.kTherm_WmK
        ∧ qc.Ocean.QfromMantle_W = (iceVConvParams env pc).QfromMantle_W) := by
  refine ⟨?_, ?_, ?_⟩
  · intro qa hq
    rw [IceIConvect_eq, if_pos hI] at hq
    rw [← Except.ok.inj hq]
    refine ⟨iceIAssigned_T env pa, iceIAssigned_P env pa, iceIAssigned_rho env pa,
      iceIAssigned_g env pa, iceIAssigned_z env pa, iceIAssigned_r env pa,
      iceIAssigned_ML env pa, iceIAssigned_Cp env pa, iceIAssigned_alpha env pa,
      iceIAssigned_k env pa, ?_⟩
    show ((iceIAssigned env pa).T_K 1 - (iceIAssigned env pa).Bulk.Tsurf_K) /
        ((iceIAssigned env pa).Bulk.R_m - (iceIAssigned env pa).r_m 1)
        * (iceIAssigned env pa).kTherm_WmK 0 * 4 * Real.pi * (iceIAssigned env pa).Bulk.R_m ^ 2 = _
    rw [iceIAssigned_T, iceIAssigned_r, iceIAssigned_k, iceIAssigned_BulkR,
        show (iceIAssigned env pa).Bulk.Tsurf_K = pa.Bulk.Tsurf_K from by
          simp only [iceIAssigned]; split <;> rfl]
    ring
  · intro qb hq
    rw [IceIIIConvect_eq, if_pos hIII] at hq
    rw [← Except.ok.inj hq]
    exact ⟨rfl, rfl, rfl, rfl, rfl, rfl, rfl, rfl, rfl, rfl, rfl⟩
  · intro qc hq
    rw [IceVConvect_eq, if_pos hV] at hq
    rw [← Except.ok.inj hq]
    exact ⟨rfl, rfl, rfl, rfl, rfl, rfl, rfl, rfl, rfl, rfl, rfl⟩

/-- C3 witness: on the concrete whole-layer runs, the ice-I result carries
the recomputed heat flow and the ice-III and ice-V results carry the
classifier value, with the depth arrays untouched. -/
theorem c3_amended_witness :
    resQ (IceIConvect envWL p0) =
      (p0.T_K 1 - p0.Bulk.Tsurf_K) / (p0.Bulk.R_m - p0.r_m 1) * p0.kTherm_WmK 0
        * (4 * Real.pi * p0.Bulk.R_m ^ 2)
    ∧ resQ (IceIIIConvect envWL pIII) = (iceIIIConvParams envWL pIII).QfromMantle_W
    ∧ resQ (IceVConvect envWL pV) = (iceVConvParams envWL pV).QfromMantle_W
    ∧ (resSt (IceIConvect envWL p0)).z_m = p0.z_m := by
  have hI : p0.z_m (p0.Steps.nIbottom - 1)
      ≤ (iceIConvParams envWL p0).eLid_m + (iceIConvParams envWL p0).deltaTBL_m := by
    rw [show (iceIConvParams envWL p0).eLid_m = 500 from rfl,
        show (iceIConvParams envWL p0).deltaTBL_m = 500 from rfl, p0_nIbottom, p0_z]
    norm_num
  have hIII : pIII.z_m (pIII.Steps.nIIIbottom - 1) - pIII.z_m (pIII.Steps.nIbottom - 1)
      ≤ (iceIIIConvParams envWL pIII).eLid_m + (iceIIIConvParams envWL pIII).deltaTBL_m := by
    rw [show (iceIIIConvParams envWL pIII).eLid_m = 500 from rfl,
        show (iceIIIConvParams envWL pIII).deltaTBL_m = 500 from rfl,
        show pIII.Steps.nIIIbottom = 3 from rfl, pIII_nIb, pIII_z, pIII_z]
    norm_num
  have hV : pV.z_m (pV.Steps.nSurfIce - 1) - pV.z_m (pV.Steps.nIIIbottom - 1)
      ≤ (iceVConvParams envWL pV).eLid_m + (iceVConvParams envWL pV).deltaTBL_m := by
    rw [show (iceVConvParams envWL pV).eLid_m = 500 from rfl,
        show (iceVConvParams envWL pV).deltaTBL_m = 500 from rfl,
        show pV.Steps.nSurfIce = 3 from rfl, show pV.Steps.nIIIbottom = 1 from rfl, pV_z, pV_z]
    norm_num
  have hc := c3_amended envWL p0 pIII pV hI hIII hV
  have hrI : ∃ qa, IceIConvect envWL p0 = Except.ok qa := by
    rw [IceIConvect_eq, if_pos hI]; exact ⟨_, rfl⟩
  have hrIII : IceIIIConvect envWL pIII = Except.ok (iceIIIAssigned envWL pIII) := by
    rw [IceIIIConvect_eq, if_pos hIII]
  have hrV : IceVConvect envWL pV = Except.ok (iceVAssigned envWL pV) := by
    rw [IceVConvect_eq, if_pos hV]
  obtain ⟨qa, hrI⟩ := hrI
  refine ⟨?_, ?_, ?_, ?_⟩
  · rw [hrI]; exact (hc.1 _ hrI).2.2.2.2.2.2.2.2.2.2
  · rw [hrIII]; exact (hc.2.1 _ hrIII).2.2.2.2.2.2.2.2.2.2
  · rw [hrV]; exact (hc.2.2 _ hrV).2.2.2.2.2.2.2.2.2.2
  · rw [hrI]; exact (hc.1 _ hrI).2.2.2.2.1

/-- C1 counterexample: `IceIConvect` has no bottom-temperature validation: on
`env0`/`p0` the target bottom temperature (50 K) is below the adiabatically
propagated temperature (100 K) at the last convective shell, yet the run
returns normally and reassigns the boundary-layer shell temperatures. -/
theorem c1_counterexample :
    (IceIConvect env0 p0).isOk = true
    ∧ p0.Bulk.Tb_K < resT (IceIConvect env0 p0) 1
    ∧ resT (IceIConvect env0 p0) 2 ≠ p0.T_K 2 := by
  refine ⟨?_, ?_, ?_⟩
  · rw [p0_run]; rfl
  · rw [p0_run]
    show p0.Bulk.Tb_K < q0.T_K 1
    rw [q0_T1, show p0.Bulk.Tb_K = 50 from rfl]
    norm_num
  · rw [p0_run]
    show q0.T_K 2 ≠ p0.T_K 2
    rw [q0_T2, p0_T]
    norm_num

/-- C1 (amended): the ice-III and ice-V three-zone integrations raise
`ValueError` when the phase's target bottom temperature is below the
temperature reached by adiabatic propagation at shell `iConvectEnd-1`,
before any boundary-layer shell is reassigned (the error return carries no
state); the ice-I integration performs no such check. -/
theorem c1_amended (env : ConvEnv) (pb pc : PlanetState)
    (hIIIbr : ¬ (pb.z_m (pb.Steps.nIIIbottom - 1) - pb.z_m (pb.Steps.nIbottom - 1)
        ≤ (iceIIIConvParams env pb).eLid_m + (iceIIIConvParams env pb).deltaTBL_m))
    (hIIIck : pb.Bulk.TbIII_K < (threeZonePre (pb.Ocean.surfIceEOS "III") (pb.Ocean.surfIceEOS "III")
        pb.Steps.nIbottom (iceIII_iConductEnd env pb) (iceIII_iConvectEnd env pb)
        (iceIIIConvParams env pb).Tconv_K (∑ j ∈ Finset.range pb.Steps.nIbottom, pb.MLayer_kg j)
        (iceIIIAssigned env pb)).1.T_K (iceIII_iConvectEnd env pb - 1))
    (hVbr : ¬ (pc.z_m (pc.Steps.nSurfIce - 1) - pc.z_m (pc.Steps.nIIIbottom - 1)
        ≤ (iceVConvParams env pc).eLid_m + (iceVConvParams env pc).deltaTBL_m))
    (hVck : pc.Bulk.TbV_K < (threeZonePre (pc.Ocean.surfIceEOS "V") (pc.Ocean.iceEOS "V")
        pc.Steps.nIIIbottom (iceV_iConductEnd env pc) (iceV_iConvectEnd env pc)
        (iceVConvParams env pc).Tconv_K (∑ j ∈ Finset.range pc.Steps.nIIIbottom, pc.MLayer_kg j)
        (iceVAssigned env pc)).1.T_K (iceV_iConvectEnd env pc - 1)) :
    IceIIIConvect env pb = Except.error PyErr.valueError
    ∧ IceVConvect env pc = Except.error PyErr.valueError := by
  constructor
  · rw [IceIIIConvect_eq, if_neg hIIIbr]
    exact threeZoneCore_error_of _ _ _ _ _ _ _ _ _ _ _ _ hIIIck
  · rw [IceVConvect_eq, if_neg hVbr]
    exact threeZoneCore_error_of _ _ _ _ _ _ _ _ _ _ _ _ hVck

/-- C1 witness: on `pIIIbad` and `pVbad` (bottom temperature 50 K below the
adiabatically reached 100 K) both checked integrators raise `ValueError`. -/
theorem c1_amended_witness :
    IceIIIConvect env0 pIIIbad = Except.error PyErr.valueError
    ∧ IceVConvect env0 pVbad = Except.error PyErr.valueError := by
  have hIIIck : pIIIbad.Bulk.TbIII_K < (threeZonePre (pIIIbad.Ocean.surfIceEOS "III") (pIIIbad.Ocean.surfIceEOS "III")
      pIIIbad.Steps.nIbottom (iceIII_iConductEnd env0 pIIIbad) (iceIII_iConvectEnd env0 pIIIbad)
      (iceIIIConvParams env0 pIIIbad).Tconv_K (∑ j ∈ Finset.range pIIIbad.Steps.nIbottom, pIIIbad.MLayer_kg j)
      (iceIIIAssigned env0 pIIIbad)).1.T_K (iceIII_iConvectEnd env0 pIIIbad - 1) := by
    rw [pIIIbad_iCd, pIIIbad_iCv]
    have h : pIIIbad.Bulk.TbIII_K < (threeZonePre eosConst eosConst 1 2 3 200
        (∑ j ∈ Finset.range pIIIbad.Steps.nIbottom, pIIIbad.MLayer_kg j)
        (iceIIIAssigned env0 pIIIbad)).1.T_K (3 - 1) := by
      rw [show (3:ℕ) - 1 = 2 from rfl, pIIIbad_preT2, pIIIbad_TbIII]
      norm_num
    exact h
  have hVck : pVbad.Bulk.TbV_K < (threeZonePre (pVbad.Ocean.surfIceEOS "V") (pVbad.Ocean.iceEOS "V")
      pVbad.Steps.nIIIbottom (iceV_iConductEnd env0 pVbad) (iceV_iConvectEnd env0 pVbad)
      (iceVConvParams env0 pVbad).Tconv_K (∑ j ∈ Finset.range pVbad.Steps.nIIIbottom, pVbad.MLayer_kg j)
      (iceVAssigned env0 pVbad)).1.T_K (iceV_iConvectEnd env0 pVbad - 1) := by
    rw [pVbad_iCd, pVbad_iCv]
    have h : pVbad.Bulk.TbV_K < (threeZonePre eosConst eosConstB 1 2 3 200
        (∑ j ∈ Finset.range pVbad.Steps.nIIIbottom, pVbad.MLayer_kg j)
        (iceVAssigned env0 pVbad)).1.T_K (3 - 1) := by
      rw [show (3:ℕ) - 1 = 2 from rfl, pVbad_preT2, show pVbad.Bulk.TbV_K = 50 from rfl]
      norm_num
    exact h
  exact c1_amended env0 pIIIbad pVbad pIIIbad_notWhole hIIIck pVbad_notWhole hVck

/-- C10: with `Do.CLATHRATE` enabled and the three-zone path taken (and the
`nClath` bound satisfied), `IceIConvect` reaches the call of
`ClathrateLayers` and fails with `NameError`: that name is neither defined in
nor imported into the Convection module. -/
theorem c10_clathrateNameError (env : ConvEnv) (p : PlanetState)
    (hbr : ¬ (p.z_m (p.Steps.nIbottom - 1)
        ≤ (iceIConvParams env p).eLid_m + (iceIConvParams env p).deltaTBL_m))
    (hcl : ¬ (iceI_nConduct env p < p.Steps.nClath))
    (hcla : p.Do.CLATHRATE = true) :
    IceIConvect env p = Except.error PyErr.nameError
    ∧ "ClathrateLayers" ∉ convectionModuleNames := by
  constructor
  · rw [IceIConvect_eq, if_neg hbr, if_neg hcl, if_pos hcla]
  · decide

/-- C10 witness: the concrete clathrate-enabled stack hits the `NameError`
branch. -/
theorem c10_clathrateNameError_witness :
    IceIConvect env0 pClath = Except.error PyErr.nameError
    ∧ "ClathrateLayers" ∉ convectionModuleNames := by
  apply c10_clathrateNameError
  · rw [show (iceIConvParams env0 pClath).eLid_m = 1/2 from rfl,
        show (iceIConvParams env0 pClath).deltaTBL_m = 1/5 from rfl,
        show pClath.Steps.nIbottom = 3 from rfl,
        show ∀ i, pClath.z_m i = (i : ℝ) from fun _ => rfl]
    norm_num
  · rw [show pClath.Steps.nClath = 0 from rfl]
    omega
  · rfl

/-- C2 counterexample: on the three-zone run `env0`/`p0` the first
boundary-layer shell's stored temperature (50 K, the bottom-anchored
power-law value at `P = Pb`) differs from the convective zone's last
computed temperature (100 K), so the temperature profile is not continuous
at the convection to boundary-layer transition. -/
theorem c2_counterexample :
    (IceIConvect env0 p0).isOk = true
    ∧ resT (IceIConvect env0 p0) 2 ≠ resT (IceIConvect env0 p0) 1 := by
  constructor
  · rw [p0_run]; rfl
  · rw [p0_run]
    show q0.T_K 2 ≠ q0.T_K 1
    rw [q0_T2, q0_T1]
    norm_num

/-- C2 (amended): in the three-zone path the stored temperatures are not
continuous at the zone transitions.  The lid power law does interpolate to
the convected temperature at the lid-base pressure (its value at index
`nConduct` is `Tconv`), but the shell stored at `nConduct` instead receives
the adiabatic step from shell `nConduct-1`, and the first boundary-layer
shell (index `nConduct+nConvect`) receives the bottom-anchored power-law
value, not the convective zone's last temperature. -/
theorem c2_amended (env : ConvEnv) (p q : PlanetState)
    (hq : IceIConvect env p = Except.ok q)
    (hbr : ¬ (p.z_m (p.Steps.nIbottom - 1)
        ≤ (iceIConvParams env p).eLid_m + (iceIConvParams env p).deltaTBL_m))
    (ha : 1 ≤ iceI_nConduct env p)
    (hlt : iceI_nConduct env p < iceI_nConvectEnd env p)
    (hcv : iceI_nConvectEnd env p ≤ p.Steps.nIbottom)
    (hP : p.P_MPa (iceI_nConduct env p) ≠ 0) :
    (lidReassign (p.Ocean.surfIceEOS "Ih") 0 (iceI_nConduct env p)
        (iceIConvParams env p).Tconv_K (iceIAssigned env p)).T_K (iceI_nConduct env p)
      = (iceIConvParams env p).Tconv_K
    ∧ q.T_K (iceI_nConduct env p) = q.T_K (iceI_nConduct env p - 1)
        + q.T_K (iceI_nConduct env p - 1) * q.alpha_pK (iceI_nConduct env p - 1)
          / q.Cp_JkgK (iceI_nConduct env p - 1) / q.rho_kgm3 (iceI_nConduct env p - 1)
          * (q.P_MPa (iceI_nConduct env p) - q.P_MPa (iceI_nConduct env p - 1)) * 1e6
    ∧ q.T_K (iceI_nConvectEnd env p) =
        p.Bulk.Tb_K ^ (p.P_MPa (iceI_nConvectEnd env p) / p.PbI_MPa)
          * (q.T_K (iceI_nConvectEnd env p - 1))
            ^ (1 - p.P_MPa (iceI_nConvectEnd env p) / p.PbI_MPa) := by
  have hfin := iceIConvect_ok_threeZone env p q hbr hq
  subst hfin
  refine ⟨?_, ?_, ?_⟩
  · rw [lidReassign_T_in (Nat.zero_le _) (le_refl _), iceIAssigned_P, div_self hP,
        Real.rpow_one, sub_self, Real.rpow_zero, mul_one]
  · exact @tzFin_T_conv (p.Ocean.surfIceEOS "Ih") (p.Ocean.surfIceEOS "Ih") (p.Ocean.surfIceEOS "Ih")
      0 (iceI_nConduct env p) (iceI_nConvectEnd env p) p.Steps.nIbottom
      (iceIConvParams env p).Tconv_K p.PbI_MPa p.Bulk.Tb_K 0 (iceIAssigned env p)
      (iceI_nConduct env p) ha (le_refl _) hlt
  · have h := @tzFin_T_tbl (p.Ocean.surfIceEOS "Ih") (p.Ocean.surfIceEOS "Ih") (p.Ocean.surfIceEOS "Ih")
      0 (iceI_nConduct env p) (iceI_nConvectEnd env p) p.Steps.nIbottom
      (iceIConvParams env p).Tconv_K p.PbI_MPa p.Bulk.Tb_K 0 (iceIAssigned env p)
      (iceI_nConvectEnd env p) (by omega) (le_refl _) hcv
    rw [iceIAssigned_P] at h
    exact h

/-- C2 witness: the amended transition equations hold on the concrete
three-zone run `env0`/`p0`. -/
theorem c2_amended_witness :
    (lidReassign (p0.Ocean.surfIceEOS "Ih") 0 (iceI_nConduct env0 p0)
        (iceIConvParams env0 p0).Tconv_K (iceIAssigned env0 p0)).T_K (iceI_nConduct env0 p0)
      = (iceIConvParams env0 p0).Tconv_K
    ∧ q0.T_K (iceI_nConduct env0 p0) = q0.T_K (iceI_nConduct env0 p0 - 1)
        + q0.T_K (iceI_nConduct env0 p0 - 1) * q0.alpha_pK (iceI_nConduct env0 p0 - 1)
          / q0.Cp_JkgK (iceI_nConduct env0 p0 - 1) / q0.rho_kgm3 (iceI_nConduct env0 p0 - 1)
          * (q0.P_MPa (iceI_nConduct env0 p0) - q0.P_MPa (iceI_nConduct env0 p0 - 1)) * 1e6
    ∧ q0.T_K (iceI_nConvectEnd env0 p0) =
        p0.Bulk.Tb_K ^ (p0.P_MPa (iceI_nConvectEnd env0 p0) / p0.PbI_MPa)
          * (q0.T_K (iceI_nConvectEnd env0 p0 - 1))
            ^ (1 - p0.P_MPa (iceI_nConvectEnd env0 p0) / p0.PbI_MPa) :=
  c2_amended env0 p0 q0 p0_run p0_notWhole (by rw [p0_nConduct])
    (by rw [p0_nConduct, p0_nConvectEnd]; omega) (by rw [p0_nConvectEnd, p0_nIbottom]; omega)
    (by rw [p0_nConduct]; simp only [p0_P]; norm_num)

/-- C7: in every three-zone phase integration (ice I, III and V), pressures
are left unchanged, every conductive-lid shell is reassigned by the power
law `Tconv^(P[i]/PconvTop) * Ttop^(1-P[i]/PconvTop)` (PconvTop the pressure
at the lid's base, Ttop the phase's fixed top temperature), and every bottom
boundary-layer shell by `Tb^(P[i]/Pb) * Tlast^(1-P[i]/Pb)` anchored at the
phase's bottom transition temperature and the convecting interior's last
temperature. -/
theorem c7_powerLawReassignment (env : ConvEnv) (pa qa pb qb pc qc : PlanetState)
    (hqa : IceIConvect env pa = Except.ok qa)
    (hbra : ¬ (pa.z_m (pa.Steps.nIbottom - 1)
        ≤ (iceIConvParams env pa).eLid_m + (iceIConvParams env pa).deltaTBL_m))
    (haa : 1 ≤ iceI_nConduct env pa)
    (hioa : iceI_nConduct env pa ≤ iceI_nConvectEnd env pa)
    (hcva : iceI_nConvectEnd env pa ≤ pa.Steps.nIbottom)
    (hqb : IceIIIConvect env pb = Except.ok qb)
    (hbrb : ¬ (pb.z_m (pb.Steps.nIIIbottom - 1) - pb.z_m (pb.Steps.nIbottom - 1)
        ≤ (iceIIIConvParams env pb).eLid_m + (iceIIIConvParams env pb).deltaTBL_m))
    (hab : 1 ≤ iceIII_iConductEnd env pb)
    (hiob : iceIII_iConductEnd env pb ≤ iceIII_iConvectEnd env pb)
    (hcvb : iceIII_iConvectEnd env pb ≤ pb.Steps.nIIIbottom)
    (hqc : IceVConvect env pc = Except.ok qc)
    (hbrc : ¬ (pc.z_m (pc.Steps.nSurfIce - 1) - pc.z_m (pc.Steps.nIIIbottom - 1)
        ≤ (iceVConvParams env pc).eLid_m + (iceVConvParams env pc).deltaTBL_m))
    (hac : 1 ≤ iceV_iConductEnd env pc)
    (hioc : iceV_iConductEnd env pc ≤ iceV_iConvectEnd env pc)
    (hcvc : iceV_iConvectEnd env pc ≤ pc.Steps.nSurfIce) :
    (qa.P_MPa = pa.P_MPa
      ∧ (∀ i, i < iceI_nConduct env pa →
          qa.T_K i = (iceIConvParams env pa).Tconv_K ^ (pa.P_MPa i / pa.P_MPa (iceI_nConduct env pa))
            * (pa.T_K 0) ^ (1 - pa.P_MPa i / pa.P_MPa (iceI_nConduct env pa)))
      ∧ (∀ i, iceI_nConvectEnd env pa ≤ i → i ≤ pa.Steps.nIbottom →
          qa.T_K i = pa.Bulk.Tb_K ^ (pa.P_MPa i / pa.PbI_MPa)
            * (qa.T_K (iceI_nConvectEnd env pa - 1)) ^ (1 - pa.P_MPa i / pa.PbI_MPa)))
    ∧ (qb.P_MPa = pb.P_MPa
      ∧ (∀ i, pb.Steps.nIbottom ≤ i → i < iceIII_iConductEnd env pb →
          qb.T_K i = (iceIIIConvParams env pb).Tconv_K
              ^ (pb.P_MPa i / pb.P_MPa (iceIII_iConductEnd env pb))
            * (pb.T_K pb.Steps.nIbottom)
              ^ (1 - pb.P_MPa i / pb.P_MPa (iceIII_iConductEnd env pb)))
      ∧ (∀ i, iceIII_iConvectEnd env pb ≤ i → i ≤ pb.Steps.nIIIbottom →
          qb.T_K i = pb.Bulk.TbIII_K ^ (pb.P_MPa i / pb.PbIII_MPa)
            * (qb.T_K (iceIII_iConvectEnd env pb - 1)) ^ (1 - pb.P_MPa i / pb.PbIII_MPa)))
    ∧ (qc.P_MPa = pc.P_MPa
      ∧ (∀ i, pc.Steps.nIIIbottom ≤ i → i < iceV_iConductEnd env pc →
          qc.T_K i = (iceVConvParams env pc).Tconv_K
              ^ (pc.P_MPa i / pc.P_MPa (iceV_iConductEnd env pc))
            * (pc.T_K pc.Steps.nIIIbottom)
              ^ (1 - pc.P_MPa i / pc.P_MPa (iceV_iConductEnd env pc)))
      ∧ (∀ i, iceV_iConvectEnd env pc ≤ i → i ≤ pc.Steps.nSurfIce →
          qc.T_K i = pc.Bulk.TbV_K ^ (pc.P_MPa i / pc.PbV_MPa)
            * (qc.T_K (iceV_iConvectEnd env pc - 1)) ^ (1 - pc.P_MPa i / pc.PbV_MPa))) := by
  have hfa := iceIConvect_ok_threeZone env pa qa hbra hqa
  have hfb := iceIIIConvect_ok_threeZone env pb qb hbrb hqb
  have hfc := iceVConvect_ok_threeZone env pc qc hbrc hqc
  subst hfa hfb hfc
  refine ⟨⟨?_, ?_, ?_⟩, ⟨?_, ?_, ?_⟩, ⟨?_, ?_, ?_⟩⟩
  · rw [tzFin_P, iceIAssigned_P]
  · intro i hi
    have h := @tzFin_T_lid (pa.Ocean.surfIceEOS "Ih") (pa.Ocean.surfIceEOS "Ih")
      (pa.Ocean.surfIceEOS "Ih") 0 (iceI_nConduct env pa) (iceI_nConvectEnd env pa)
      pa.Steps.nIbottom (iceIConvParams env pa).Tconv_K pa.PbI_MPa pa.Bulk.Tb_K 0
      (iceIAssigned env pa) i (Nat.zero_le i) hi hioa
    rw [iceIAssigned_P, iceIAssigned_T] at h
    exact h
  · intro i h0 h1
    have h := @tzFin_T_tbl (pa.Ocean.surfIceEOS "Ih") (pa.Ocean.surfIceEOS "Ih")
      (pa.Ocean.surfIceEOS "Ih") 0 (iceI_nConduct env pa) (iceI_nConvectEnd env pa)
      pa.Steps.nIbottom (iceIConvParams env pa).Tconv_K pa.PbI_MPa pa.Bulk.Tb_K 0
      (iceIAssigned env pa) i (by omega) h0 h1
    rw [iceIAssigned_P] at h
    exact h
  · rw [tzFin_P, iceIIIAssigned_P]
  · intro i h0 hi
    have h := @tzFin_T_lid (pb.Ocean.surfIceEOS "III") (pb.Ocean.surfIceEOS "III")
      (pb.Ocean.surfIceEOS "III") pb.Steps.nIbottom (iceIII_iConductEnd env pb)
      (iceIII_iConvectEnd env pb) pb.Steps.nIIIbottom (iceIIIConvParams env pb).Tconv_K
      pb.PbIII_MPa pb.Bulk.TbIII_K (∑ j ∈ Finset.range pb.Steps.nIbottom, pb.MLayer_kg j)
      (iceIIIAssigned env pb) i h0 hi hiob
    rw [iceIIIAssigned_P, iceIIIAssigned_T] at h
    exact h
  · intro i h0 h1
    have h := @tzFin_T_tbl (pb.Ocean.surfIceEOS "III") (pb.Ocean.surfIceEOS "III")
      (pb.Ocean.surfIceEOS "III") pb.Steps.nIbottom (iceIII_iConductEnd env pb)
      (iceIII_iConvectEnd env pb) pb.Steps.nIIIbottom (iceIIIConvParams env pb).Tconv_K
      pb.PbIII_MPa pb.Bulk.TbIII_K (∑ j ∈ Finset.range pb.Steps.nIbottom, pb.MLayer_kg j)
      (iceIIIAssigned env pb) i (by omega) h0 h1
    rw [iceIIIAssigned_P] at h
    exact h
  · rw [tzFin_P, iceVAssigned_P]
  · intro i h0 hi
    have h := @tzFin_T_lid (pc.Ocean.surfIceEOS "V") (pc.Ocean.iceEOS "V")
      (pc.Ocean.surfIceEOS "V") pc.Steps.nIIIbottom (iceV_iConductEnd env pc)
      (iceV_iConvectEnd env pc) pc.Steps.nSurfIce (iceVConvParams env pc).Tconv_K
      pc.PbV_MPa pc.Bulk.TbV_K (∑ j ∈ Finset.range pc.Steps.nIIIbottom, pc.MLayer_kg j)
      (iceVAssigned env pc) i h0 hi hioc
    rw [iceVAssigned_P, iceVAssigned_T] at h
    exact h
  · intro i h0 h1
    have h := @tzFin_T_tbl (pc.Ocean.surfIceEOS "V") (pc.Ocean.iceEOS "V")
      (pc.Ocean.surfIceEOS "V") pc.Steps.nIIIbottom (iceV_iConductEnd env pc)
      (iceV_iConvectEnd env pc) pc.Steps.nSurfIce (iceVConvParams env pc).Tconv_K
      pc.PbV_MPa pc.Bulk.TbV_K (∑ j ∈ Finset.range pc.Steps.nIIIbottom, pc.MLayer_kg j)
      (iceVAssigned env pc) i (by omega) h0 h1
    rw [iceVAssigned_P] at h
    exact h

/-- C7 witness: on the three concrete runs, a lid shell and a boundary-layer
shell of each phase follow the stated power laws at unchanged pressures. -/
theorem c7_powerLawReassignment_witness :
    resT (IceIConvect env0 p0) 0 =
      (iceIConvParams env0 p0).Tconv_K ^ (p0.P_MPa 0 / p0.P_MPa 1)
        * (p0.T_K 0) ^ (1 - p0.P_MPa 0 / p0.P_MPa 1)
    ∧ resT (IceIConvect env0 p0) 2 = p0.Bulk.Tb_K ^ (p0.P_MPa 2 / p0.PbI_MPa)
        * (resT (IceIConvect env0 p0) 1) ^ (1 - p0.P_MPa 2 / p0.PbI_MPa)
    ∧ resT (IceIIIConvect env0 pIII) 1 =
      (iceIIIConvParams env0 pIII).Tconv_K ^ (pIII.P_MPa 1 / pIII.P_MPa 2)
        * (pIII.T_K 1) ^ (1 - pIII.P_MPa 1 / pIII.P_MPa 2)
    ∧ resT (IceIIIConvect env0 pIII) 3 = pIII.Bulk.TbIII_K ^ (pIII.P_MPa 3 / pIII.PbIII_MPa)
        * (resT (IceIIIConvect env0 pIII) 2) ^ (1 - pIII.P_MPa 3 / pIII.PbIII_MPa)
    ∧ resT (IceVConvect env0 pV) 1 =
      (iceVConvParams env0 pV).Tconv_K ^ (pV.P_MPa 1 / pV.P_MPa 2)
        * (pV.T_K 1) ^ (1 - pV.P_MPa 1 / pV.P_MPa 2)
    ∧ resT (IceVConvect env0 pV) 3 = pV.Bulk.TbV_K ^ (pV.P_MPa 3 / pV.PbV_MPa)
        * (resT (IceVConvect env0 pV) 2) ^ (1 - pV.P_MPa 3 / pV.PbV_MPa) := by
  have hc := c7_powerLawReassignment env0 p0 q0 pIII qIII pV qV
    p0_run p0_notWhole (by rw [p0_nConduct]) (by rw [p0_nConduct, p0_nConvectEnd]; omega)
    (by rw [p0_nConvectEnd, p0_nIbottom]; omega)
    pIII_run pIII_notWhole (by rw [pIII_iCd]; omega) (by rw [pIII_iCd, pIII_iCv]; omega)
    (by rw [pIII_iCv, show pIII.Steps.nIIIbottom = 3 from rfl])
    pV_run pV_notWhole (by rw [pV_iCd]; omega) (by rw [pV_iCd, pV_iCv]; omega)
    (by rw [pV_iCv, show pV.Steps.nSurfIce = 3 from rfl])
  rw [p0_run, pIII_run, pV_run]
  refine ⟨?_, ?_, ?_, ?_, ?_, ?_⟩
  · have h := hc.1.2.1 0 (by rw [p0_nConduct]; omega)
    rw [p0_nConduct] at h
    exact h
  · have h := hc.1.2.2 2 (by rw [p0_nConvectEnd]) (by rw [p0_nIbottom]; omega)
    rw [p0_nConvectEnd] at h
    exact h
  · have h := hc.2.1.2.1 1 (by rw [pIII_nIb]) (by rw [pIII_iCd]; omega)
    rw [pIII_iCd, pIII_nIb] at h
    exact h
  · have h := hc.2.1.2.2 3 (by rw [pIII_iCv]) (by rw [show pIII.Steps.nIIIbottom = 3 from rfl])
    rw [pIII_iCv] at h
    exact h
  · have h := hc.2.2.2.1 1 (by rw [show pV.Steps.nIIIbottom = 1 from rfl]) (by rw [pV_iCd]; omega)
    rw [pV_iCd, show pV.Steps.nIIIbottom = 1 from rfl] at h
    exact h
  · have h := hc.2.2.2.2 3 (by rw [pV_iCv]) (by rw [show pV.Steps.nSurfIce = 3 from rfl])
    rw [pV_iCv] at h
    exact h

/-- C4: in the three-zone ice-V integration each zone re-evaluates the four
transport properties from its own EOS binding: the conductive lid and the
bottom boundary layer use `Ocean.surfIceEOS "V"`, while the convecting
interior uses `Ocean.iceEOS "V"`. -/
theorem c4_iceVEosBindings (env : ConvEnv) (p q : PlanetState)
    (hq : IceVConvect env p = Except.ok q)
    (hbr : ¬ (p.z_m (p.Steps.nSurfIce - 1) - p.z_m (p.Steps.nIIIbottom - 1)
        ≤ (iceVConvParams env p).eLid_m + (iceVConvParams env p).deltaTBL_m))
    (hio : iceV_iConductEnd env p ≤ iceV_iConvectEnd env p) :
    (∀ i, p.Steps.nIIIbottom ≤ i → i < iceV_iConductEnd env p →
        q.rho_kgm3 i = (p.Ocean.surfIceEOS "V").fn_rho_kgm3 (q.P_MPa i) (q.T_K i)
        ∧ q.Cp_JkgK i = (p.Ocean.surfIceEOS "V").fn_Cp_JkgK (q.P_MPa i) (q.T_K i)
        ∧ q.alpha_pK i = (p.Ocean.surfIceEOS "V").fn_alpha_pK (q.P_MPa i) (q.T_K i)
        ∧ q.kTherm_WmK i = (p.Ocean.surfIceEOS "V").fn_kTherm_WmK (q.P_MPa i) (q.T_K i))
    ∧ (∀ i, iceV_iConductEnd env p ≤ i → i < iceV_iConvectEnd env p →
        q.rho_kgm3 i = (p.Ocean.iceEOS "V").fn_rho_kgm3 (q.P_MPa i) (q.T_K i)
        ∧ q.Cp_JkgK i = (p.Ocean.iceEOS "V").fn_Cp_JkgK (q.P_MPa i) (q.T_K i)
        ∧ q.alpha_pK i = (p.Ocean.iceEOS "V").fn_alpha_pK (q.P_MPa i) (q.T_K i)
        ∧ q.kTherm_WmK i = (p.Ocean.iceEOS "V").fn_kTherm_WmK (q.P_MPa i) (q.T_K i))
    ∧ (∀ i, iceV_iConvectEnd env p ≤ i → i < p.Steps.nSurfIce →
        q.rho_kgm3 i = (p.Ocean.surfIceEOS "V").fn_rho_kgm3 (q.P_MPa i) (q.T_K i)
        ∧ q.Cp_JkgK i = (p.Ocean.surfIceEOS "V").fn_Cp_JkgK (q.P_MPa i) (q.T_K i)
        ∧ q.alpha_pK i = (p.Ocean.surfIceEOS "V").fn_alpha_pK (q.P_MPa i) (q.T_K i)
        ∧ q.kTherm_WmK i = (p.Ocean.surfIceEOS "V").fn_kTherm_WmK (q.P_MPa i) (q.T_K i)) := by
  have hfin := iceVConvect_ok_threeZone env p q hbr hq
  subst hfin
  refine ⟨fun i h0 h1 => ⟨?_, ?_, ?_, ?_⟩, fun i h1 h2 => ⟨?_, ?_, ?_, ?_⟩,
    fun i h0 h1 => ⟨?_, ?_, ?_, ?_⟩⟩
  · exact @tzFin_rho_lid (p.Ocean.surfIceEOS "V") (p.Ocean.iceEOS "V") (p.Ocean.surfIceEOS "V")
      p.Steps.nIIIbottom (iceV_iConductEnd env p) (iceV_iConvectEnd env p) p.Steps.nSurfIce
      (iceVConvParams env p).Tconv_K p.PbV_MPa p.Bulk.TbV_K
      (∑ j ∈ Finset.range p.Steps.nIIIbottom, p.MLayer_kg j) (iceVAssigned env p) i h0 h1 hio
  · exact @tzFin_Cp_lid (p.Ocean.surfIceEOS "V") (p.Ocean.iceEOS "V") (p.Ocean.surfIceEOS "V")
      p.Steps.nIIIbottom (iceV_iConductEnd env p) (iceV_iConvectEnd env p) p.Steps.nSurfIce
      (iceVConvParams env p).Tconv_K p.PbV_MPa p.Bulk.TbV_K
      (∑ j ∈ Finset.range p.Steps.nIIIbottom, p.MLayer_kg j) (iceVAssigned env p) i h0 h1 hio
  · exact @tzFin_alpha_lid (p.Ocean.surfIceEOS "V") (p.Ocean.iceEOS "V") (p.Ocean.surfIceEOS "V")
      p.Steps.nIIIbottom (iceV_iConductEnd env p) (iceV_iConvectEnd env p) p.Steps.nSurfIce
      (iceVConvParams env p).Tconv_K p.PbV_MPa p.Bulk.TbV_K
      (∑ j ∈ Finset.range p.Steps.nIIIbottom, p.MLayer_kg j) (iceVAssigned env p) i h0 h1 hio
  · exact @tzFin_k_lid (p.Ocean.surfIceEOS "V") (p.Ocean.iceEOS "V") (p.Ocean.surfIceEOS "V")
      p.Steps.nIIIbottom (iceV_iConductEnd env p) (iceV_iConvectEnd env p) p.Steps.nSurfIce
      (iceVConvParams env p).Tconv_K p.PbV_MPa p.Bulk.TbV_K
      (∑ j ∈ Finset.range p.Steps.nIIIbottom, p.MLayer_kg j) (iceVAssigned env p) i h0 h1 hio
  · exact @tzFin_rho_conv (p.Ocean.surfIceEOS "V") (p.Ocean.iceEOS "V") (p.Ocean.surfIceEOS "V")
      p.Steps.nIIIbottom (iceV_iConductEnd env p) (iceV_iConvectEnd env p) p.Steps.nSurfIce
      (iceVConvParams env p).Tconv_K p.PbV_MPa p.Bulk.TbV_K
      (∑ j ∈ Finset.range p.Steps.nIIIbottom, p.MLayer_kg j) (iceVAssigned env p) i h1 h2
  · exact @tzFin_Cp_conv (p.Ocean.surfIceEOS "V") (p.Ocean.iceEOS "V") (p.Ocean.surfIceEOS "V")
      p.Steps.nIIIbottom (iceV_iConductEnd env p) (iceV_iConvectEnd env p) p.Steps.nSurfIce
      (iceVConvParams env p).Tconv_K p.PbV_MPa p.Bulk.TbV_K
      (∑ j ∈ Finset.range p.Steps.nIIIbottom, p.MLayer_kg j) (iceVAssigned env p) i h1 h2
  · exact @tzFin_alpha_conv (p.Ocean.surfIceEOS "V") (p.Ocean.iceEOS "V") (p.Ocean.surfIceEOS "V")
      p.Steps.nIIIbottom (iceV_iConductEnd env p) (iceV_iConvectEnd env p) p.Steps.nSurfIce
      (iceVConvParams env p).Tconv_K p.PbV_MPa p.Bulk.TbV_K
      (∑ j ∈ Finset.range p.Steps.nIIIbottom, p.MLayer_kg j) (iceVAssigned env p) i h1 h2
  · exact @tzFin_k_conv (p.Ocean.surfIceEOS "V") (p.Ocean.iceEOS "V") (p.Ocean.surfIceEOS "V")
      p.Steps.nIIIbottom (iceV_iConductEnd env p) (iceV_iConvectEnd env p) p.Steps.nSurfIce
      (iceVConvParams env p).Tconv_K p.PbV_MPa p.Bulk.TbV_K
      (∑ j ∈ Finset.range p.Steps.nIIIbottom, p.MLayer_kg j) (iceVAssigned env p) i h1 h2
  · exact @tzFin_rho_tbl (p.Ocean.surfIceEOS "V") (p.Ocean.iceEOS "V") (p.Ocean.surfIceEOS "V")
      p.Steps.nIIIbottom (iceV_iConductEnd env p) (iceV_iConvectEnd env p) p.Steps.nSurfIce
      (iceVConvParams env p).Tconv_K p.PbV_MPa p.Bulk.TbV_K
      (∑ j ∈ Finset.range p.Steps.nIIIbottom, p.MLayer_kg j) (iceVAssigned env p) i h0 h1
  · exact @tzFin_Cp_tbl (p.Ocean.surfIceEOS "V") (p.Ocean.iceEOS "V") (p.Ocean.surfIceEOS "V")
      p.Steps.nIIIbottom (iceV_iConductEnd env p) (iceV_iConvectEnd env p) p.Steps.nSurfIce
      (iceVConvParams env p).Tconv_K p.PbV_MPa p.Bulk.TbV_K
      (∑ j ∈ Finset.range p.Steps.nIIIbottom, p.MLayer_kg j) (iceVAssigned env p) i h0 h1
  · exact @tzFin_alpha_tbl (p.Ocean.surfIceEOS "V") (p.Ocean.iceEOS "V") (p.Ocean.surfIceEOS "V")
      p.Steps.nIIIbottom (iceV_iConductEnd env p) (iceV_iConvectEnd env p) p.Steps.nSurfIce
      (iceVConvParams env p).Tconv_K p.PbV_MPa p.Bulk.TbV_K
      (∑ j ∈ Finset.range p.Steps.nIIIbottom, p.MLayer_kg j) (iceVAssigned env p) i h0 h1
  · exact @tzFin_k_tbl (p.Ocean.surfIceEOS "V") (p.Ocean.iceEOS "V") (p.Ocean.surfIceEOS "V")
      p.Steps.nIIIbottom (iceV_iConductEnd env p) (iceV_iConvectEnd env p) p.Steps.nSurfIce
      (iceVConvParams env p).Tconv_K p.PbV_MPa p.Bulk.TbV_K
      (∑ j ∈ Finset.range p.Steps.nIIIbottom, p.MLayer_kg j) (iceVAssigned env p) i h0 h1

/-- C4 witness: on the concrete ice-V run, lid shell 1 reads from
`surfIceEOS "V"` and convecting shell 2 reads from `iceEOS "V"`. -/
theorem c4_iceVEosBindings_witness :
    (resSt (IceVConvect env0 pV)).rho_kgm3 1 =
      (pV.Ocean.surfIceEOS "V").fn_rho_kgm3
        ((resSt (IceVConvect env0 pV)).P_MPa 1) ((resSt (IceVConvect env0 pV)).T_K 1)
    ∧ (resSt (IceVConvect env0 pV)).kTherm_WmK 1 =
      (pV.Ocean.surfIceEOS "V").fn_kTherm_WmK
        ((resSt (IceVConvect env0 pV)).P_MPa 1) ((resSt (IceVConvect env0 pV)).T_K 1)
    ∧ (resSt (IceVConvect env0 pV)).rho_kgm3 2 =
      (pV.Ocean.iceEOS "V").fn_rho_kgm3
        ((resSt (IceVConvect env0 pV)).P_MPa 2) ((resSt (IceVConvect env0 pV)).T_K 2)
    ∧ (resSt (IceVConvect env0 pV)).kTherm_WmK 2 =
      (pV.Ocean.iceEOS "V").fn_kTherm_WmK
        ((resSt (IceVConvect env0 pV)).P_MPa 2) ((resSt (IceVConvect env0 pV)).T_K 2) := by
  have hc := c4_iceVEosBindings env0 pV qV pV_run pV_notWhole
    (by rw [pV_iCd, pV_iCv]; omega)
  have hlid := hc.1 1 (by rw [show pV.Steps.nIIIbottom = 1 from rfl])
    (by rw [pV_iCd]; omega)
  have hconv := hc.2.1 2 (by rw [pV_iCd]) (by rw [pV_iCv]; omega)
  rw [pV_run]
  exact ⟨hlid.1, hlid.2.2.2, hconv.1, hconv.2.2.2⟩

/-- C6: in every convecting-interior zone (ice I, III and V), each shell gets
the adiabatic temperature step from previous-shell transport properties, the
four transport properties are re-evaluated from the phase EOS at the new
(P, T), and depth advances by the hydrostatic step from the previous shell's
gravity and density. -/
theorem c6_adiabaticConvectiveZone (env : ConvEnv) (pa qa pb qb pc qc : PlanetState)
    (hqa : IceIConvect env pa = Except.ok qa)
    (hbra : ¬ (pa.z_m (pa.Steps.nIbottom - 1)
        ≤ (iceIConvParams env pa).eLid_m + (iceIConvParams env pa).deltaTBL_m))
    (haa : 1 ≤ iceI_nConduct env pa)
    (hioa : iceI_nConduct env pa ≤ iceI_nConvectEnd env pa)
    (hcva : iceI_nConvectEnd env pa ≤ pa.Steps.nIbottom)
    (hqb : IceIIIConvect env pb = Except.ok qb)
    (hbrb : ¬ (pb.z_m (pb.Steps.nIIIbottom - 1) - pb.z_m (pb.Steps.nIbottom - 1)
        ≤ (iceIIIConvParams env pb).eLid_m + (iceIIIConvParams env pb).deltaTBL_m))
    (hab : 1 ≤ iceIII_iConductEnd env pb)
    (hsdb : pb.Steps.nIbottom < iceIII_iConductEnd env pb)
    (hiob : iceIII_iConductEnd env pb ≤ iceIII_iConvectEnd env pb)
    (hcvb : iceIII_iConvectEnd env pb ≤ pb.Steps.nIIIbottom)
    (hqc : IceVConvect env pc = Except.ok qc)
    (hbrc : ¬ (pc.z_m (pc.Steps.nSurfIce - 1) - pc.z_m (pc.Steps.nIIIbottom - 1)
        ≤ (iceVConvParams env pc).eLid_m + (iceVConvParams env pc).deltaTBL_m))
    (hac : 1 ≤ iceV_iConductEnd env pc)
    (hsdc : pc.Steps.nIIIbottom < iceV_iConductEnd env pc)
    (hioc : iceV_iConductEnd env pc ≤ iceV_iConvectEnd env pc)
    (hcvc : iceV_iConvectEnd env pc ≤ pc.Steps.nSurfIce) :
    (∀ i, iceI_nConduct env pa ≤ i → i < iceI_nConvectEnd env pa →
        qa.T_K i = qa.T_K (i-1) + qa.T_K (i-1) * qa.alpha_pK (i-1)
          / (qa.Cp_JkgK (i-1) * qa.rho_kgm3 (i-1)) * (qa.P_MPa i - qa.P_MPa (i-1)) * 1e6
        ∧ qa.rho_kgm3 i = (pa.Ocean.surfIceEOS "Ih").fn_rho_kgm3 (qa.P_MPa i) (qa.T_K i)
        ∧ qa.Cp_JkgK i = (pa.Ocean.surfIceEOS "Ih").fn_Cp_JkgK (qa.P_MPa i) (qa.T_K i)
        ∧ qa.alpha_pK i = (pa.Ocean.surfIceEOS "Ih").fn_alpha_pK (qa.P_MPa i) (qa.T_K i)
        ∧ qa.kTherm_WmK i = (pa.Ocean.surfIceEOS "Ih").fn_kTherm_WmK (qa.P_MPa i) (qa.T_K i)
        ∧ qa.z_m i = qa.z_m (i-1)
            + (qa.P_MPa i - qa.P_MPa (i-1)) * 1e6 / (qa.g_ms2 (i-1) * qa.rho_kgm3 (i-1)))
    ∧ (∀ i, iceIII_iConductEnd env pb ≤ i → i < iceIII_iConvectEnd env pb →
        qb.T_K i = qb.T_K (i-1) + qb.T_K (i-1) * qb.alpha_pK (i-1)
          / (qb.Cp_JkgK (i-1) * qb.rho_kgm3 (i-1)) * (qb.P_MPa i - qb.P_MPa (i-1)) * 1e6
        ∧ qb.rho_kgm3 i = (pb.Ocean.surfIceEOS "III").fn_rho_kgm3 (qb.P_MPa i) (qb.T_K i)
        ∧ qb.Cp_JkgK i = (pb.Ocean.surfIceEOS "III").fn_Cp_JkgK (qb.P_MPa i) (qb.T_K i)
        ∧ qb.alpha_pK i = (pb.Ocean.surfIceEOS "III").fn_alpha_pK (qb.P_MPa i) (qb.T_K i)
        ∧ qb.kTherm_WmK i = (pb.Ocean.surfIceEOS "III").fn_kTherm_WmK (qb.P_MPa i) (qb.T_K i)
        ∧ qb.z_m i = qb.z_m (i-1)
            + (qb.P_MPa i - qb.P_MPa (i-1)) * 1e6 / (qb.g_ms2 (i-1) * qb.rho_kgm3 (i-1)))
    ∧ (∀ i, iceV_iConductEnd env pc ≤ i → i < iceV_iConvectEnd env pc →
        qc.T_K i = qc.T_K (i-1) + qc.T_K (i-1) * qc.alpha_pK (i-1)
          / (qc.Cp_JkgK (i-1) * qc.rho_kgm3 (i-1)) * (qc.P_MPa i - qc.P_MPa (i-1)) * 1e6
        ∧ qc.rho_kgm3 i = (pc.Ocean.iceEOS "V").fn_rho_kgm3 (qc.P_MPa i) (qc.T_K i)
        ∧ qc.Cp_JkgK i = (pc.Ocean.iceEOS "V").fn_Cp_JkgK (qc.P_MPa i) (qc.T_K i)
        ∧ qc.alpha_pK i = (pc.Ocean.iceEOS "V").fn_alpha_pK (qc.P_MPa i) (qc.T_K i)
        ∧ qc.kTherm_WmK i = (pc.Ocean.iceEOS "V").fn_kTherm_WmK (qc.P_MPa i) (qc.T_K i)
        ∧ qc.z_m i = qc.z_m (i-1)
            + (qc.P_MPa i - qc.P_MPa (i-1)) * 1e6 / (qc.g_ms2 (i-1) * qc.rho_kgm3 (i-1))) := by
  have hfa := iceIConvect_ok_threeZone env pa qa hbra hqa
  have hfb := iceIIIConvect_ok_threeZone env pb qb hbrb hqb
  have hfc := iceVConvect_ok_threeZone env pc qc hbrc hqc
  subst hfa hfb hfc
  refine ⟨fun i hi1 hi2 => ?_, fun i hi1 hi2 => ?_, fun i hi1 hi2 => ?_⟩
  · have hT := @tzFin_T_conv (pa.Ocean.surfIceEOS "Ih") (pa.Ocean.surfIceEOS "Ih")
      (pa.Ocean.surfIceEOS "Ih") 0 (iceI_nConduct env pa) (iceI_nConvectEnd env pa)
      pa.Steps.nIbottom (iceIConvParams env pa).Tconv_K pa.PbI_MPa pa.Bulk.Tb_K 0
      (iceIAssigned env pa) i haa hi1 hi2
    rw [div_div] at hT
    have hz := @tzFin_z_rel (pa.Ocean.surfIceEOS "Ih") (pa.Ocean.surfIceEOS "Ih")
      (pa.Ocean.surfIceEOS "Ih") 0 (iceI_nConduct env pa) (iceI_nConvectEnd env pa)
      pa.Steps.nIbottom (iceIConvParams env pa).Tconv_K pa.PbI_MPa pa.Bulk.Tb_K 0
      (iceIAssigned env pa) i haa (by omega) hioa (by omega) (by omega)
    rw [div_div] at hz
    exact ⟨hT,
      @tzFin_rho_conv (pa.Ocean.surfIceEOS "Ih") (pa.Ocean.surfIceEOS "Ih")
        (pa.Ocean.surfIceEOS "Ih") 0 (iceI_nConduct env pa) (iceI_nConvectEnd env pa)
        pa.Steps.nIbottom (iceIConvParams env pa).Tconv_K pa.PbI_MPa pa.Bulk.Tb_K 0
        (iceIAssigned env pa) i hi1 hi2,
      @tzFin_Cp_conv (pa.Ocean.surfIceEOS "Ih") (pa.Ocean.surfIceEOS "Ih")
        (pa.Ocean.surfIceEOS "Ih") 0 (iceI_nConduct env pa) (iceI_nConvectEnd env pa)
        pa.Steps.nIbottom (iceIConvParams env pa).Tconv_K pa.PbI_MPa pa.Bulk.Tb_K 0
        (iceIAssigned env pa) i hi1 hi2,
      @tzFin_alpha_conv (pa.Ocean.surfIceEOS "Ih") (pa.Ocean.surfIceEOS "Ih")
        (pa.Ocean.surfIceEOS "Ih") 0 (iceI_nConduct env pa) (iceI_nConvectEnd env pa)
        pa.Steps.nIbottom (iceIConvParams env pa).Tconv_K pa.PbI_MPa pa.Bulk.Tb_K 0
        (iceIAssigned env pa) i hi1 hi2,
      @tzFin_k_conv (pa.Ocean.surfIceEOS "Ih") (pa.Ocean.surfIceEOS "Ih")
        (pa.Ocean.surfIceEOS "Ih") 0 (iceI_nConduct env pa) (iceI_nConvectEnd env pa)
        pa.Steps.nIbottom (iceIConvParams env pa).Tconv_K pa.PbI_MPa pa.Bulk.Tb_K 0
        (iceIAssigned env pa) i hi1 hi2,
      hz⟩
  · have hT := @tzFin_T_conv (pb.Ocean.surfIceEOS "III") (pb.Ocean.surfIceEOS "III")
      (pb.Ocean.surfIceEOS "III") pb.Steps.nIbottom (iceIII_iConductEnd env pb)
      (iceIII_iConvectEnd env pb) pb.Steps.nIIIbottom (iceIIIConvParams env pb).Tconv_K
      pb.PbIII_MPa pb.Bulk.TbIII_K (∑ j ∈ Finset.range pb.Steps.nIbottom, pb.MLayer_kg j)
      (iceIIIAssigned env pb) i hab hi1 hi2
    rw [div_div] at hT
    have hz := @tzFin_z_rel (pb.Ocean.surfIceEOS "III") (pb.Ocean.surfIceEOS "III")
      (pb.Ocean.surfIceEOS "III") pb.Steps.nIbottom (iceIII_iConductEnd env pb)
      (iceIII_iConvectEnd env pb) pb.Steps.nIIIbottom (iceIIIConvParams env pb).Tconv_K
      pb.PbIII_MPa pb.Bulk.TbIII_K (∑ j ∈ Finset.range pb.Steps.nIbottom, pb.MLayer_kg j)
      (iceIIIAssigned env pb) i hab (by omega) hiob (by omega) (by omega)
    rw [div_div] at hz
    exact ⟨hT,
      @tzFin_rho_conv (pb.Ocean.surfIceEOS "III") (pb.Ocean.surfIceEOS "III")
        (pb.Ocean.surfIceEOS "III") pb.Steps.nIbottom (iceIII_iConductEnd env pb)
        (iceIII_iConvectEnd env pb) pb.Steps.nIIIbottom (iceIIIConvParams env pb).Tconv_K
        pb.PbIII_MPa pb.Bulk.TbIII_K (∑ j ∈ Finset.range pb.Steps.nIbottom, pb.MLayer_kg j)
        (iceIIIAssigned env pb) i hi1 hi2,
      @tzFin_Cp_conv (pb.Ocean.surfIceEOS "III") (pb.Ocean.surfIceEOS "III")
        (pb.Ocean.surfIceEOS "III") pb.Steps.nIbottom (iceIII_iConductEnd env pb)
        (iceIII_iConvectEnd env pb) pb.Steps.nIIIbottom (iceIIIConvParams env pb).Tconv_K
        pb.PbIII_MPa pb.Bulk.TbIII_K (∑ j ∈ Finset.range pb.Steps.nIbottom, pb.MLayer_kg j)
        (iceIIIAssigned env pb) i hi1 hi2,
      @tzFin_alpha_conv (pb.Ocean.surfIceEOS "III") (pb.Ocean.surfIceEOS "III")
        (pb.Ocean.surfIceEOS "III") pb.Steps.nIbottom (iceIII_iConductEnd env pb)
        (iceIII_iConvectEnd env pb) pb.Steps.nIIIbottom (iceIIIConvParams env pb).Tconv_K
        pb.PbIII_MPa pb.Bulk.TbIII_K (∑ j ∈ Finset.range pb.Steps.nIbottom, pb.MLayer_kg j)
        (iceIIIAssigned env pb) i hi1 hi2,
      @tzFin_k_conv (pb.Ocean.surfIceEOS "III") (pb.Ocean.surfIceEOS "III")
        (pb.Ocean.surfIceEOS "III") pb.Steps.nIbottom (iceIII_iConductEnd env pb)
        (iceIII_iConvectEnd env pb) pb.Steps.nIIIbottom (iceIIIConvParams env pb).Tconv_K
        pb.PbIII_MPa pb.Bulk.TbIII_K (∑ j ∈ Finset.range pb.Steps.nIbottom, pb.MLayer_kg j)
        (iceIIIAssigned env pb) i hi1 hi2,
      hz⟩
  · have hT := @tzFin_T_conv (pc.Ocean.surfIceEOS "V") (pc.Ocean.iceEOS "V")
      (pc.Ocean.surfIceEOS "V") pc.Steps.nIIIbottom (iceV_iConductEnd env pc)
      (iceV_iConvectEnd env pc) pc.Steps.nSurfIce (iceVConvParams env pc).Tconv_K
      pc.PbV_MPa pc.Bulk.TbV_K (∑ j ∈ Finset.range pc.Steps.nIIIbottom, pc.MLayer_kg j)
      (iceVAssigned env pc) i hac hi1 hi2
    rw [div_div] at hT
    have hz := @tzFin_z_rel (pc.Ocean.surfIceEOS "V") (pc.Ocean.iceEOS "V")
      (pc.Ocean.surfIceEOS "V") pc.Steps.nIIIbottom (iceV_iConductEnd env pc)
      (iceV_iConvectEnd env pc) pc.Steps.nSurfIce (iceVConvParams env pc).Tconv_K
      pc.PbV_MPa pc.Bulk.TbV_K (∑ j ∈ Finset.range pc.Steps.nIIIbottom, pc.MLayer_kg j)
      (iceVAssigned env pc) i hac (by omega) hioc (by omega) (by omega)
    rw [div_div] at hz
    exact ⟨hT,
      @tzFin_rho_conv (pc.Ocean.surfIceEOS "V") (pc.Ocean.iceEOS "V")
        (pc.Ocean.surfIceEOS "V") pc.Steps.nIIIbottom (iceV_iConductEnd env pc)
        (iceV_iConvectEnd env pc) pc.Steps.nSurfIce (iceVConvParams env pc).Tconv_K
        pc.PbV_MPa pc.Bulk.TbV_K (∑ j ∈ Finset.range pc.Steps.nIIIbottom, pc.MLayer_kg j)
        (iceVAssigned env pc) i hi1 hi2,
      @tzFin_Cp_conv (pc.Ocean.surfIceEOS "V") (pc.Ocean.iceEOS "V")
        (pc.Ocean.surfIceEOS "V") pc.Steps.nIIIbottom (iceV_iConductEnd env pc)
        (iceV_iConvectEnd env pc) pc.Steps.nSurfIce (iceVConvParams env pc).Tconv_K
        pc.PbV_MPa pc.Bulk.TbV_K (∑ j ∈ Finset.range pc.Steps.nIIIbottom, pc.MLayer_kg j)
        (iceVAssigned env pc) i hi1 hi2,
      @tzFin_alpha_conv (pc.Ocean.surfIceEOS "V") (pc.Ocean.iceEOS "V")
        (pc.Ocean.surfIceEOS "V") pc.Steps.nIIIbottom (iceV_iConductEnd env pc)
        (iceV_iConvectEnd env pc) pc.Steps.nSurfIce (iceVConvParams env pc).Tconv_K
        pc.PbV_MPa pc.Bulk.TbV_K (∑ j ∈ Finset.range pc.Steps.nIIIbottom, pc.MLayer_kg j)
        (iceVAssigned env pc) i hi1 hi2,
      @tzFin_k_conv (pc.Ocean.surfIceEOS "V") (pc.Ocean.iceEOS "V")
        (pc.Ocean.surfIceEOS "V") pc.Steps.nIIIbottom (iceV_iConductEnd env pc)
        (iceV_iConvectEnd env pc) pc.Steps.nSurfIce (iceVConvParams env pc).Tconv_K
        pc.PbV_MPa pc.Bulk.TbV_K (∑ j ∈ Finset.range pc.Steps.nIIIbottom, pc.MLayer_kg j)
        (iceVAssigned env pc) i hi1 hi2,
      hz⟩

/-- C6 witness: concrete convective-zone shells of the three runs satisfy
the adiabatic temperature step, the EOS re-evaluation, and the hydrostatic
depth step respectively. -/
theorem c6_adiabaticConvectiveZone_witness :
    (resSt (IceIConvect env0 p0)).T_K 1 = (resSt (IceIConvect env0 p0)).T_K 0
      + (resSt (IceIConvect env0 p0)).T_K 0 * (resSt (IceIConvect env0 p0)).alpha_pK 0
        / ((resSt (IceIConvect env0 p0)).Cp_JkgK 0 * (resSt (IceIConvect env0 p0)).rho_kgm3 0)
        * ((resSt (IceIConvect env0 p0)).P_MPa 1 - (resSt (IceIConvect env0 p0)).P_MPa 0) * 1e6
    ∧ (resSt (IceIIIConvect env0 pIII)).rho_kgm3 2 =
        (pIII.Ocean.surfIceEOS "III").fn_rho_kgm3
          ((resSt (IceIIIConvect env0 pIII)).P_MPa 2) ((resSt (IceIIIConvect env0 pIII)).T_K 2)
    ∧ (resSt (IceVConvect env0 pV)).z_m 2 = (resSt (IceVConvect env0 pV)).z_m 1
      + ((resSt (IceVConvect env0 pV)).P_MPa 2 - (resSt (IceVConvect env0 pV)).P_MPa 1) * 1e6
        / ((resSt (IceVConvect env0 pV)).g_ms2 1 * (resSt (IceVConvect env0 pV)).rho_kgm3 1) := by
  have hc := c6_adiabaticConvectiveZone env0 p0 q0 pIII qIII pV qV
    p0_run p0_notWhole (by rw [p0_nConduct]) (by rw [p0_nConduct, p0_nConvectEnd]; omega)
    (by rw [p0_nConvectEnd, p0_nIbottom]; omega)
    pIII_run pIII_notWhole (by rw [pIII_iCd]; omega) (by rw [pIII_nIb, pIII_iCd]; omega)
    (by rw [pIII_iCd, pIII_iCv]; omega) (by rw [pIII_iCv, show pIII.Steps.nIIIbottom = 3 from rfl])
    pV_run pV_notWhole (by rw [pV_iCd]; omega)
    (by rw [show pV.Steps.nIIIbottom = 1 from rfl, pV_iCd]; omega)
    (by rw [pV_iCd, pV_iCv]; omega) (by rw [pV_iCv, show pV.Steps.nSurfIce = 3 from rfl])
  have hI := hc.1 1 (by rw [p0_nConduct]) (by rw [p0_nConvectEnd]; omega)
  have hIII := hc.2.1 2 (by rw [pIII_iCd]) (by rw [pIII_iCv]; omega)
  have hV := hc.2.2 2 (by rw [pV_iCd]) (by rw [pV_iCv]; omega)
  rw [p0_run, pIII_run, pV_run]
  exact ⟨hI.1, hIII.2.1, hV.2.2.2.2.2⟩

/-- C8: at every shell index updated by a phase integration (ice I, III and
V), mass above plus mass below equals the body mass, and the assigned
gravity is `G * massBelow / r^2` where `massBelow` is the body mass minus
the accumulated layer masses of all shells above. -/
theorem c8_massGravityConsistency (env : ConvEnv) (pa qa pb qb pc qc : PlanetState)
    (hqa : IceIConvect env pa = Except.ok qa)
    (hbra : ¬ (pa.z_m (pa.Steps.nIbottom - 1)
        ≤ (iceIConvParams env pa).eLid_m + (iceIConvParams env pa).deltaTBL_m))
    (haa : 1 ≤ iceI_nConduct env pa)
    (hioa : iceI_nConduct env pa ≤ iceI_nConvectEnd env pa)
    (hcva : iceI_nConvectEnd env pa ≤ pa.Steps.nIbottom)
    (hqb : IceIIIConvect env pb = Except.ok qb)
    (hbrb : ¬ (pb.z_m (pb.Steps.nIIIbottom - 1) - pb.z_m (pb.Steps.nIbottom - 1)
        ≤ (iceIIIConvParams env pb).eLid_m + (iceIIIConvParams env pb).deltaTBL_m))
    (hab : 1 ≤ iceIII_iConductEnd env pb)
    (hsdb : pb.Steps.nIbottom < iceIII_iConductEnd env pb)
    (hiob : iceIII_iConductEnd env pb ≤ iceIII_iConvectEnd env pb)
    (hcvb : iceIII_iConvectEnd env pb ≤ pb.Steps.nIIIbottom)
    (hqc : IceVConvect env pc = Except.ok qc)
    (hbrc : ¬ (pc.z_m (pc.Steps.nSurfIce - 1) - pc.z_m (pc.Steps.nIIIbottom - 1)
        ≤ (iceVConvParams env pc).eLid_m + (iceVConvParams env pc).deltaTBL_m))
    (hac : 1 ≤ iceV_iConductEnd env pc)
    (hsdc : pc.Steps.nIIIbottom < iceV_iConductEnd env pc)
    (hioc : iceV_iConductEnd env pc ≤ iceV_iConvectEnd env pc)
    (hcvc : iceV_iConvectEnd env pc ≤ pc.Steps.nSurfIce) :
    (∀ i, 1 ≤ i → i ≤ pa.Steps.nIbottom →
        (∑ j ∈ Finset.range i, qa.MLayer_kg j)
          + (pa.Bulk.M_kg - ∑ j ∈ Finset.range i, qa.MLayer_kg j) = pa.Bulk.M_kg
        ∧ qa.g_ms2 i = Constants.G
            * (pa.Bulk.M_kg - ∑ j ∈ Finset.range i, qa.MLayer_kg j) / (qa.r_m i)^2)
    ∧ (∀ i, pb.Steps.nIbottom + 1 ≤ i → i ≤ pb.Steps.nIIIbottom →
        (∑ j ∈ Finset.range i, qb.MLayer_kg j)
          + (pb.Bulk.M_kg - ∑ j ∈ Finset.range i, qb.MLayer_kg j) = pb.Bulk.M_kg
        ∧ qb.g_ms2 i = Constants.G
            * (pb.Bulk.M_kg - ∑ j ∈ Finset.range i, qb.MLayer_kg j) / (qb.r_m i)^2)
    ∧ (∀ i, pc.Steps.nIIIbottom + 1 ≤ i → i ≤ pc.Steps.nSurfIce →
        (∑ j ∈ Finset.range i, qc.MLayer_kg j)
          + (pc.Bulk.M_kg - ∑ j ∈ Finset.range i, qc.MLayer_kg j) = pc.Bulk.M_kg
        ∧ qc.g_ms2 i = Constants.G
            * (pc.Bulk.M_kg - ∑ j ∈ Finset.range i, qc.MLayer_kg j) / (qc.r_m i)^2) := by
  have hfa := iceIConvect_ok_threeZone env pa qa hbra hqa
  have hfb := iceIIIConvect_ok_threeZone env pb qb hbrb hqb
  have hfc := iceVConvect_ok_threeZone env pc qc hbrc hqc
  subst hfa hfb hfc
  refine ⟨fun i h1 h2 => ⟨by ring, ?_⟩, fun i h1 h2 => ⟨by ring, ?_⟩, fun i h1 h2 => ⟨by ring, ?_⟩⟩
  · have hg := @tzFin_g_val (pa.Ocean.surfIceEOS "Ih") (pa.Ocean.surfIceEOS "Ih")
      (pa.Ocean.surfIceEOS "Ih") 0 (iceI_nConduct env pa) (iceI_nConvectEnd env pa)
      pa.Steps.nIbottom (iceIConvParams env pa).Tconv_K pa.PbI_MPa pa.Bulk.Tb_K 0
      (iceIAssigned env pa) i haa (by omega) hioa (by omega) (by omega) h2
    rw [hg, iceIAssigned_BulkM, zero_add, ← Finset.range_eq_Ico]
  · have hg := @tzFin_g_val (pb.Ocean.surfIceEOS "III") (pb.Ocean.surfIceEOS "III")
      (pb.Ocean.surfIceEOS "III") pb.Steps.nIbottom (iceIII_iConductEnd env pb)
      (iceIII_iConvectEnd env pb) pb.Steps.nIIIbottom (iceIIIConvParams env pb).Tconv_K
      pb.PbIII_MPa pb.Bulk.TbIII_K (∑ j ∈ Finset.range pb.Steps.nIbottom, pb.MLayer_kg j)
      (iceIIIAssigned env pb) i hab (by omega) hiob hsdb h1 h2
    rw [hg, show (iceIIIAssigned env pb).Bulk.M_kg = pb.Bulk.M_kg from rfl,
        sum_range_split_eq (threeZoneFinal (pb.Ocean.surfIceEOS "III") (pb.Ocean.surfIceEOS "III")
          (pb.Ocean.surfIceEOS "III") pb.Steps.nIbottom (iceIII_iConductEnd env pb)
          (iceIII_iConvectEnd env pb) pb.Steps.nIIIbottom (iceIIIConvParams env pb).Tconv_K
          pb.PbIII_MPa pb.Bulk.TbIII_K (∑ j ∈ Finset.range pb.Steps.nIbottom, pb.MLayer_kg j)
          (iceIIIAssigned env pb)).MLayer_kg pb.MLayer_kg pb.Steps.nIbottom i (by omega)
          (fun j hj => by
            rw [@tzFin_ML_low (pb.Ocean.surfIceEOS "III") (pb.Ocean.surfIceEOS "III")
              (pb.Ocean.surfIceEOS "III") pb.Steps.nIbottom (iceIII_iConductEnd env pb)
              (iceIII_iConvectEnd env pb) pb.Steps.nIIIbottom (iceIIIConvParams env pb).Tconv_K
              pb.PbIII_MPa pb.Bulk.TbIII_K (∑ j ∈ Finset.range pb.Steps.nIbottom, pb.MLayer_kg j)
              (iceIIIAssigned env pb) j hsdb hiob hj, iceIIIAssigned_ML])]
  · have hg := @tzFin_g_val (pc.Ocean.surfIceEOS "V") (pc.Ocean.iceEOS "V")
      (pc.Ocean.surfIceEOS "V") pc.Steps.nIIIbottom (iceV_iConductEnd env pc)
      (iceV_iConvectEnd env pc) pc.Steps.nSurfIce (iceVConvParams env pc).Tconv_K
      pc.PbV_MPa pc.Bulk.TbV_K (∑ j ∈ Finset.range pc.Steps.nIIIbottom, pc.MLayer_kg j)
      (iceVAssigned env pc) i hac (by omega) hioc hsdc h1 h2
    rw [hg, show (iceVAssigned env pc).Bulk.M_kg = pc.Bulk.M_kg from rfl,
        sum_range_split_eq (threeZoneFinal (pc.Ocean.surfIceEOS "V") (pc.Ocean.iceEOS "V")
          (pc.Ocean.surfIceEOS "V") pc.Steps.nIIIbottom (iceV_iConductEnd env pc)
          (iceV_iConvectEnd env pc) pc.Steps.nSurfIce (iceVConvParams env pc).Tconv_K
          pc.PbV_MPa pc.Bulk.TbV_K (∑ j ∈ Finset.range pc.Steps.nIIIbottom, pc.MLayer_kg j)
          (iceVAssigned env pc)).MLayer_kg pc.MLayer_kg pc.Steps.nIIIbottom i (by omega)
          (fun j hj => by
            rw [@tzFin_ML_low (pc.Ocean.surfIceEOS "V") (pc.Ocean.iceEOS "V")
              (pc.Ocean.surfIceEOS "V") pc.Steps.nIIIbottom (iceV_iConductEnd env pc)
              (iceV_iConvectEnd env pc) pc.Steps.nSurfIce (iceVConvParams env pc).Tconv_K
              pc.PbV_MPa pc.Bulk.TbV_K (∑ j ∈ Finset.range pc.Steps.nIIIbottom, pc.MLayer_kg j)
              (iceVAssigned env pc) j hsdc hioc hj, iceVAssigned_ML])]

/-- C8 witness: the mass and gravity identities hold at concrete updated
shells of the three runs. -/
theorem c8_massGravityConsistency_witness :
    (resSt (IceIConvect env0 p0)).g_ms2 1 = Constants.G
      * (p0.Bulk.M_kg - ∑ j ∈ Finset.range 1, (resSt (IceIConvect env0 p0)).MLayer_kg j)
      / ((resSt (IceIConvect env0 p0)).r_m 1)^2
    ∧ (∑ j ∈ Finset.range 2, (resSt (IceIIIConvect env0 pIII)).MLayer_kg j)
      + (pIII.Bulk.M_kg - ∑ j ∈ Finset.range 2, (resSt (IceIIIConvect env0 pIII)).MLayer_kg j)
      = pIII.Bulk.M_kg
    ∧ (resSt (IceVConvect env0 pV)).g_ms2 2 = Constants.G
      * (pV.Bulk.M_kg - ∑ j ∈ Finset.range 2, (resSt (IceVConvect env0 pV)).MLayer_kg j)
      / ((resSt (IceVConvect env0 pV)).r_m 2)^2 := by
  have hc := c8_massGravityConsistency env0 p0 q0 pIII qIII pV qV
    p0_run p0_notWhole (by rw [p0_nConduct]) (by rw [p0_nConduct, p0_nConvectEnd]; omega)
    (by rw [p0_nConvectEnd, p0_nIbottom]; omega)
    pIII_run pIII_notWhole (by rw [pIII_iCd]; omega) (by rw [pIII_nIb, pIII_iCd]; omega)
    (by rw [pIII_iCd, pIII_iCv]; omega) (by rw [pIII_iCv, show pIII.Steps.nIIIbottom = 3 from rfl])
    pV_run pV_notWhole (by rw [pV_iCd]; omega)
    (by rw [show pV.Steps.nIIIbottom = 1 from rfl, pV_iCd]; omega)
    (by rw [pV_iCd, pV_iCv]; omega) (by rw [pV_iCv, show pV.Steps.nSurfIce = 3 from rfl])
  have hI := hc.1 1 (le_refl 1) (by rw [p0_nIbottom]; omega)
  have hIII := hc.2.1 2 (by rw [pIII_nIb]) (by rw [show pIII.Steps.nIIIbottom = 3 from rfl]; omega)
  have hV := hc.2.2 2 (by rw [show pV.Steps.nIIIbottom = 1 from rfl])
    (by rw [show pV.Steps.nSurfIce = 3 from rfl]; omega)
  rw [p0_run, pIII_run, pV_run]
  exact ⟨hI.2, hIII.1, hV.2⟩

/-- C9: for each phase integration (ice I, III, V), given strictly
increasing input pressures and positive previous-shell gravity and density
over the updated range (and a depth-consistent radius at the phase's start
shell), the result has strictly increasing depth, radius equal to body
radius minus depth and strictly decreasing, and non-decreasing pressure;
the pressure array itself is never modified. -/
theorem c9_monotonicity (env : ConvEnv) (pa qa pb qb pc qc : PlanetState)
    (hqa : IceIConvect env pa = Except.ok qa)
    (hbra : ¬ (pa.z_m (pa.Steps.nIbottom - 1)
        ≤ (iceIConvParams env pa).eLid_m + (iceIConvParams env pa).deltaTBL_m))
    (haa : 1 ≤ iceI_nConduct env pa)
    (hioa : iceI_nConduct env pa ≤ iceI_nConvectEnd env pa)
    (hcva : iceI_nConvectEnd env pa ≤ pa.Steps.nIbottom)
    (hr0a : pa.r_m 0 = pa.Bulk.R_m - pa.z_m 0)
    (hPma : ∀ i, 1 ≤ i → i ≤ pa.Steps.nIbottom → pa.P_MPa (i-1) < pa.P_MPa i)
    (hposa : ∀ i, 1 ≤ i → i ≤ pa.Steps.nIbottom →
        0 < qa.g_ms2 (i-1) ∧ 0 < qa.rho_kgm3 (i-1))
    (hqb : IceIIIConvect env pb = Except.ok qb)
    (hbrb : ¬ (pb.z_m (pb.Steps.nIIIbottom - 1) - pb.z_m (pb.Steps.nIbottom - 1)
        ≤ (iceIIIConvParams env pb).eLid_m + (iceIIIConvParams env pb).deltaTBL_m))
    (hab : 1 ≤ iceIII_iConductEnd env pb)
    (hsdb : pb.Steps.nIbottom < iceIII_iConductEnd env pb)
    (hiob : iceIII_iConductEnd env pb ≤ iceIII_iConvectEnd env pb)
    (hcvb : iceIII_iConvectEnd env pb ≤ pb.Steps.nIIIbottom)
    (hr0b : pb.r_m pb.Steps.nIbottom = pb.Bulk.R_m - pb.z_m pb.Steps.nIbottom)
    (hPmb : ∀ i, pb.Steps.nIbottom + 1 ≤ i → i ≤ pb.Steps.nIIIbottom →
        pb.P_MPa (i-1) < pb.P_MPa i)
    (hposb : ∀ i, pb.Steps.nIbottom + 1 ≤ i → i ≤ pb.Steps.nIIIbottom →
        0 < qb.g_ms2 (i-1) ∧ 0 < qb.rho_kgm3 (i-1))
    (hqc : IceVConvect env pc = Except.ok qc)
    (hbrc : ¬ (pc.z_m (pc.Steps.nSurfIce - 1) - pc.z_m (pc.Steps.nIIIbottom - 1)
        ≤ (iceVConvParams env pc).eLid_m + (iceVConvParams env pc).deltaTBL_m))
    (hac : 1 ≤ iceV_iConductEnd env pc)
    (hsdc : pc.Steps.nIIIbottom < iceV_iConductEnd env pc)
    (hioc : iceV_iConductEnd env pc ≤ iceV_iConvectEnd env pc)
    (hcvc : iceV_iConvectEnd env pc ≤ pc.Steps.nSurfIce)
    (hr0c : pc.r_m pc.Steps.nIIIbottom = pc.Bulk.R_m - pc.z_m pc.Steps.nIIIbottom)
    (hPmc : ∀ i, pc.Steps.nIIIbottom + 1 ≤ i → i ≤ pc.Steps.nSurfIce →
        pc.P_MPa (i-1) < pc.P_MPa i)
    (hposc : ∀ i, pc.Steps.nIIIbottom + 1 ≤ i → i ≤ pc.Steps.nSurfIce →
        0 < qc.g_ms2 (i-1) ∧ 0 < qc.rho_kgm3 (i-1)) :
    (qa.P_MPa = pa.P_MPa
      ∧ ∀ i, 1 ≤ i → i ≤ pa.Steps.nIbottom →
          qa.z_m (i-1) < qa.z_m i ∧ qa.r_m i = pa.Bulk.R_m - qa.z_m i
          ∧ qa.r_m i < qa.r_m (i-1) ∧ qa.P_MPa (i-1) ≤ qa.P_MPa i)
    ∧ (qb.P_MPa = pb.P_MPa
      ∧ ∀ i, pb.Steps.nIbottom + 1 ≤ i → i ≤ pb.Steps.nIIIbottom →
          qb.z_m (i-1) < qb.z_m i ∧ qb.r_m i = pb.Bulk.R_m - qb.z_m i
          ∧ qb.r_m i < qb.r_m (i-1) ∧ qb.P_MPa (i-1) ≤ qb.P_MPa i)
    ∧ (qc.P_MPa = pc.P_MPa
      ∧ ∀ i, pc.Steps.nIIIbottom + 1 ≤ i → i ≤ pc.Steps.nSurfIce →
          qc.z_m (i-1) < qc.z_m i ∧ qc.r_m i = pc.Bulk.R_m - qc.z_m i
          ∧ qc.r_m i < qc.r_m (i-1) ∧ qc.P_MPa (i-1) ≤ qc.P_MPa i) := by
  have hfa := iceIConvect_ok_threeZone env pa qa hbra hqa
  have hfb := iceIIIConvect_ok_threeZone env pb qb hbrb hqb
  have hfc := iceVConvect_ok_threeZone env pc qc hbrc hqc
  subst hfa hfb hfc
  refine ⟨⟨?_, ?_⟩, ⟨?_, ?_⟩, ⟨?_, ?_⟩⟩
  · rw [tzFin_P, iceIAssigned_P]
  · have hm := tzFin_monotone (pa.Ocean.surfIceEOS "Ih") (pa.Ocean.surfIceEOS "Ih")
      (pa.Ocean.surfIceEOS "Ih") 0 (iceI_nConduct env pa) (iceI_nConvectEnd env pa)
      pa.Steps.nIbottom (iceIConvParams env pa).Tconv_K pa.PbI_MPa pa.Bulk.Tb_K 0
      (iceIAssigned env pa) haa (by omega) hioa (by omega)
      (by rw [iceIAssigned_r, iceIAssigned_z, iceIAssigned_BulkR]; exact hr0a)
      (by intro i h1 h2; rw [iceIAssigned_P]; exact hPma i h1 h2)
      hposa
    intro i h1 h2
    have h := hm i h1 h2
    rw [iceIAssigned_BulkR] at h
    exact h
  · rw [tzFin_P, iceIIIAssigned_P]
  · have hm := tzFin_monotone (pb.Ocean.surfIceEOS "III") (pb.Ocean.surfIceEOS "III")
      (pb.Ocean.surfIceEOS "III") pb.Steps.nIbottom (iceIII_iConductEnd env pb)
      (iceIII_iConvectEnd env pb) pb.Steps.nIIIbottom (iceIIIConvParams env pb).Tconv_K
      pb.PbIII_MPa pb.Bulk.TbIII_K (∑ j ∈ Finset.range pb.Steps.nIbottom, pb.MLayer_kg j)
      (iceIIIAssigned env pb) hab (by omega) hiob hsdb
      (by rw [iceIIIAssigned_r, iceIIIAssigned_z]; exact hr0b)
      (by intro i h1 h2; rw [iceIIIAssigned_P]; exact hPmb i h1 h2)
      hposb
    intro i h1 h2
    exact hm i h1 h2
  · rw [tzFin_P, iceVAssigned_P]
  · have hm := tzFin_monotone (pc.Ocean.surfIceEOS "V") (pc.Ocean.iceEOS "V")
      (pc.Ocean.surfIceEOS "V") pc.Steps.nIIIbottom (iceV_iConductEnd env pc)
      (iceV_iConvectEnd env pc) pc.Steps.nSurfIce (iceVConvParams env pc).Tconv_K
      pc.PbV_MPa pc.Bulk.TbV_K (∑ j ∈ Finset.range pc.Steps.nIIIbottom, pc.MLayer_kg j)
      (iceVAssigned env pc) hac (by omega) hioc hsdc
      (by rw [iceVAssigned_r, iceVAssigned_z]; exact hr0c)
      (by intro i h1 h2; rw [iceVAssigned_P]; exact hPmc i h1 h2)
      hposc
    intro i h1 h2
    exact hm i h1 h2

/-- C9 witness: concrete monotonicity instances on `pMono`, `pIII` and `pV`
runs with verified positive gravity and density at the previous shells. -/
theorem c9_monotonicity_witness :
    (resSt (IceIConvect env0 pMono)).z_m 0 < (resSt (IceIConvect env0 pMono)).z_m 1
    ∧ (resSt (IceIConvect env0 pMono)).r_m 1
        = pMono.Bulk.R_m - (resSt (IceIConvect env0 pMono)).z_m 1
    ∧ (resSt (IceIIIConvect env0 pIII)).z_m 1 < (resSt (IceIIIConvect env0 pIII)).z_m 2
    ∧ (resSt (IceIIIConvect env0 pIII)).r_m 2 < (resSt (IceIIIConvect env0 pIII)).r_m 1
    ∧ (resSt (IceVConvect env0 pV)).P_MPa 1 ≤ (resSt (IceVConvect env0 pV)).P_MPa 2 := by
  have hc := c9_monotonicity env0 pMono qMono pIII qIII pV qV
    pMono_run pMono_notWhole (by rw [pMono_nConduct])
    (by rw [pMono_nConduct, pMono_nConvectEnd])
    (by rw [pMono_nConvectEnd, show pMono.Steps.nIbottom = 2 from rfl]; omega)
    (by rw [show pMono.r_m 0 = 10 - ((0:ℕ):ℝ) from rfl, show pMono.Bulk.R_m = 10 from rfl,
        pMono_z])
    (by
      intro i h1 h2
      rw [show pMono.Steps.nIbottom = 2 from rfl] at h2
      interval_cases i <;> simp only [pMono_P] <;> norm_num)
    (by
      intro i h1 h2
      rw [show pMono.Steps.nIbottom = 2 from rfl] at h2
      interval_cases i
      · exact ⟨by rw [qMono_g0]; norm_num, by rw [qMono_rho0]; norm_num⟩
      · exact ⟨qMono_g1_pos, by rw [qMono_rho1]; norm_num⟩)
    pIII_run pIII_notWhole (by rw [pIII_iCd]; omega) (by rw [pIII_nIb, pIII_iCd]; omega)
    (by rw [pIII_iCd, pIII_iCv]; omega) (by rw [pIII_iCv, show pIII.Steps.nIIIbottom = 3 from rfl])
    (by rw [pIII_nIb, show pIII.r_m 1 = 10 - ((1:ℕ):ℝ) from rfl,
        show pIII.Bulk.R_m = 10 from rfl, pIII_z])
    (by
      intro i h1 h2
      rw [pIII_nIb] at h1
      rw [show pIII.Steps.nIIIbottom = 3 from rfl] at h2
      have h1a : 2 ≤ i := by omega
      interval_cases i <;> simp only [pIII_P] <;> norm_num)
    (by
      intro i h1 h2
      rw [pIII_nIb] at h1
      rw [show pIII.Steps.nIIIbottom = 3 from rfl] at h2
      have h1a : 2 ≤ i := by omega
      interval_cases i
      · exact ⟨by rw [qIII_g1]; norm_num, by rw [qIII_rho1]; norm_num⟩
      · exact ⟨qIII_g2_pos, by rw [qIII_rho2]; norm_num⟩)
    pV_run pV_notWhole (by rw [pV_iCd]; omega)
    (by rw [show pV.Steps.nIIIbottom = 1 from rfl, pV_iCd]; omega)
    (by rw [pV_iCd, pV_iCv]; omega) (by rw [pV_iCv, show pV.Steps.nSurfIce = 3 from rfl])
    (by rw [show pV.Steps.nIIIbottom = 1 from rfl, show pV.r_m 1 = 10 - ((1:ℕ):ℝ) from rfl,
        show pV.Bulk.R_m = 10 from rfl, pV_z])
    (by
      intro i h1 h2
      rw [show pV.Steps.nIIIbottom = 1 from rfl] at h1
      rw [show pV.Steps.nSurfIce = 3 from rfl] at h2
      have h1a : 2 ≤ i := by omega
      interval_cases i <;> simp only [show ∀ j, pV.P_MPa j = if j = 0 then 0 else (j : ℝ) - 1 from fun _ => rfl] <;> norm_num)
    (by
      intro i h1 h2
      rw [show pV.Steps.nIIIbottom = 1 from rfl] at h1
      rw [show pV.Steps.nSurfIce = 3 from rfl] at h2
      have h1a : 2 ≤ i := by omega
      interval_cases i
      · exact ⟨by rw [qV_g1]; norm_num, by rw [qV_rho1]; norm_num⟩
      · exact ⟨qV_g2_pos, by rw [qV_rho2]; norm_num⟩)
  have hI := hc.1.2 1 (le_refl 1) (by rw [show pMono.Steps.nIbottom = 2 from rfl]; omega)
  have hIII := hc.2.1.2 2 (by rw [pIII_nIb]) (by rw [show pIII.Steps.nIIIbottom = 3 from rfl]; omega)
  have hV := hc.2.2.2 2 (by rw [show pV.Steps.nIIIbottom = 1 from rfl])
    (by rw [show pV.Steps.nSurfIce = 3 from rfl]; omega)
  rw [pMono_run, pIII_run, pV_run]
  exact ⟨hI.1, hI.2.1, hIII.1, hIII.2.2.1, hV.2.2.2⟩

end PlanetProfile
